import Mathlib

/-! # Watchdog of the on-demand Minecraft server

A shallow embedding of `cmd/watchdog/main.go`: the sidecar that publishes the
task address, detects the server edition, waits for a first client and then
scales the service to zero after a run of idle polls.

The environment (socket tables, UDP exchanges, AWS answers) is an explicit
input; every poll of a loop consumes the next scripted observation.  A loop
that needs an observation the script no longer holds is reported as still
polling, never as finished.

Go's `int` is 64 bit.  The only arithmetic on it here is `counter++` under a
guard `counter <= bound` or `counter < bound`, which stays far from the
64-bit limit for any run shorter than `2^63` polls, so counters and windows
are `Int`.
-/

namespace Watchdog

/-! ## Constants (`const` block of `main.go`) -/

def javaPort : Nat := 25565
def rconPort : Nat := 25575
def bedrockPort : Nat := 19132

/-- Seconds in `maxStartupWait` (`10 * time.Minute`). -/
def maxStartupWaitSeconds : Int := 600

/-- The `Config` struct, filled once from the process environment. -/
structure Config where
  Cluster : String
  Service : String
  ServerName : String
  DNSZone : String
  SNSTopic : String
  StartupMin : Int
  ShutdownMin : Int
deriving Repr, DecidableEq

/-! ## The idle monitor (`monitorClientConnections`, lines 266-281) -/

/-- What the loop of `monitorClientConnections` did on a script of observations.
`counters` lists the value of `counter` after each completed poll, `shutdown`
tells whether the guard `counter <= cfg.ShutdownMin` failed (the code then calls
`shutdownService`), `rest` holds the observations that were never polled. -/
structure MonitorRun where
  counters : List Int
  shutdown : Bool
  rest : List Bool
deriving Repr, DecidableEq

/-- Body of one iteration: `if !isConnected { counter++ } else { counter = 0 }`. -/
def monitorStep (counter : Int) (connected : Bool) : Int :=
  if !connected then counter + 1 else 0

/-- The loop `for counter <= cfg.ShutdownMin { ... }` started with the given
value of `counter`; each iteration takes the next result of `isConnected`. -/
def monitorLoop (shutdownMin : Int) (counter : Int) (obs : List Bool) : MonitorRun :=
  match obs with
  | [] =>
    if counter ≤ shutdownMin then { counters := [], shutdown := false, rest := [] }
    else { counters := [], shutdown := true, rest := [] }
  | connected :: rest =>
    if counter ≤ shutdownMin then
      let next := monitorStep counter connected
      let r := monitorLoop shutdownMin next rest
      { r with counters := next :: r.counters }
    else { counters := [], shutdown := true, rest := connected :: rest }

/-- The polling part of `monitorClientConnections`: `counter := 0`, then the loop. -/
def monitorClientConnections (shutdownMin : Int) (obs : List Bool) : MonitorRun :=
  monitorLoop shutdownMin 0 obs

/-- Value of `counter` when the run stops (its initial `0` when no poll was made). -/
def MonitorRun.finalCounter (r : MonitorRun) : Int :=
  r.counters.getLastD 0

/-- Number of polls the loop made. -/
def MonitorRun.polls (r : MonitorRun) : Nat :=
  r.counters.length

/-- Length of the run of negative observations that ends a sequence. -/
def trailingIdle (obs : List Bool) : Nat :=
  (obs.reverse.takeWhile (fun o => !o)).length

/-! ## Waiting for the first client (`waitForInitialClientConnection`, lines 195-206) -/

/-- Outcome of `waitForInitialClientConnection` on a script of observations:
`result` is the returned boolean (`none` while the loop still polls because the
script ran out), `polls` the number of calls of `isConnected`, `rest` the
observations never polled. -/
structure WaitRun where
  result : Option Bool
  polls : Nat
  rest : List Bool
deriving Repr, DecidableEq

/-- The loop `for counter := 0; counter < cfg.StartupMin; counter++` from a given
value of `counter`. -/
def waitLoop (startupMin : Int) (counter : Int) (obs : List Bool) : WaitRun :=
  match obs with
  | [] =>
    if counter < startupMin then { result := none, polls := 0, rest := [] }
    else { result := some false, polls := 0, rest := [] }
  | connected :: rest =>
    if counter < startupMin then
      if connected then { result := some true, polls := 1, rest := rest }
      else
        let r := waitLoop startupMin (counter + 1) rest
        { r with polls := r.polls + 1 }
    else { result := some false, polls := 0, rest := connected :: rest }

/-- Embedding of `waitForInitialClientConnection`. -/
def waitForInitialClientConnection (startupMin : Int) (obs : List Bool) : WaitRun :=
  waitLoop startupMin 0 obs

/-! ## Socket table inspection (`isPortOpen`, `checkConnections`) -/

/-- The fields of a `psnet.ConnectionStat` the watchdog reads: the local port
(`conn.Laddr.Port`) and the status string. -/
structure ConnectionStat where
  lport : Nat
  status : String
deriving Repr, DecidableEq

/-- Embedding of `isPortOpen` on the table `psnet.Connections("all")` returned
(the error of that call is discarded by the code). -/
def isPortOpen (port : Nat) : List ConnectionStat → Bool
  | [] => false
  | conn :: conns =>
    if conn.lport = port ∧ conn.status = "LISTEN" then true else isPortOpen port conns

/-- Embedding of `checkConnections`: the number of `ESTABLISHED` entries on the port. -/
def checkConnections (port : Nat) : List ConnectionStat → Nat
  | [] => 0
  | conn :: conns =>
    if conn.lport = port ∧ conn.status = "ESTABLISHED" then checkConnections port conns + 1
    else checkConnections port conns

/-! ## The Bedrock ping (`buildBedrockPing`, `sendBedrockPing`) -/

/-- The table `hextable` of Go's `encoding/hex`: the bytes of `"0123456789abcdef"`. -/
def hextable : List Nat :=
  [48, 49, 50, 51, 52, 53, 54, 55, 56, 57, 97, 98, 99, 100, 101, 102]

/-- Go's `hex.Encode`: each source byte `v` gives `hextable[v>>4]`, `hextable[v&0x0f]`. -/
def hexEncode : List Nat → List Nat
  | [] => []
  | v :: src => hextable.getD (v >>> 4) 0 :: hextable.getD (v &&& 0x0f) 0 :: hexEncode src

/-- Value of one hexadecimal digit as read by Go's `hex.Decode`
(`0-9`, `a-f`, `A-F`). -/
def fromHexChar (c : Nat) : Option Nat :=
  if 48 ≤ c ∧ c ≤ 57 then some (c - 48)
  else if 97 ≤ c ∧ c ≤ 102 then some (c - 97 + 10)
  else if 65 ≤ c ∧ c ≤ 70 then some (c - 65 + 10)
  else none

/-- Go's `hex.Decode`: pairs of digits give `(a << 4) | b`; an odd length or a byte
that is no hexadecimal digit is an error. -/
def hexDecode : List Nat → Option (List Nat)
  | [] => some []
  | [_] => none
  | p :: q :: src =>
    match fromHexChar p, fromHexChar q, hexDecode src with
    | some a, some b, some out => some ((a <<< 4 ||| b) :: out)
    | _, _, _ => none

/-- The 16-byte magic of the unconnected ping. -/
def bedrockMagic : List Nat :=
  [0x00, 0xff, 0xff, 0x00, 0xfe, 0xfe, 0xfe, 0xfe, 0xfd, 0xfd, 0xfd, 0xfd, 0x12, 0x34, 0x56, 0x78]

/-- Embedding of `buildBedrockPing`.  The argument is the outcome of
`rand.Read(guid)` on the 8-byte buffer: `some guid` when `err == nil`, `none`
otherwise (the GUID is then left out). -/
def buildBedrockPing (rnd : Option (List Nat)) : List Nat :=
  let ping := [0x01] ++ [0x00, 0x00, 0x00, 0x00, 0x00, 0x00, 0x4e, 0x20]
  let ping := ping ++ bedrockMagic
  match rnd with
  | some guid => ping ++ hexEncode guid
  | none => ping

/-- Go's `bytes.Split` for a one-byte separator: the fields between the
occurrences of `sep` (one more field than there are separators). -/
def bytesSplit (sep : Nat) : List Nat → List (List Nat)
  | [] => [[]]
  | b :: s =>
    if b = sep then [] :: bytesSplit sep s
    else
      match bytesSplit sep s with
      | [] => [[b]]
      | field :: fields => (b :: field) :: fields

/-- ASCII `;`. -/
def semicolon : Nat := 59

/-- What the network does during one call of `sendBedrockPing`: whether
`net.Dial` and `conn.Write` fail, the datagram `conn.Read` delivers (empty when the
read times out or fails), the error flag of that read (discarded by the code), and
the outcome of `rand.Read` for the GUID. -/
structure PingExchange where
  dialErr : Bool
  writeErr : Bool
  received : List Nat
  readErr : Bool
  rnd : Option (List Nat)
deriving Repr, DecidableEq

/-- Calls the watchdog makes on the outside world. -/
inductive Effect
  | httpGet (url : String)
  | describeTasks (cluster task : String)
  | describeNetworkInterfaces (eni : String)
  | changeResourceRecordSets (zone name : String) (ttl : Nat) (value : String)
  | connections
  | udpDial (addr : String)
  | udpWrite (packet : List Nat)
  | udpRead
  | publish (topic message : String)
  | updateService (cluster service : String) (desiredCount : Int)
  | sleep (seconds : Nat)
deriving Repr, DecidableEq

def bedrockIP : String := "127.0.0.1:19132"

/-- Embedding of `sendBedrockPing`: the returned integer and the calls made.
`buffer[:n]` is the received datagram cut to the 1024 bytes of the buffer. -/
def sendBedrockPing (io : PingExchange) : Nat × List Effect :=
  if io.dialErr then (0, [Effect.udpDial bedrockIP])
  else if io.writeErr then
    (0, [Effect.udpDial bedrockIP, Effect.udpWrite (buildBedrockPing io.rnd)])
  else
    let calls := [Effect.udpDial bedrockIP, Effect.udpWrite (buildBedrockPing io.rnd),
      Effect.udpRead]
    let data := io.received.take 1024
    if data.length ≥ 34 then
      let parsedResponse := bytesSplit semicolon (data.drop 34)
      if parsedResponse.length > 4 then (1, calls) else (0, calls)
    else (0, calls)

/-- What the environment shows during one call of `isConnected`: the socket table
returned if `psnet.Connections` is asked, and the UDP exchange if a ping is sent. -/
structure ProbeIO where
  conns : List ConnectionStat
  ping : PingExchange
deriving Repr, DecidableEq

/-- Embedding of `isConnected`: the observation and the calls made. -/
def isConnected (edition : String) (io : ProbeIO) : Bool × List Effect :=
  if edition = "java" then
    (decide (checkConnections javaPort io.conns > 0), [Effect.connections])
  else
    (decide ((sendBedrockPing io.ping).1 > 0), (sendBedrockPing io.ping).2)

/-- The observations of successive polls: one call of `isConnected` per scripted
poll, in order. -/
def observations (edition : String) : List ProbeIO → List Bool
  | [] => []
  | io :: ios => (isConnected edition io).1 :: observations edition ios

/-! ## Process outcome and calls that may not return -/

/-- How a run of the watchdog stands at the end of the scripted environment. -/
inductive Outcome
  | exited (code : Nat) (msg : String)
  | returned
  | panicked
  | running
deriving Repr, DecidableEq

/-- Embedding of `exitWithError`: the message is logged, then `os.Exit(1)`. -/
def exitWithError (msg : String) : Outcome :=
  Outcome.exited 1 msg

/-- Exit status of the process: the argument of `os.Exit`, 0 when `main` returns,
2 when the Go runtime ends on a panic, none while the process still runs. -/
def Outcome.exitCode : Outcome → Option Nat
  | Outcome.exited code _ => some code
  | Outcome.returned => some 0
  | Outcome.panicked => some 2
  | Outcome.running => none

/-- Result of calling a function of the watchdog: it returns a value, or the
process stops (or is left polling) inside the call. -/
inductive Call (α : Type)
  | ret (a : α)
  | stop (o : Outcome)
deriving Repr, DecidableEq

/-- Sequencing: the second call is made only when the first one returned. -/
def Call.andThen {α β : Type} (r : Call α × List Effect)
    (k : α → Call β × List Effect) : Call β × List Effect :=
  match r.1 with
  | Call.ret a => ((k a).1, r.2 ++ (k a).2)
  | Call.stop o => (Call.stop o, r.2)

/-! ## Identity resolution (`fetchTaskID`, `resolvePublicIP`) -/

/-- A decoded JSON value, as far as `result["TaskARN"].(string)` tells them apart. -/
inductive JSONValue
  | str (s : String)
  | other
deriving Repr, DecidableEq

/-- Answer of the metadata endpoint: `http.Get` fails, the body does not decode
into a `map[string]interface{}`, or it decodes into the given map (the JSON
`null` decodes into the empty map). -/
inductive MetadataResponse
  | getError
  | decodeError
  | object (fields : List (String × JSONValue))
deriving Repr, DecidableEq

/-- Embedding of `fetchTaskID`; `metaURI` is the value of
`ECS_CONTAINER_METADATA_URI_V4`. -/
def fetchTaskID (metaURI : String) (resp : MetadataResponse) : Call String × List Effect :=
  let calls := [Effect.httpGet (metaURI ++ "/task")]
  match resp with
  | MetadataResponse.getError =>
    (Call.stop (exitWithError "Failed to get task metadata"), calls)
  | MetadataResponse.decodeError =>
    (Call.stop (exitWithError "Failed to parse task metadata"), calls)
  | MetadataResponse.object fields =>
    match fields.lookup "TaskARN" with
    | some (JSONValue.str taskID) => (Call.ret taskID, calls)
    | _ => (Call.stop (exitWithError "Invalid task ARN received"), calls)

/-- An attachment detail of an ECS task (`Name` and `Value` are pointers). -/
structure KeyValuePair where
  name : Option String
  value : Option String
deriving Repr, DecidableEq

structure Attachment where
  details : List KeyValuePair
deriving Repr, DecidableEq

structure Task where
  attachments : List Attachment
deriving Repr, DecidableEq

/-- A network interface: `association` is none for a nil `Association`, and holds
the `PublicIp` pointer otherwise. -/
structure NetworkInterface where
  association : Option (Option String)
deriving Repr, DecidableEq

/-- The loop over the attachment details: the value of the first detail named
`networkInterfaceId` (the empty string when there is none); the outer none is the
nil dereference of `*detail.Value`. -/
def findNetworkInterfaceId : List KeyValuePair → Option String
  | [] => some ""
  | detail :: details =>
    if detail.name = some "networkInterfaceId" then detail.value
    else findNetworkInterfaceId details

/-- Embedding of `resolvePublicIP`; the two answers are none when the AWS call
returns an error. -/
def resolvePublicIP (cfg : Config) (taskID : String) (tasks : Option (List Task))
    (interfaces : Option (List NetworkInterface)) : Call String × List Effect :=
  let c1 := Effect.describeTasks cfg.Cluster taskID
  match tasks with
  | none => (Call.stop (exitWithError "Failed to describe ECS task"), [c1])
  | some [] => (Call.stop (exitWithError "Failed to describe ECS task"), [c1])
  | some (task :: _) =>
    match task.attachments with
    | [] => (Call.stop Outcome.panicked, [c1])
    | attachment :: _ =>
      match findNetworkInterfaceId attachment.details with
      | none => (Call.stop Outcome.panicked, [c1])
      | some eni =>
        let c2 := Effect.describeNetworkInterfaces eni
        match interfaces with
        | none => (Call.stop (exitWithError "Failed to describe network interfaces"), [c1, c2])
        | some [] => (Call.stop Outcome.panicked, [c1, c2])
        | some (ni :: _) =>
          match ni.association with
          | some (some publicIP) => (Call.ret publicIP, [c1, c2])
          | _ => (Call.stop Outcome.panicked, [c1, c2])

/-! ## DNS, notifications, scaling -/

/-- Embedding of `updateDNSRecord`: one UPSERT of the A record with TTL 30. -/
def updateDNSRecord (cfg : Config) (publicIP : String) (dnsErr : Bool) :
    Call Unit × List Effect :=
  let calls := [Effect.changeResourceRecordSets cfg.DNSZone cfg.ServerName 30 publicIP]
  if dnsErr then (Call.stop (exitWithError "Failed to update DNS record"), calls)
  else (Call.ret (), calls)

/-- The text of the startup notification. -/
def startupMessage (cfg : Config) (edition publicIP now : String) : String :=
  "Server is online.\nService: " ++ cfg.Service ++ "\nEdition: " ++ edition ++
  "\nAddress: " ++ cfg.ServerName ++ " (" ++ publicIP ++ ")\nCluster: " ++ cfg.Cluster ++
  "\nTime: " ++ now

/-- The text of the shutdown notification. -/
def shutdownMessage (cfg : Config) (now : String) : String :=
  "Shutting down server.\nService: " ++ cfg.Service ++ "\nAddress: " ++ cfg.ServerName ++
  "\nCluster: " ++ cfg.Cluster ++ "\nTime: " ++ now

/-- Embedding of `sendStartupNotification`; the result of `Publish` is discarded. -/
def sendStartupNotification (cfg : Config) (edition publicIP now : String) :
    Call Unit × List Effect :=
  if cfg.SNSTopic = "" then (Call.ret (), [])
  else (Call.ret (), [Effect.publish cfg.SNSTopic (startupMessage cfg edition publicIP now)])

/-- Embedding of `sendShutdownNotification`; the result of `Publish` is discarded. -/
def sendShutdownNotification (cfg : Config) (now : String) : Call Unit × List Effect :=
  if cfg.SNSTopic = "" then (Call.ret (), [])
  else (Call.ret (), [Effect.publish cfg.SNSTopic (shutdownMessage cfg now)])

/-- Embedding of `shutdownService`: the notification, then `UpdateService` with
desired count 0, fatal when that call fails. -/
def shutdownService (cfg : Config) (now : String) (updateErr : Bool) :
    Call Unit × List Effect :=
  Call.andThen (sendShutdownNotification cfg now) fun _ =>
    let calls := [Effect.updateService cfg.Cluster cfg.Service 0]
    if updateErr then
      (Call.stop (exitWithError "Failed to set service desired count to zero"), calls)
    else (Call.ret (), calls)

/-! ## Edition detection (`determineEdition`, `waitForRCON`) -/

/-- The socket tables seen by the two `isPortOpen` calls of one iteration of the
detection loop. -/
structure DetectPoll where
  javaQuery : List ConnectionStat
  bedrockQuery : List ConnectionStat
deriving Repr, DecidableEq

/-- Embedding of `waitForRCON` on the tables seen by its successive polls; it is
left polling when the script ends. -/
def waitForRCON : List (List ConnectionStat) → Call Unit × List Effect
  | [] => (Call.stop Outcome.running, [])
  | table :: tables =>
    if isPortOpen rconPort table then (Call.ret (), [Effect.connections])
    else
      ((waitForRCON tables).1,
        Effect.connections :: Effect.sleep 1 :: (waitForRCON tables).2)

/-- The loop of `determineEdition` from a given value of `counter`. -/
def determineEditionLoop (rcon : List (List ConnectionStat)) (counter : Int) :
    List DetectPoll → Call String × List Effect
  | [] => (Call.stop Outcome.running, [])
  | poll :: polls =>
    if isPortOpen javaPort poll.javaQuery then
      Call.andThen (Call.ret (), [Effect.connections]) fun _ =>
        Call.andThen (waitForRCON rcon) fun _ => (Call.ret "java", [])
    else if isPortOpen bedrockPort poll.bedrockQuery then
      (Call.ret "bedrock", [Effect.connections, Effect.connections])
    else if counter + 1 > maxStartupWaitSeconds then
      (Call.stop
          (exitWithError "10 minutes elapsed without Minecraft server starting. Terminating."),
        [Effect.connections, Effect.connections, Effect.sleep 1])
    else
      ((determineEditionLoop rcon (counter + 1) polls).1,
        Effect.connections :: Effect.connections :: Effect.sleep 1 ::
          (determineEditionLoop rcon (counter + 1) polls).2)

/-- Embedding of `determineEdition`. -/
def determineEdition (detect : List DetectPoll) (rcon : List (List ConnectionStat)) :
    Call String × List Effect :=
  determineEditionLoop rcon 0 detect

/-! ## The whole run (`main`) -/

/-- The scripted environment of one run. -/
structure World where
  awsConfigErr : Bool
  metadataURI : String
  metadata : MetadataResponse
  tasks : Option (List Task)
  interfaces : Option (List NetworkInterface)
  dnsErr : Bool
  detect : List DetectPoll
  rcon : List (List ConnectionStat)
  probes : List ProbeIO
  startupTime : String
  shutdownTime : String
  publishErrs : List Bool
  updateErr : Bool
deriving Repr, DecidableEq

/-- Calls made by the polls of `waitForInitialClientConnection`: the probe, then
the one-minute sleep unless the probe was positive. -/
def waitEffects (edition : String) : List ProbeIO → List Effect
  | [] => []
  | io :: ios =>
    (isConnected edition io).2 ++
      (if (isConnected edition io).1 then [] else [Effect.sleep 60]) ++
      waitEffects edition ios

/-- Calls made by the polls of `monitorClientConnections`: the probe, then the
one-minute sleep. -/
def monitorEffects (edition : String) : List ProbeIO → List Effect
  | [] => []
  | io :: ios => (isConnected edition io).2 ++ [Effect.sleep 60] ++ monitorEffects edition ios

/-- The startup wait inside a run: the polls it makes and its result. -/
def waitPhase (cfg : Config) (edition : String) (probes : List ProbeIO) :
    Call Bool × List Effect :=
  let r := waitForInitialClientConnection cfg.StartupMin (observations edition probes)
  match r.result with
  | some b => (Call.ret b, waitEffects edition (probes.take r.polls))
  | none => (Call.stop Outcome.running, waitEffects edition (probes.take r.polls))

/-- The whole of `monitorClientConnections` inside a run: the polling loop, then
`shutdownService`. -/
def monitorPhase (cfg : Config) (edition : String) (probes : List ProbeIO)
    (now : String) (updateErr : Bool) : Call Unit × List Effect :=
  let r := monitorClientConnections cfg.ShutdownMin (observations edition probes)
  if r.shutdown then
    Call.andThen (Call.ret (), monitorEffects edition (probes.take r.polls)) fun _ =>
      shutdownService cfg now updateErr
  else (Call.stop Outcome.running, monitorEffects edition (probes.take r.polls))

/-- Number of probes the startup wait consumed. -/
def waitPolls (cfg : Config) (edition : String) (probes : List ProbeIO) : Nat :=
  (waitForInitialClientConnection cfg.StartupMin (observations edition probes)).polls

/-- The statements of `main` from `fetchTaskID` on. -/
def mainCalls (cfg : Config) (w : World) : Call Unit × List Effect :=
  Call.andThen (fetchTaskID w.metadataURI w.metadata) fun taskID =>
  Call.andThen (resolvePublicIP cfg taskID w.tasks w.interfaces) fun publicIP =>
  Call.andThen (updateDNSRecord cfg publicIP w.dnsErr) fun _ =>
  Call.andThen (determineEdition w.detect w.rcon) fun edition =>
  Call.andThen (sendStartupNotification cfg edition publicIP w.startupTime) fun _ =>
  Call.andThen (waitPhase cfg edition w.probes) fun connected =>
    if connected then
      monitorPhase cfg edition (w.probes.drop (waitPolls cfg edition w.probes))
        w.shutdownTime w.updateErr
    else
      Call.andThen (shutdownService cfg w.shutdownTime w.updateErr) fun _ =>
        (Call.stop
          (exitWithError "No initial client connection established, service shut down."),
          [])

/-- Embedding of `main` after `arg.MustParse` filled the configuration: the
outcome of the process and the calls it made, in order. -/
def run (cfg : Config) (w : World) : Outcome × List Effect :=
  if w.awsConfigErr then (exitWithError "Failed to load AWS configuration", [])
  else
    match (mainCalls cfg w).1 with
    | Call.ret _ => (Outcome.returned, (mainCalls cfg w).2)
    | Call.stop o => (o, (mainCalls cfg w).2)

/-! ## Scenario A of the specification -/

/-- A configuration with startup window 2. -/
def scenarioAConfig : Config :=
  { Cluster := "minecraft", Service := "minecraft-server", ServerName := "mc.example.com",
    DNSZone := "Z0123456789", SNSTopic := "arn:aws:sns:eu-central-1:111122223333:minecraft",
    StartupMin := 2, ShutdownMin := 20 }

/-- A UDP exchange in which the read times out. -/
def silentPing : PingExchange :=
  { dialErr := false, writeErr := false, received := [], readErr := true, rnd := none }

/-- An environment in which identity, DNS and edition detection (Bedrock) succeed,
the first two probes are negative and `UpdateService` succeeds. -/
def scenarioAWorld : World :=
  { awsConfigErr := false,
    metadataURI := "http://169.254.170.2/v4/0123",
    metadata := MetadataResponse.object [("TaskARN", JSONValue.str "arn:aws:ecs:task/1")],
    tasks := some [{ attachments :=
      [{ details := [{ name := some "networkInterfaceId", value := some "eni-1" }] }] }],
    interfaces := some [{ association := some (some "198.51.100.7") }],
    dnsErr := false,
    detect := [{ javaQuery := [], bedrockQuery := [{ lport := 19132, status := "LISTEN" }] }],
    rcon := [],
    probes := [{ conns := [], ping := silentPing }, { conns := [], ping := silentPing }],
    startupTime := "Wed, 04 Nov 2026 10:00:00 UTC",
    shutdownTime := "Wed, 04 Nov 2026 10:02:00 UTC",
    publishErrs := [],
    updateErr := false }

/-- A UDP exchange answered by 34 bytes followed by `;;;;;`. -/
def answeredPing : PingExchange :=
  { dialErr := false, writeErr := false,
    received := List.replicate 34 0 ++ [59, 59, 59, 59, 59], readErr := false,
    rnd := some [0x00, 0x1f, 0xa0, 0xff, 0x7e, 0x09, 0x10, 0xab] }

/-- An environment like that of Scenario A in which the first probe is answered
and the two following ones are not. -/
def idleTimeoutWorld : World :=
  { scenarioAWorld with
    probes := [{ conns := [], ping := answeredPing }, { conns := [], ping := silentPing },
               { conns := [], ping := silentPing }] }

/-! ## Vocabulary for the detection properties -/

/-- Neither `isPortOpen` call of a detection poll sees its listener. -/
def DetectPoll.quiet (p : DetectPoll) : Bool :=
  !isPortOpen javaPort p.javaQuery && !isPortOpen bedrockPort p.bedrockQuery

/-- The detection polls of a sequence of once-per-second snapshots of the socket
table: both queries of an iteration see the snapshot of that second. -/
def snapshotPolls (snaps : List (List ConnectionStat)) : List DetectPoll :=
  snaps.map fun snap => { javaQuery := snap, bedrockQuery := snap }

/-- The calls of `n` polls of `waitForRCON` that saw no listener: a socket-table
query and a one-second sleep each. -/
def rconWaitCalls : Nat → List Effect
  | 0 => []
  | n + 1 => Effect.connections :: Effect.sleep 1 :: rconWaitCalls n

/-- A snapshot in which only the Java game port listens. -/
def javaOnlySnapshot : List ConnectionStat :=
  [{ lport := 25565, status := "LISTEN" }]

/-- A snapshot in which only the Bedrock port listens. -/
def bedrockOnlySnapshot : List ConnectionStat :=
  [{ lport := 19132, status := "LISTEN" }]

/-- A snapshot in which the Java game port and the RCON port listen. -/
def javaRconSnapshot : List ConnectionStat :=
  [{ lport := 25565, status := "LISTEN" }, { lport := 25575, status := "LISTEN" }]

/-- A detection poll in which neither port listens. -/
def quietPoll : DetectPoll :=
  { javaQuery := [], bedrockQuery := [] }

/-- 600 polls without a listener, then a poll in which the Bedrock port listens. -/
def listenerAtPoll601 : List DetectPoll :=
  List.replicate 600 quietPoll ++
    [{ javaQuery := bedrockOnlySnapshot, bedrockQuery := bedrockOnlySnapshot }]

/-! ## Vocabulary for the notification and DNS properties -/

/-- The calls that belong to a probe: the socket-table query and the UDP exchange. -/
def Effect.isProbe : Effect → Bool
  | Effect.connections => true
  | Effect.udpDial _ => true
  | Effect.udpWrite _ => true
  | Effect.udpRead => true
  | _ => false

/-- The `UpdateService` requests. -/
def Effect.isUpdateService : Effect → Bool
  | Effect.updateService _ _ _ => true
  | _ => false

/-- The `Publish` requests. -/
def Effect.isPublish : Effect → Bool
  | Effect.publish _ _ => true
  | _ => false

/-- The text `part` occurs inside `msg`. -/
def containsText (msg part : String) : Prop :=
  ∃ before after : String, msg = before ++ part ++ after

/-- The actions of a Route 53 change (`types.ChangeAction`). -/
inductive ChangeAction
  | CREATE
  | DELETE
  | UPSERT
deriving Repr, DecidableEq

/-- A record set as `updateDNSRecord` fills it: name, type, TTL and values. -/
structure ResourceRecordSet where
  name : String
  type : String
  ttl : Nat
  records : List String
deriving Repr, DecidableEq

structure Change where
  action : ChangeAction
  resourceRecordSet : ResourceRecordSet
deriving Repr, DecidableEq

/-- The `ChangeResourceRecordSetsInput`: hosted zone and change batch. -/
structure ChangeRequest where
  hostedZoneId : String
  changes : List Change
deriving Repr, DecidableEq

/-- The request `updateDNSRecord` builds (lines 129-146): one UPSERT of the A record
`cfg.ServerName` with TTL 30 and the single value `publicIP`, in zone `cfg.DNSZone`. -/
def dnsChangeRequest (cfg : Config) (publicIP : String) : ChangeRequest :=
  { hostedZoneId := cfg.DNSZone,
    changes :=
      [{ action := ChangeAction.UPSERT,
         resourceRecordSet :=
           { name := cfg.ServerName, type := "A", ttl := 30, records := [publicIP] } }] }

/-- A hosted zone as a map from (name, type) to the record set stored there. -/
abbrev Zone := String × String → Option ResourceRecordSet

/-- Effect of one change on a zone: UPSERT inserts or replaces the record set of
its (name, type); CREATE inserts where nothing is stored; DELETE removes. -/
def applyChange (zone : Zone) (change : Change) : Zone :=
  fun key =>
    if key = (change.resourceRecordSet.name, change.resourceRecordSet.type) then
      match change.action with
      | ChangeAction.UPSERT => some change.resourceRecordSet
      | ChangeAction.CREATE =>
        match zone key with
        | some stored => some stored
        | none => some change.resourceRecordSet
      | ChangeAction.DELETE => none
    else zone key

/-- Effect of a change batch: its changes applied in order. -/
def applyBatch (zone : Zone) (changes : List Change) : Zone :=
  changes.foldl applyChange zone

end Watchdog

/-! # The launcher Lambda (`cmd/lambda/launcher/main.go`) -/

namespace Launcher

/-- The `Config` struct of the launcher. -/
structure Config where
  Region : String
  Cluster : String
  Service : String
deriving Repr, DecidableEq

/-- The field of an ECS service description the handler reads (`DesiredCount`,
an `int32`). -/
structure Service where
  desiredCount : Int
deriving Repr, DecidableEq

/-- Answer of `DescribeServices`: an error, or the list of services. -/
inductive DescribeResult
  | failed (err : String)
  | ok (services : List Service)
deriving Repr, DecidableEq

/-- The ECS requests of the launcher. -/
inductive Request
  | describeServices (cluster : String) (services : List String)
  | updateService (cluster service : String) (desiredCount : Int)
deriving Repr, DecidableEq

/-- Embedding of `UpdateDesiredCount`: one `UpdateService` request; `updateErr` is
the error that request returns (none for nil). -/
def UpdateDesiredCount (cfg : Config) (count : Int) (updateErr : Option String) :
    Option String × List Request :=
  (updateErr, [Request.updateService cfg.Cluster cfg.Service count])

/-- Embedding of `HandleRequest`: the returned error (none for nil) and the
requests made.  In the empty-list branch the code returns the variable `err`,
which holds the nil error of the describe call. -/
def HandleRequest (cfg : Config) (describe : DescribeResult) (updateErr : Option String) :
    Option String × List Request :=
  let calls := [Request.describeServices cfg.Cluster [cfg.Service]]
  match describe with
  | DescribeResult.failed err => (some err, calls)
  | DescribeResult.ok services =>
    let err : Option String := none
    match services with
    | [] => (err, calls)
    | service :: _ =>
      if service.desiredCount = 0 then
        match (UpdateDesiredCount cfg 1 updateErr).1 with
        | some e => (some e, calls ++ (UpdateDesiredCount cfg 1 updateErr).2)
        | none => (none, calls ++ (UpdateDesiredCount cfg 1 updateErr).2)
      else (none, calls)

end Launcher

/-! # The log forwarder Lambda (`cmd/lambda/logforwarder/main.go`) -/

namespace LogForwarder

/-- Go's `strings.Split` for a one-character separator, on the characters of the
string: the parts between the separators (one more than there are separators). -/
def stringsSplit (sep : Char) : List Char → List (List Char)
  | [] => [[]]
  | c :: s =>
    if c = sep then [] :: stringsSplit sep s
    else
      match stringsSplit sep s with
      | [] => [[c]]
      | part :: parts => (c :: part) :: parts

/-- Go's `strings.TrimPrefix`: `s` without the leading `pre` when it starts with
it, `s` itself otherwise. -/
def stringsTrimPrefix (s pre : List Char) : List Char :=
  if pre.isPrefixOf s then s.drop pre.length else s

/-- Go's `strings.Contains`. -/
def stringsContains (s sub : List Char) : Bool :=
  match s with
  | [] => sub.isPrefixOf []
  | c :: rest => sub.isPrefixOf (c :: rest) || stringsContains rest sub

/-- Embedding of `extractLogGroupName`. -/
def extractLogGroupName (arn : String) : String :=
  let parts := stringsSplit ':' arn.data
  if parts.length < 6 then ""
  else String.mk (stringsTrimPrefix (parts.getD 5 []) "log-group:".data)

/-- The value the CDK stack passes as `TARGET_LOG_GROUP_ARN` (`awslogs.go`, line 97):
`fmt.Sprintf("arn:aws:logs:%s:%s:log-group:%s:*", region, account, logGroupName)`. -/
def targetLogGroupArn (region account logGroupName : String) : String :=
  "arn:aws:logs:" ++ region ++ ":" ++ account ++ ":log-group:" ++ logGroupName ++ ":*"

/-- The log group name chosen by `NewLogForwarder` from `TARGET_LOG_GROUP_NAME`
and `TARGET_LOG_GROUP_ARN`; none when both are empty (the process then exits). -/
def resolveLogGroupName (logGroupName logGroupArn : String) : Option String :=
  if logGroupName = "" ∧ logGroupArn = "" then none
  else if logGroupName = "" then some (extractLogGroupName logGroupArn)
  else some logGroupName

/-- A log event of the payload (`CloudWatchLogEvent`). -/
structure CloudWatchLogEvent where
  ID : String
  Timestamp : Int
  Message : String
deriving Repr, DecidableEq

/-- The decoded payload (`LogData`). -/
structure LogData where
  MessageType : String
  LogEvents : List CloudWatchLogEvent
  LogGroup : String
  LogStream : String
deriving Repr, DecidableEq

/-- Outcome of reading a gzip stream: `gzip.NewReader` fails, `io.Copy` fails, or
the decompressed bytes. -/
inductive GunzipResult
  | readerErr (err : String)
  | copyErr (err : String)
  | ok (data : List Nat)
deriving Repr, DecidableEq

/-- The library decoders `HandleRequest` relies on: `base64.StdEncoding.DecodeString`,
the gzip reader and `json.Unmarshal` into `LogData`. -/
structure Codecs where
  base64Decode : String → Except String (List Nat)
  gunzip : List Nat → GunzipResult
  jsonUnmarshal : List Nat → Except String LogData

/-- Embedding of `decompressGzip`. -/
def decompressGzip (codecs : Codecs) (data : List Nat) : Except String (List Nat) :=
  match codecs.gunzip data with
  | GunzipResult.readerErr err => Except.error ("failed to create gzip reader: " ++ err)
  | GunzipResult.copyErr err => Except.error ("failed to decompress data: " ++ err)
  | GunzipResult.ok out => Except.ok out

/-- What the environment provides during one call of `forwardLogEvent`: the clock
and the random suffix of the stream name, and the errors of `CreateLogStream` and
`PutLogEvents` (none for nil). -/
structure ForwardIO where
  unixNano : Int
  randomSuffix : Nat
  createErr : Option String
  putErr : Option String
deriving Repr, DecidableEq

/-- The CloudWatch Logs requests of the forwarder. -/
inductive Request
  | createLogStream (logGroupName logStreamName : String)
  | putLogEvents (logGroupName logStreamName message : String) (timestamp : Int)
deriving Repr, DecidableEq

/-- Embedding of `generateUniqueLogStreamName`. -/
def generateUniqueLogStreamName (io : ForwardIO) : String :=
  "forwarded-" ++ toString io.unixNano ++ "-" ++ toString io.randomSuffix

/-- Embedding of `forwardLogEvent`: the returned error and the requests made. -/
def forwardLogEvent (logGroupName : String) (io : ForwardIO) (event : CloudWatchLogEvent) :
    Option String × List Request :=
  let logStreamName := generateUniqueLogStreamName io
  let create := Request.createLogStream logGroupName logStreamName
  let put := Request.putLogEvents logGroupName logStreamName event.Message event.Timestamp
  let createFails : Bool :=
    match io.createErr with
    | some err => !stringsContains err.data "ResourceAlreadyExistsException".data
    | none => false
  if createFails then (io.createErr, [create])
  else
    match io.putErr with
    | some err => (some err, [create, put])
    | none => (none, [create, put])

/-- The loop over `logData.LogEvents`: one call of `forwardLogEvent` per event, in
order; the `i`-th call meets the environment `io i`.  A failed forward is logged
and the loop goes on. -/
def forwardEvents (logGroupName : String) (io : Nat → ForwardIO) (i : Nat) :
    List CloudWatchLogEvent → List (Option String × List Request)
  | [] => []
  | event :: events =>
    forwardLogEvent logGroupName (io i) event :: forwardEvents logGroupName io (i + 1) events

/-- Embedding of `HandleRequest`: the returned error (none for nil) and the
outcome of every call of `forwardLogEvent`, in order. -/
def HandleRequest (codecs : Codecs) (logGroupName : String) (io : Nat → ForwardIO)
    (data : String) : Option String × List (Option String × List Request) :=
  match codecs.base64Decode data with
  | Except.error err => (some err, [])
  | Except.ok decodedData =>
    match decompressGzip codecs decodedData with
    | Except.error err => (some err, [])
    | Except.ok decompressedData =>
      match codecs.jsonUnmarshal decompressedData with
      | Except.error err => (some err, [])
      | Except.ok logData => (none, forwardEvents logGroupName io 0 logData.LogEvents)

/-- A sample payload decoder: every payload parses into two log events. -/
def sampleCodecs : Codecs :=
  { base64Decode := fun _ => Except.ok [31, 139],
    gunzip := fun _ => GunzipResult.ok [123, 125],
    jsonUnmarshal := fun _ =>
      Except.ok { MessageType := "DATA_MESSAGE",
                  LogEvents := [{ ID := "1", Timestamp := 1, Message := "first" },
                                { ID := "2", Timestamp := 2, Message := "second" }],
                  LogGroup := "/aws/route53/mc.example.com", LogStream := "stream" } }

/-- An environment in which every `CreateLogStream` is refused. -/
def refusingEnv : Nat → ForwardIO :=
  fun _ => { unixNano := 0, randomSuffix := 0, createErr := some "AccessDeniedException",
             putErr := none }

end LogForwarder

/-! # The CDK server configuration (`cdk/app.go`) -/

namespace Cdk

/-- Transport protocols (`awsecs.Protocol`, and the protocol of an `awsec2.Port`). -/
inductive Protocol
  | TCP
  | UDP
deriving Repr, DecidableEq

/-- A security-group port rule (`awsec2.Port`): protocol and port range. -/
structure Port where
  protocol : Protocol
  fromPort : Nat
  toPort : Nat
deriving Repr, DecidableEq

/-- The rule `awsec2.Port_Tcp(port)`: TCP on the single port. -/
def Port_Tcp (port : Nat) : Port :=
  { protocol := Protocol.TCP, fromPort := port, toPort := port }

/-- Embedding of `getEnvOrDefault`; `getenv` is `os.Getenv` (empty for an unset
variable). -/
def getEnvOrDefault (getenv : String → String) (envVar defaultValue : String) : String :=
  if getenv envVar ≠ "" then getenv envVar else defaultValue

/-- The `ServerConfig` struct. -/
structure ServerConfig where
  Port : Nat
  Protocol : Cdk.Protocol
  Image : String
  Debug : Bool
  IngressPort : Cdk.Port
  Version : String
  Motd : String
  Difficulty : String
  MaxPlayers : String
  AllowNether : String
  AnnouncePlayerAchievements : String
  GenerateStructures : String
  Hardcore : String
  SnooperEnabled : String
  MaxBuildHeight : String
  SpawnAnimals : String
  SpawnMonsters : String
  SpawnNpcs : String
  Seed : String
  Mode : String
  Pvp : String
  OnlineMode : String
  ServerName : String
  EnableWhitelist : String
  Whitelist : String
  OpPermissionLevel : String
  LevelType : String
  SpawnProtection : String
  ViewDistance : String
  Icon : String
  OverrideIcon : String
  OverrideWhitelist : String
deriving Repr, DecidableEq

/-- Embedding of `ConfigureServer`. -/
def ConfigureServer (getenv : String → String) (edition debug : String) : ServerConfig :=
  let port := if edition ≠ "java" then 19132 else 25565
  let protocol := if edition ≠ "java" then Protocol.UDP else Protocol.TCP
  let image := if edition ≠ "java" then "itzg/minecraft-bedrock-server" else "itzg/minecraft-server"
  { Port := port,
    Protocol := protocol,
    Image := image,
    Debug := decide (debug = "true"),
    IngressPort := Port_Tcp port,
    Version := getEnvOrDefault getenv "MINECRAFT_VERSION" "LATEST",
    Motd := getEnvOrDefault getenv "MINECRAFT_MOTD" "Welcome to the on-demand minecraft server!",
    Difficulty := getEnvOrDefault getenv "MINECRAFT_DIFFICULTY" "easy",
    MaxPlayers := getEnvOrDefault getenv "MINECRAFT_MAX_PLAYERS" "20",
    AllowNether := getEnvOrDefault getenv "MINECRAFT_ALLOW_NETHER" "true",
    AnnouncePlayerAchievements := getEnvOrDefault getenv "MINECRAFT_ANNOUNCE_PLAYER_ACHIEVEMENTS" "true",
    GenerateStructures := getEnvOrDefault getenv "MINECRAFT_GENERATE_STRUCTURES" "true",
    Hardcore := getEnvOrDefault getenv "MINECRAFT_HARDCORE" "false",
    SnooperEnabled := getEnvOrDefault getenv "MINECRAFT_SNOOPER_ENABLED" "true",
    MaxBuildHeight := getEnvOrDefault getenv "MINECRAFT_MAX_BUILD_HEIGHT" "256",
    SpawnAnimals := getEnvOrDefault getenv "MINECRAFT_SPAWN_ANIMALS" "true",
    SpawnMonsters := getEnvOrDefault getenv "MINECRAFT_SPAWN_MONSTERS" "true",
    SpawnNpcs := getEnvOrDefault getenv "MINECRAFT_SPAWN_NPCS" "true",
    Seed := getEnvOrDefault getenv "MINECRAFT_SEED" "",
    Mode := getEnvOrDefault getenv "MINECRAFT_MODE" "survival",
    Pvp := getEnvOrDefault getenv "MINECRAFT_PVP" "true",
    OnlineMode := getEnvOrDefault getenv "MINECRAFT_ONLINE_MODE" "true",
    ServerName := getEnvOrDefault getenv "MINECRAFT_SERVER_NAME" "",
    EnableWhitelist := getEnvOrDefault getenv "MINECRAFT_ENABLE_WHITELIST" "false",
    Whitelist := getEnvOrDefault getenv "MINECRAFT_WHITELIST" "",
    OpPermissionLevel := getEnvOrDefault getenv "MINECRAFT_OP_PERMISSION_LEVEL" "1",
    LevelType := getEnvOrDefault getenv "MINECRAFT_LEVEL_TYPE" "minecraft:default",
    SpawnProtection := getEnvOrDefault getenv "MINECRAFT_SPAWN_PROTECTION" "0",
    ViewDistance := getEnvOrDefault getenv "MINECRAFT_VIEW_DISTANCE" "10",
    Icon := getEnvOrDefault getenv "MINECRAFT_ICON" "",
    OverrideIcon := getEnvOrDefault getenv "MINECRAFT_OVERRIDE_ICON" "false",
    OverrideWhitelist := getEnvOrDefault getenv "MINECRAFT_OVERRIDE_WHITELIST" "false" }

end Cdk

namespace Watchdog

/-! ## Properties of the idle monitor -/

theorem getLastD_cons_eq (a c : Int) (l : List Int) :
    (a :: l).getLastD c = l.getLastD a := by
  cases l <;> simp [List.getLastD]

theorem monitorLoop_shutdown_iff (W : Int) (obs : List Bool) :
    ∀ c : Int, (monitorLoop W c obs).shutdown = true ↔
      W < (monitorLoop W c obs).counters.getLastD c := by
  induction obs with
  | nil =>
    intro c
    by_cases h : c ≤ W
    · simp [monitorLoop, h]
    · simp [monitorLoop, h]; omega
  | cons o rest ih =>
    intro c
    by_cases h : c ≤ W
    · simp only [monitorLoop, h, if_true, getLastD_cons_eq]
      exact ih (monitorStep c o)
    · simp [monitorLoop, h]; omega

theorem monitorLoop_counters_ne_nil (W c : Int) (obs : List Bool)
    (h : (monitorLoop W c obs).counters ≠ []) : c ≤ W := by
  by_contra hc
  cases obs <;> simp [monitorLoop, hc] at h

theorem monitorLoop_dropLast_le (W : Int) (obs : List Bool) :
    ∀ c : Int, ∀ x ∈ (monitorLoop W c obs).counters.dropLast, x ≤ W := by
  induction obs with
  | nil =>
    intro c x hx
    by_cases h : c ≤ W <;> simp [monitorLoop, h] at hx
  | cons o rest ih =>
    intro c x hx
    by_cases h : c ≤ W
    · simp only [monitorLoop, h, if_true] at hx
      cases hr : (monitorLoop W (monitorStep c o) rest).counters with
      | nil => simp [hr] at hx
      | cons y ys =>
        rw [hr, List.dropLast_cons₂] at hx
        rcases List.mem_cons.mp hx with hx | hx
        · rw [hx]
          exact monitorLoop_counters_ne_nil W _ rest (by simp [hr])
        · have := ih (monitorStep c o) x
          rw [hr] at this
          exact this hx
    · simp [monitorLoop, h] at hx

/-- C1: for every idle window `W >= 0` and every sequence of observations, the
loop of `monitorClientConnections` ends in `shutdownService` exactly when the
idle counter is strictly greater than `W`; at every earlier poll the counter was
at most `W`, and a run that stops with the counter equal to `W` has not shut down. -/
theorem monitor_shutdown_iff_counter_exceeds (W : Int) (_hW : 0 ≤ W) (obs : List Bool) :
    ((monitorClientConnections W obs).shutdown = true ↔
        W < (monitorClientConnections W obs).finalCounter) ∧
    (∀ x ∈ (monitorClientConnections W obs).counters.dropLast, x ≤ W) ∧
    ((monitorClientConnections W obs).finalCounter = W →
        (monitorClientConnections W obs).shutdown = false) := by
  have hiff := monitorLoop_shutdown_iff W obs 0
  refine ⟨hiff, monitorLoop_dropLast_le W obs 0, ?_⟩
  intro hfin
  cases hs : (monitorClientConnections W obs).shutdown with
  | false => rfl
  | true =>
    have := (hiff.mp hs)
    unfold MonitorRun.finalCounter monitorClientConnections at hfin
    omega

theorem monitor_shutdown_iff_counter_exceeds_witness :
    (0 : Int) ≤ 3 ∧
    (((monitorClientConnections 3 [false, false, false, false]).shutdown = true ↔
        3 < (monitorClientConnections 3 [false, false, false, false]).finalCounter) ∧
    (∀ x ∈ (monitorClientConnections 3 [false, false, false, false]).counters.dropLast, x ≤ 3) ∧
    ((monitorClientConnections 3 [false, false, false, false]).finalCounter = 3 →
        (monitorClientConnections 3 [false, false, false, false]).shutdown = false)) :=
  ⟨by decide, monitor_shutdown_iff_counter_exceeds 3 (by decide) [false, false, false, false]⟩

/-- C2 fails as stated: with idle window 3 the observations
`[false,false,true,false,false,false]` leave the counter at 3, which is not
greater than 3, so the loop has not shut down after the 6th poll, and a 7th
observation is polled. -/
theorem scenarioD_no_shutdown_after_six_polls :
    (monitorClientConnections 3 [false, false, true, false, false, false]).shutdown = false ∧
    (monitorClientConnections 3 [false, false, true, false, false, false, true]).polls = 7 ∧
    (monitorClientConnections 3 [false, false, true, false, false, false, true]).shutdown
      = false := by
  decide

/-- C2 (amended): with idle window 3 and the observations
`[false,false,true,false,false,false]` the idle counter takes the values
`[1,2,0,1,2,3]` and the loop is still polling after the 6th poll; a 7th poll is
made, and the shutdown is triggered exactly after it when it is negative
(counter 4, no 8th poll), while a positive 7th observation resets the counter. -/
theorem scenarioD_shutdown_after_seventh_poll (rest : List Bool) :
    monitorClientConnections 3 [false, false, true, false, false, false]
      = { counters := [1, 2, 0, 1, 2, 3], shutdown := false, rest := [] } ∧
    monitorClientConnections 3 ([false, false, true, false, false, false] ++ false :: rest)
      = { counters := [1, 2, 0, 1, 2, 3, 4], shutdown := true, rest := rest } ∧
    (monitorClientConnections 3
        ([false, false, true, false, false, false] ++ true :: rest)).counters.take 7
      = [1, 2, 0, 1, 2, 3, 0] := by
  refine ⟨by decide, ?_, ?_⟩
  · cases rest <;> simp [monitorClientConnections, monitorLoop, monitorStep]
  · simp [monitorClientConnections, monitorLoop, monitorStep]

theorem trailingIdle_cons_of_all (o : Bool) (t : List Bool) (h : ∀ x ∈ t, x = false) :
    trailingIdle (o :: t) = if o then t.length else t.length + 1 := by
  unfold trailingIdle
  rw [List.reverse_cons, List.takeWhile_append_of_pos]
  · cases o <;> simp [List.takeWhile_cons]
  · intro a ha
    rw [h a (List.mem_reverse.mp ha)]
    rfl

theorem trailingIdle_cons_of_not_all (o : Bool) (t : List Bool) (h : ¬ ∀ x ∈ t, x = false) :
    trailingIdle (o :: t) = trailingIdle t := by
  unfold trailingIdle
  rw [List.reverse_cons, List.takeWhile_append]
  have hne : (t.reverse.takeWhile (fun o => !o)).length ≠ t.reverse.length := by
    intro hlen
    apply h
    have hpre : t.reverse.takeWhile (fun o => !o) <+: t.reverse := List.takeWhile_prefix _
    have heq := hpre.eq_of_length hlen
    rw [List.takeWhile_eq_self_iff] at heq
    intro x hx
    have := heq x (List.mem_reverse.mpr hx)
    cases x <;> simp_all
  rw [if_neg hne]

theorem trailingIdle_replicate (k : Nat) : trailingIdle (List.replicate k false) = k := by
  unfold trailingIdle
  rw [List.reverse_replicate, List.takeWhile_eq_self_iff.mpr, List.length_replicate]
  intro x hx
  rw [List.eq_of_mem_replicate hx]
  rfl

theorem trailingIdle_append_positive (pre : List Bool) (k : Nat) :
    trailingIdle (pre ++ true :: List.replicate k false) = k := by
  unfold trailingIdle
  rw [List.reverse_append, List.reverse_cons, List.reverse_replicate, List.append_assoc,
    List.takeWhile_append_of_pos]
  · simp [List.takeWhile_cons]
  · intro x hx
    rw [List.eq_of_mem_replicate hx]
    rfl

theorem monitorLoop_counters_length_le (W : Int) (obs : List Bool) :
    ∀ c : Int, (monitorLoop W c obs).counters.length ≤ obs.length := by
  induction obs with
  | nil => intro c; by_cases h : c ≤ W <;> simp [monitorLoop, h]
  | cons o rest ih =>
    intro c
    by_cases h : c ≤ W
    · simp only [monitorLoop, h, if_true, List.length_cons]
      exact Nat.succ_le_succ (ih _)
    · simp [monitorLoop, h]

theorem monitorLoop_counter_at (W : Int) (obs : List Bool) :
    ∀ (c : Int) (i : Nat) (x : Int), (monitorLoop W c obs).counters[i]? = some x →
      x = if (obs.take (i + 1)).all (fun o => !o) then c + (i + 1)
          else (trailingIdle (obs.take (i + 1)) : Int) := by
  induction obs with
  | nil =>
    intro c i x hx
    by_cases h : c ≤ W <;> simp [monitorLoop, h] at hx
  | cons o rest ih =>
    intro c i x hx
    by_cases h : c ≤ W
    · simp only [monitorLoop, h, if_true] at hx
      cases i with
      | zero =>
        simp only [List.getElem?_cons_zero, Option.some.injEq] at hx
        subst hx
        cases o <;> simp [monitorStep, trailingIdle]
      | succ j =>
        simp only [List.getElem?_cons_succ] at hx
        have hj : j < rest.length := by
          have h1 := (List.getElem?_eq_some_iff.mp hx).1
          have h2 := monitorLoop_counters_length_le W rest (monitorStep c o)
          omega
        have hlen : (rest.take (j + 1)).length = j + 1 := by
          rw [List.length_take]; omega
        have := ih (monitorStep c o) j x hx
        rw [List.take_succ_cons, List.all_cons]
        by_cases hall : (rest.take (j + 1)).all (fun o => !o) = true
        · rw [if_pos hall] at this
          have hall2 : ∀ y ∈ rest.take (j + 1), y = false := by
            intro y hy
            have := List.all_eq_true.mp hall y hy
            simpa using this
          cases o with
          | false =>
            simp only [Bool.not_false, Bool.true_and, if_pos hall]
            rw [this]; simp only [monitorStep]; push_cast; simp; ring
          | true =>
            simp only [Bool.not_true, Bool.false_and]
            rw [this, trailingIdle_cons_of_all true _ hall2, hlen]
            simp [monitorStep]
        · rw [if_neg hall] at this
          have hall2 : ¬ ∀ y ∈ rest.take (j + 1), y = false := by
            intro hc
            apply hall
            rw [List.all_eq_true]
            intro y hy
            simp [hc y hy]
          have hf : ((!o) && (rest.take (j + 1)).all (fun o => !o)) = false := by
            cases o <;> simp [hall]
          rw [hf, this, trailingIdle_cons_of_not_all o _ hall2]
          simp
    · simp [monitorLoop, h] at hx

theorem trailingIdle_of_all (l : List Bool) (h : l.all (fun o => !o) = true) :
    trailingIdle l = l.length := by
  unfold trailingIdle
  rw [List.takeWhile_eq_self_iff.mpr, List.length_reverse]
  intro x hx
  exact List.all_eq_true.mp h x (List.mem_reverse.mp hx)

theorem monitorLoop_counter_step (W : Int) (obs : List Bool) :
    ∀ (c : Int) (i : Nat) (x : Int), (monitorLoop W c obs).counters[i]? = some x →
      ∃ o p, obs[i]? = some o ∧ (c :: (monitorLoop W c obs).counters)[i]? = some p ∧
        x = monitorStep p o := by
  induction obs with
  | nil =>
    intro c i x hx
    by_cases h : c ≤ W <;> simp [monitorLoop, h] at hx
  | cons o rest ih =>
    intro c i x hx
    by_cases h : c ≤ W
    · simp only [monitorLoop, h, if_true] at hx ⊢
      cases i with
      | zero =>
        simp only [List.getElem?_cons_zero, Option.some.injEq] at hx
        exact ⟨o, c, by simp, by simp, hx.symm⟩
      | succ j =>
        simp only [List.getElem?_cons_succ] at hx ⊢
        exact ih (monitorStep c o) j x hx
    · simp [monitorLoop, h] at hx

/-- C9: in `monitorClientConnections` the counter starts at 0; after every poll it
equals the number of consecutive negative observations made since entry or since
the last positive one (so it is `k` after `k` consecutive negatives while the loop
runs); a positive observation sets it to 0 whatever it was; and the value after a
poll is computed from the value before it and the observation of that same poll. -/
theorem monitor_counter_counts_consecutive_idle (W : Int) (obs : List Bool) :
    (∀ (i : Nat) (x : Int), (monitorClientConnections W obs).counters[i]? = some x →
        x = (trailingIdle (obs.take (i + 1)) : Int)) ∧
    (∀ (i : Nat) (x : Int), (monitorClientConnections W obs).counters[i]? = some x →
        ∃ o p, obs[i]? = some o ∧
          ((0 : Int) :: (monitorClientConnections W obs).counters)[i]? = some p ∧
          x = monitorStep p o) ∧
    (∀ (i : Nat) (x : Int), (monitorClientConnections W obs).counters[i]? = some x →
        obs[i]? = some true → x = 0) ∧
    (∀ prior : Int, monitorStep prior true = 0 ∧ monitorStep prior false = prior + 1) ∧
    (∀ (pre : List Bool) (k : Nat),
        trailingIdle (List.replicate k false) = k ∧
        trailingIdle (pre ++ true :: List.replicate k false) = k) := by
  refine ⟨?_, ?_, ?_, ?_, ?_⟩
  · intro i x hx
    have hi : i < obs.length := by
      have h1 := (List.getElem?_eq_some_iff.mp hx).1
      have h2 := monitorLoop_counters_length_le W obs 0
      unfold monitorClientConnections at h1
      omega
    have hlen : (obs.take (i + 1)).length = i + 1 := by
      rw [List.length_take]; omega
    have := monitorLoop_counter_at W obs 0 i x hx
    by_cases hall : (obs.take (i + 1)).all (fun o => !o) = true
    · rw [if_pos hall] at this
      rw [this, trailingIdle_of_all _ hall, hlen]
      push_cast; ring
    · rw [if_neg hall] at this
      exact this
  · intro i x hx
    exact monitorLoop_counter_step W obs 0 i x hx
  · intro i x hx ho
    obtain ⟨o, p, h1, _, h3⟩ := monitorLoop_counter_step W obs 0 i x hx
    rw [ho] at h1
    cases h1
    simp [h3, monitorStep]
  · intro prior
    simp [monitorStep]
  · intro pre k
    exact ⟨trailingIdle_replicate k, trailingIdle_append_positive pre k⟩

theorem monitor_counter_counts_consecutive_idle_witness :
    (monitorClientConnections 5 [false, true, false, false]).counters[3]? = some 2 ∧
    (2 : Int) = (trailingIdle ([false, true, false, false].take (3 + 1)) : Int) :=
  ⟨by decide,
    (monitor_counter_counts_consecutive_idle 5 [false, true, false, false]).1 3 2 (by decide)⟩

/-! ## Properties of the startup wait -/

theorem waitLoop_eq (S : Int) (obs : List Bool) :
    ∀ c : Int, waitLoop S c obs =
      if obs.indexOf true < min (S - c).toNat obs.length then
        { result := some true, polls := obs.indexOf true + 1,
          rest := obs.drop (obs.indexOf true + 1) }
      else if (S - c).toNat ≤ obs.length then
        { result := some false, polls := (S - c).toNat, rest := obs.drop (S - c).toNat }
      else { result := none, polls := obs.length, rest := [] } := by
  induction obs with
  | nil =>
    intro c
    by_cases h : c < S
    · have : (S - c).toNat ≠ 0 := by omega
      simp [waitLoop, h, this]
    · have : (S - c).toNat = 0 := by omega
      simp [waitLoop, h, this]
  | cons o rest ih =>
    intro c
    by_cases h : c < S
    · have hn : (S - c).toNat = (S - (c + 1)).toNat + 1 := by omega
      cases o with
      | true => simp [waitLoop, h, hn]
      | false =>
        have hidx : List.indexOf true (false :: rest) = List.indexOf true rest + 1 := by
          simp [List.indexOf_cons]
        simp only [waitLoop, h, if_true, ih (c + 1), hn, hidx, List.length_cons,
          List.drop_succ_cons]
        generalize List.indexOf true rest = k
        generalize (S - (c + 1)).toNat = n
        by_cases h1 : k < min n rest.length
        · have h2 : k + 1 < min (n + 1) (rest.length + 1) := by
            simp only [lt_min_iff] at h1 ⊢; omega
          simp only [Bool.false_eq_true, if_false, if_pos h1, if_pos h2]
        · have h2 : ¬ (k + 1 < min (n + 1) (rest.length + 1)) := by
            simp only [lt_min_iff] at h1 ⊢; omega
          by_cases h3 : n ≤ rest.length
          · have h4 : n + 1 ≤ rest.length + 1 := by omega
            simp only [Bool.false_eq_true, if_false, if_neg h1, if_neg h2, if_pos h3, if_pos h4]
          · have h4 : ¬ (n + 1 ≤ rest.length + 1) := by omega
            simp only [Bool.false_eq_true, if_false, if_neg h1, if_neg h2, if_neg h3, if_neg h4]
    · have : (S - c).toNat = 0 := by omega
      simp [waitLoop, h, this]

theorem true_mem_take_iff (obs : List Bool) :
    ∀ n : Nat, true ∈ obs.take n ↔ obs.indexOf true < min n obs.length := by
  induction obs with
  | nil => intro n; simp
  | cons o rest ih =>
    intro n
    cases n with
    | zero => simp
    | succ n =>
      cases o with
      | true => simp
      | false =>
        have hidx : List.indexOf true (false :: rest) = List.indexOf true rest + 1 := by
          simp [List.indexOf_cons]
        rw [List.take_succ_cons, hidx, List.length_cons]
        simp only [List.mem_cons, ih n, lt_min_iff]
        constructor
        · rintro (h | h)
          · cases h
          · omega
        · intro h; right; omega

/-- C3: for every startup window `S >= 0` and every sequence of observations,
`waitForInitialClientConnection` returns false exactly when it made all of exactly
`S` polls and each was negative; it returns true exactly when one of the first `S`
observations is positive, and then it stops at the first positive one (no further
poll); with `S` observations available it always returns. -/
theorem waitForInitialClientConnection_spec (S : Int) (_hS : 0 ≤ S) (obs : List Bool) :
    ((waitForInitialClientConnection S obs).result = some false ↔
        (waitForInitialClientConnection S obs).polls = S.toNat ∧
        ∀ o ∈ obs.take S.toNat, o = false) ∧
    ((waitForInitialClientConnection S obs).result = some true ↔ true ∈ obs.take S.toNat) ∧
    ((waitForInitialClientConnection S obs).result = some true →
        (waitForInitialClientConnection S obs).polls = obs.indexOf true + 1 ∧
        obs.indexOf true < S.toNat ∧
        (waitForInitialClientConnection S obs).rest = obs.drop (obs.indexOf true + 1)) ∧
    (S.toNat ≤ obs.length → (waitForInitialClientConnection S obs).result ≠ none) := by
  have hmem := true_mem_take_iff obs S.toNat
  have hall : (∀ o ∈ obs.take S.toNat, o = false) ↔ ¬ true ∈ obs.take S.toNat := by
    constructor
    · intro h hm
      exact absurd (h true hm) (by decide)
    · intro h o ho
      cases o with
      | false => rfl
      | true => exact absurd ho h
  unfold waitForInitialClientConnection
  rw [waitLoop_eq S obs 0, sub_zero, hall, hmem]
  by_cases h1 : obs.indexOf true < min S.toNat obs.length
  · have h1b := h1
    rw [lt_min_iff] at h1b
    simp only [if_pos h1]
    simp [h1, h1b.1]
  · by_cases h2 : S.toNat ≤ obs.length
    · simp only [if_neg h1, if_pos h2]
      simp [h1]
    · simp only [if_neg h1, if_neg h2]
      simp [h1, h2]
      omega

theorem waitForInitialClientConnection_spec_witness :
    (0 : Int) ≤ 2 ∧
    (((waitForInitialClientConnection 2 [false, false, true]).result = some false ↔
        (waitForInitialClientConnection 2 [false, false, true]).polls = (2 : Int).toNat ∧
        ∀ o ∈ [false, false, true].take (2 : Int).toNat, o = false) ∧
    ((waitForInitialClientConnection 2 [false, false, true]).result = some true ↔
        true ∈ [false, false, true].take (2 : Int).toNat) ∧
    ((waitForInitialClientConnection 2 [false, false, true]).result = some true →
        (waitForInitialClientConnection 2 [false, false, true]).polls
          = [false, false, true].indexOf true + 1 ∧
        [false, false, true].indexOf true < (2 : Int).toNat ∧
        (waitForInitialClientConnection 2 [false, false, true]).rest
          = [false, false, true].drop ([false, false, true].indexOf true + 1)) ∧
    ((2 : Int).toNat ≤ [false, false, true].length →
        (waitForInitialClientConnection 2 [false, false, true]).result ≠ none)) :=
  ⟨by decide, waitForInitialClientConnection_spec 2 (by decide) [false, false, true]⟩

example : waitForInitialClientConnection 2 [false, false, true]
    = { result := some false, polls := 2, rest := [true] } := by decide
example : waitForInitialClientConnection 3 [false, true, true]
    = { result := some true, polls := 2, rest := [true] } := by decide
example : waitForInitialClientConnection 3 [false, false]
    = { result := none, polls := 2, rest := [] } := by decide

/-! ## Properties of the Bedrock ping -/

set_option maxRecDepth 100000 in
theorem hex_digits_of_byte : ∀ v : Nat, v < 256 →
    fromHexChar (hextable.getD (v >>> 4) 0) = some (v >>> 4) ∧
    fromHexChar (hextable.getD (v &&& 0x0f) 0) = some (v &&& 0x0f) ∧
    ((v >>> 4) <<< 4 ||| (v &&& 0x0f)) = v ∧
    ((48 ≤ hextable.getD (v >>> 4) 0 ∧ hextable.getD (v >>> 4) 0 ≤ 57) ∨
      (97 ≤ hextable.getD (v >>> 4) 0 ∧ hextable.getD (v >>> 4) 0 ≤ 102)) ∧
    ((48 ≤ hextable.getD (v &&& 0x0f) 0 ∧ hextable.getD (v &&& 0x0f) 0 ≤ 57) ∨
      (97 ≤ hextable.getD (v &&& 0x0f) 0 ∧ hextable.getD (v &&& 0x0f) 0 ≤ 102)) := by
  decide

theorem hexEncode_length (src : List Nat) : (hexEncode src).length = 2 * src.length := by
  induction src with
  | nil => rfl
  | cons v src ih => simp [hexEncode, ih]; ring

theorem hexDecode_hexEncode (src : List Nat) (h : ∀ b ∈ src, b < 256) :
    hexDecode (hexEncode src) = some src := by
  induction src with
  | nil => rfl
  | cons v src ih =>
    have hv := hex_digits_of_byte v (h v (List.mem_cons_self _ _))
    have ih2 := ih (fun b hb => h b (List.mem_cons_of_mem _ hb))
    simp only [hexEncode, hexDecode, hv.1, hv.2.1, ih2, hv.2.2.1]

theorem hexEncode_lowercase (src : List Nat) (h : ∀ b ∈ src, b < 256) :
    ∀ c ∈ hexEncode src, (48 ≤ c ∧ c ≤ 57) ∨ (97 ≤ c ∧ c ≤ 102) := by
  induction src with
  | nil => intro c hc; simp [hexEncode] at hc
  | cons v src ih =>
    have hv := hex_digits_of_byte v (h v (List.mem_cons_self _ _))
    intro c hc
    simp only [hexEncode, List.mem_cons] at hc
    rcases hc with hc | hc | hc
    · rw [hc]; exact hv.2.2.2.1
    · rw [hc]; exact hv.2.2.2.2
    · exact ih (fun b hb => h b (List.mem_cons_of_mem _ hb)) c hc

/-- C7: for every 8-byte GUID `g` delivered by `rand.Read`, `buildBedrockPing`
returns exactly 41 bytes: byte 0 is `0x01`, bytes 1..8 are
`00 00 00 00 00 00 4e 20`, bytes 9..24 are the magic (found at offset 9 for every
GUID), and bytes 25..40 are 16 lower-case hexadecimal ASCII characters whose
hex-decoding is `g`. -/
theorem buildBedrockPing_layout (g : List Nat) (hlen : g.length = 8)
    (hbyte : ∀ b ∈ g, b < 256) :
    (buildBedrockPing (some g)).length = 41 ∧
    (buildBedrockPing (some g))[0]? = some 0x01 ∧
    ((buildBedrockPing (some g)).drop 1).take 8
      = [0x00, 0x00, 0x00, 0x00, 0x00, 0x00, 0x4e, 0x20] ∧
    ((buildBedrockPing (some g)).drop 9).take 16
      = [0x00, 0xff, 0xff, 0x00, 0xfe, 0xfe, 0xfe, 0xfe,
         0xfd, 0xfd, 0xfd, 0xfd, 0x12, 0x34, 0x56, 0x78] ∧
    ((buildBedrockPing (some g)).drop 25).length = 16 ∧
    (buildBedrockPing (some g)).drop 25 = hexEncode g ∧
    (∀ c ∈ (buildBedrockPing (some g)).drop 25,
      (48 ≤ c ∧ c ≤ 57) ∨ (97 ≤ c ∧ c ≤ 102)) ∧
    hexDecode ((buildBedrockPing (some g)).drop 25) = some g := by
  have hdrop : (buildBedrockPing (some g)).drop 25 = hexEncode g := by
    simp [buildBedrockPing, bedrockMagic]
  have hel := hexEncode_length g
  refine ⟨?_, ?_, ?_, ?_, ?_, hdrop, ?_, ?_⟩
  · simp [buildBedrockPing, bedrockMagic, hel, hlen]
  · simp [buildBedrockPing]
  · simp [buildBedrockPing, bedrockMagic]
  · simp [buildBedrockPing, bedrockMagic]
  · rw [hdrop, hel, hlen]
  · rw [hdrop]; exact hexEncode_lowercase g hbyte
  · rw [hdrop]; exact hexDecode_hexEncode g hbyte

theorem buildBedrockPing_layout_witness :
    [0x00, 0x1f, 0xa0, 0xff, 0x7e, 0x09, 0x10, 0xab].length = 8 ∧
    (buildBedrockPing (some [0x00, 0x1f, 0xa0, 0xff, 0x7e, 0x09, 0x10, 0xab])).length = 41 ∧
    hexDecode ((buildBedrockPing (some [0x00, 0x1f, 0xa0, 0xff, 0x7e, 0x09, 0x10, 0xab])).drop 25)
      = some [0x00, 0x1f, 0xa0, 0xff, 0x7e, 0x09, 0x10, 0xab] :=
  have h := buildBedrockPing_layout [0x00, 0x1f, 0xa0, 0xff, 0x7e, 0x09, 0x10, 0xab]
    (by decide) (by decide)
  ⟨by decide, h.1, h.2.2.2.2.2.2.2⟩

theorem bytesSplit_length (sep : Nat) (s : List Nat) :
    (bytesSplit sep s).length = s.count sep + 1 := by
  induction s with
  | nil => rfl
  | cons b s ih =>
    by_cases h : b = sep
    · subst h
      simp [bytesSplit, ih]
    · have hne : (b == sep) = false := by simpa using h
      cases hs : bytesSplit sep s with
      | nil => rw [hs] at ih; simp at ih
      | cons f fs =>
        rw [hs] at ih
        simp only [bytesSplit, h, if_false, hs, List.length_cons] at ih ⊢
        rw [List.count_cons, hne]
        simpa using ih

/-- C8: for every received response of `n <= 1024` bytes (dial and write having
succeeded) `sendBedrockPing` returns 1 exactly when `n >= 34` and the bytes from
offset 34 split on `;` into more than 4 fields, that is when at least 4 `;` bytes
lie at offsets `>= 34`; otherwise it returns 0.  `isConnected` is then true exactly
when it returns 1.  A 40-byte response with 6 fields after offset 34 is accepted, a
response of exactly 34 bytes is rejected. -/
theorem sendBedrockPing_accepts_iff (io : PingExchange) (hdial : io.dialErr = false)
    (hwrite : io.writeErr = false) (hn : io.received.length ≤ 1024) :
    ((sendBedrockPing io).1 = 1 ↔
      34 ≤ io.received.length ∧ 4 < (bytesSplit semicolon (io.received.drop 34)).length) ∧
    ((sendBedrockPing io).1 = 1 ↔
      34 ≤ io.received.length ∧ 4 ≤ (io.received.drop 34).count semicolon) ∧
    ((sendBedrockPing io).1 ≠ 1 → (sendBedrockPing io).1 = 0) ∧
    (∀ conns : List ConnectionStat,
      (isConnected "bedrock" { conns := conns, ping := io }).1 = true ↔
        (sendBedrockPing io).1 = 1) ∧
    (io.received.length = 40 →
      (bytesSplit semicolon (io.received.drop 34)).length = 6 → (sendBedrockPing io).1 = 1) ∧
    (io.received.length = 34 → (sendBedrockPing io).1 = 0) := by
  have htake : io.received.take 1024 = io.received := List.take_of_length_le hn
  have hval : (sendBedrockPing io).1 =
      if 34 ≤ io.received.length ∧ 4 < (bytesSplit semicolon (io.received.drop 34)).length
      then 1 else 0 := by
    unfold sendBedrockPing
    simp only [hdial, hwrite, htake]
    by_cases h1 : 34 ≤ io.received.length
    · by_cases h2 : 4 < (bytesSplit semicolon (io.received.drop 34)).length
      · simp [h1, h2]
      · simp [h1, h2]
    · simp [h1]
  have hiff : (sendBedrockPing io).1 = 1 ↔
      34 ≤ io.received.length ∧ 4 < (bytesSplit semicolon (io.received.drop 34)).length := by
    rw [hval]
    split <;> simp_all
  refine ⟨hiff, ?_, ?_, ?_, ?_, ?_⟩
  · rw [hiff, bytesSplit_length]
    constructor <;> rintro ⟨h1, h2⟩ <;> exact ⟨h1, by omega⟩
  · intro h
    rw [hval] at h ⊢
    split at h
    · exact absurd rfl h
    · simp_all
  · intro conns
    have h01 : (sendBedrockPing io).1 = 1 ∨ (sendBedrockPing io).1 = 0 := by
      rw [hval]; split <;> simp
    rcases h01 with h | h <;> simp [isConnected, h]
  · intro h40 h6
    exact hiff.mpr ⟨by omega, by omega⟩
  · intro h34
    rw [hval, if_neg]
    rintro ⟨_, h2⟩
    have hnil : io.received.drop 34 = [] := List.drop_eq_nil_of_le (by omega)
    rw [hnil] at h2
    simp [bytesSplit] at h2

theorem sendBedrockPing_accepts_iff_witness :
    (List.replicate 34 0 ++ [59, 59, 65, 59, 59, 59]).length ≤ 1024 ∧
    ((sendBedrockPing { dialErr := false, writeErr := false, readErr := false, rnd := none,
                        received := List.replicate 34 0 ++ [59, 59, 65, 59, 59, 59] }).1 = 1 ↔
      34 ≤ (List.replicate 34 0 ++ [59, 59, 65, 59, 59, 59]).length ∧
      4 < (bytesSplit semicolon
        ((List.replicate 34 0 ++ [59, 59, 65, 59, 59, 59]).drop 34)).length) :=
  ⟨by decide,
    (sendBedrockPing_accepts_iff
      { dialErr := false, writeErr := false, readErr := false, rnd := none,
        received := List.replicate 34 0 ++ [59, 59, 65, 59, 59, 59] } rfl rfl (by decide)).1⟩

example : (sendBedrockPing { dialErr := false, writeErr := false, readErr := false,
                             rnd := none,
                             received := List.replicate 34 0 ++ [59, 59, 65, 59, 59, 59] }).1
    = 1 := by decide
example : bytesSplit semicolon [59, 59, 65, 59, 59, 59] = [[], [], [65], [], [], []] := by
  decide
example : (sendBedrockPing { dialErr := false, writeErr := false, readErr := false,
                             rnd := none, received := List.replicate 34 59 }).1
    = 0 := by decide
example : (sendBedrockPing { dialErr := false, writeErr := false, readErr := false,
                             rnd := none, received := List.replicate 37 59 }).1
    = 0 := by decide
example : (sendBedrockPing { dialErr := false, writeErr := false, readErr := false,
                             rnd := none, received := List.replicate 38 59 }).1
    = 1 := by decide

theorem observations_append (edition : String) (pre post : List ProbeIO) :
    observations edition (pre ++ post)
      = observations edition pre ++ observations edition post := by
  induction pre with
  | nil => rfl
  | cons io pre ih => simp [observations, ih]

theorem observations_getElem? (edition : String) (ios : List ProbeIO) :
    ∀ i : Nat, (observations edition ios)[i]?
      = (ios[i]?).map (fun io => (isConnected edition io).1) := by
  induction ios with
  | nil => intro i; simp [observations]
  | cons io ios ih =>
    intro i
    cases i with
    | zero => simp [observations]
    | succ j => simp [observations, ih j]

/-- C10: for the UDP edition every single probe failure (dial error, write error,
nothing read because the read timed out or failed, a response shorter than 34
bytes or with fewer than 4 `;` after offset 34) makes `sendBedrockPing` return 0
and `isConnected` false; the function returns to its caller, so the polling loops
go on to the next poll; and the observation of poll `i` is that of the `i`-th
exchange alone, whatever the polls around it were. -/
theorem bedrock_probe_failure_is_negative (io : PingExchange) (conns : List ConnectionStat)
    (hfail : io.dialErr = true ∨ io.writeErr = true ∨ io.received = [] ∨
      io.received.length < 34 ∨ ((io.received.take 1024).drop 34).count semicolon < 4) :
    (sendBedrockPing io).1 = 0 ∧
    (isConnected "bedrock" { conns := conns, ping := io }).1 = false ∧
    (∀ pre post : List ProbeIO,
      observations "bedrock" (pre ++ { conns := conns, ping := io } :: post)
        = observations "bedrock" pre ++ false :: observations "bedrock" post) ∧
    (∀ (edition : String) (ios : List ProbeIO) (i : Nat),
      (observations edition ios)[i]? = (ios[i]?).map (fun p => (isConnected edition p).1)) ∧
    (∀ (S c : Int) (ios : List ProbeIO), c < S →
      waitLoop S c (observations "bedrock" ({ conns := conns, ping := io } :: ios))
        = { waitLoop S (c + 1) (observations "bedrock" ios) with
            polls := (waitLoop S (c + 1) (observations "bedrock" ios)).polls + 1 }) ∧
    (∀ (W c : Int) (ios : List ProbeIO), c ≤ W →
      monitorLoop W c (observations "bedrock" ({ conns := conns, ping := io } :: ios))
        = { monitorLoop W (c + 1) (observations "bedrock" ios) with
            counters := (c + 1) ::
              (monitorLoop W (c + 1) (observations "bedrock" ios)).counters }) := by
  have h0 : (sendBedrockPing io).1 = 0 := by
    unfold sendBedrockPing
    by_cases hd : io.dialErr = true
    · simp [hd]
    · by_cases hw : io.writeErr = true
      · simp [hd, hw]
      · simp only [hd, hw]
        by_cases h34 : (io.received.take 1024).length ≥ 34
        · have hlen : 34 ≤ io.received.length := by
            rw [List.length_take] at h34; omega
          have hcount : ((io.received.take 1024).drop 34).count semicolon < 4 := by
            rcases hfail with h | h | h | h | h
            · exact absurd h hd
            · exact absurd h hw
            · rw [h] at hlen; simp at hlen
            · omega
            · exact h
          have hsplit : ¬ (bytesSplit semicolon ((io.received.take 1024).drop 34)).length > 4 := by
            rw [bytesSplit_length]; omega
          simp [h34, hsplit]
        · have hlen : ¬ 34 ≤ io.received.length := by
            rw [List.length_take] at h34; omega
          simp [hlen]
  have h1 : (isConnected "bedrock" { conns := conns, ping := io }).1 = false := by
    simp [isConnected, h0]
  refine ⟨h0, h1, ?_, observations_getElem?, ?_, ?_⟩
  · intro pre post
    rw [observations_append]
    simp [observations, h1]
  · intro S c ios hc
    simp [observations, h1, waitLoop, hc]
  · intro W c ios hc
    simp [observations, h1, monitorLoop, hc, monitorStep]

theorem bedrock_probe_failure_is_negative_witness :
    (sendBedrockPing { dialErr := false, writeErr := false, readErr := true, rnd := none,
                       received := [] }).1 = 0 ∧
    (isConnected "bedrock"
      { conns := [],
        ping := { dialErr := false, writeErr := false, readErr := true, rnd := none,
                  received := [] } }).1 = false :=
  have h := bedrock_probe_failure_is_negative
    { dialErr := false, writeErr := false, readErr := true, rnd := none, received := [] } []
    (Or.inr (Or.inr (Or.inl rfl)))
  ⟨h.1, h.2.1⟩

example : buildBedrockPing (some [0x00, 0x1f, 0xa0, 0xff, 0x7e, 0x09, 0x10, 0xab])
    = [1, 0, 0, 0, 0, 0, 0, 0x4e, 0x20,
       0, 255, 255, 0, 254, 254, 254, 254, 253, 253, 253, 253, 0x12, 0x34, 0x56, 0x78,
       48, 48, 49, 102, 97, 48, 102, 102, 55, 101, 48, 57, 49, 48, 97, 98] := by decide

/-! ## Properties of the whole run -/

theorem andThen_of_ret {α β : Type} (r : Call α × List Effect)
    (k : α → Call β × List Effect) (a : α) (h : r.1 = Call.ret a) :
    Call.andThen r k = ((k a).1, r.2 ++ (k a).2) := by
  unfold Call.andThen; rw [h]

theorem andThen_of_stop {α β : Type} (r : Call α × List Effect)
    (k : α → Call β × List Effect) (o : Outcome) (h : r.1 = Call.stop o) :
    Call.andThen r k = (Call.stop o, r.2) := by
  unfold Call.andThen; rw [h]

theorem andThen_eq_ret {α β : Type} (r : Call α × List Effect)
    (k : α → Call β × List Effect) (b : β) (h : (Call.andThen r k).1 = Call.ret b) :
    ∃ a, r.1 = Call.ret a ∧ (k a).1 = Call.ret b := by
  cases hr : r.1 with
  | ret a => rw [andThen_of_ret r k a hr] at h; exact ⟨a, rfl, h⟩
  | stop o => rw [andThen_of_stop r k o hr] at h; cases h

theorem andThen_eq_stop {α β : Type} (r : Call α × List Effect)
    (k : α → Call β × List Effect) (o : Outcome) (h : (Call.andThen r k).1 = Call.stop o) :
    r.1 = Call.stop o ∨ ∃ a, r.1 = Call.ret a ∧ (k a).1 = Call.stop o := by
  cases hr : r.1 with
  | ret a => rw [andThen_of_ret r k a hr] at h; exact Or.inr ⟨a, rfl, h⟩
  | stop o2 =>
    rw [andThen_of_stop r k o2 hr] at h
    have ho : o2 = o := Call.stop.inj h
    left
    rw [ho]

theorem waitLoop_of_not_lt (S c : Int) (obs : List Bool) (h : ¬ c < S) :
    waitLoop S c obs = { result := some false, polls := 0, rest := obs } := by
  cases obs <;> simp [waitLoop, h]

theorem waitPhase_of_negative_polls (cfg : Config) (edition : String) (probes : List ProbeIO)
    (rest : List Bool) (hS : cfg.StartupMin = 2)
    (hobs : observations edition probes = false :: false :: rest) :
    (waitPhase cfg edition probes).1 = Call.ret false := by
  have h22 : waitLoop 2 2 rest = { result := some false, polls := 0, rest := rest } :=
    waitLoop_of_not_lt 2 2 rest (by decide)
  simp [waitPhase, waitForInitialClientConnection, waitLoop, hS, hobs, h22]

/-- C4 fails as stated: in Scenario A (startup window 2, two negative polls,
everything else succeeding) the run calls `UpdateService` with desired count 0 and
then ends through `exitWithError`, so the exit code is 1, not 0. -/
theorem scenarioA_exit_code_is_one :
    Effect.updateService "minecraft" "minecraft-server" 0 ∈ (run scenarioAConfig scenarioAWorld).2 ∧
    (run scenarioAConfig scenarioAWorld).1.exitCode = some 1 ∧
    (run scenarioAConfig scenarioAWorld).1.exitCode ≠ some 0 := by
  decide

theorem sendStartupNotification_ret (cfg : Config) (edition publicIP now : String) :
    (sendStartupNotification cfg edition publicIP now).1 = Call.ret () := by
  unfold sendStartupNotification; split <;> rfl

theorem sendShutdownNotification_ret (cfg : Config) (now : String) :
    (sendShutdownNotification cfg now).1 = Call.ret () := by
  unfold sendShutdownNotification; split <;> rfl

theorem shutdownService_ok (cfg : Config) (now : String) :
    shutdownService cfg now false
      = (Call.ret (), (sendShutdownNotification cfg now).2 ++
          [Effect.updateService cfg.Cluster cfg.Service 0]) := by
  unfold shutdownService
  rw [andThen_of_ret _ _ () (sendShutdownNotification_ret cfg now)]
  simp

theorem shutdownService_err (cfg : Config) (now : String) :
    shutdownService cfg now true
      = (Call.stop (exitWithError "Failed to set service desired count to zero"),
          (sendShutdownNotification cfg now).2 ++
            [Effect.updateService cfg.Cluster cfg.Service 0]) := by
  unfold shutdownService
  rw [andThen_of_ret _ _ () (sendShutdownNotification_ret cfg now)]
  simp

theorem updateDNSRecord_ok (cfg : Config) (publicIP : String) :
    (updateDNSRecord cfg publicIP false).1 = Call.ret () := by
  simp [updateDNSRecord]

/-- C4 (amended): with startup window 2 and two consecutive negative polls in
AwaitingFirstConnection, identity, DNS and edition detection having succeeded and
the scale-to-zero call succeeding, the run issues `UpdateService` with desired
count 0 as its last call and then terminates through `exitWithError` with exit
code 1. -/
theorem startup_timeout_scales_down_then_exits_one (cfg : Config) (w : World)
    (taskID publicIP edition : String) (rest : List Bool)
    (hcfg : w.awsConfigErr = false)
    (hid : (fetchTaskID w.metadataURI w.metadata).1 = Call.ret taskID)
    (hip : (resolvePublicIP cfg taskID w.tasks w.interfaces).1 = Call.ret publicIP)
    (hdns : w.dnsErr = false)
    (hed : (determineEdition w.detect w.rcon).1 = Call.ret edition)
    (hS : cfg.StartupMin = 2)
    (hobs : observations edition w.probes = false :: false :: rest)
    (hup : w.updateErr = false) :
    (run cfg w).1
      = exitWithError "No initial client connection established, service shut down." ∧
    (run cfg w).1.exitCode = some 1 ∧
    ∃ pre, (run cfg w).2 = pre ++ [Effect.updateService cfg.Cluster cfg.Service 0] := by
  have hwait := waitPhase_of_negative_polls cfg edition w.probes rest hS hobs
  have hrun : run cfg w =
      (exitWithError "No initial client connection established, service shut down.",
        (fetchTaskID w.metadataURI w.metadata).2 ++
        ((resolvePublicIP cfg taskID w.tasks w.interfaces).2 ++
        ((updateDNSRecord cfg publicIP false).2 ++
        ((determineEdition w.detect w.rcon).2 ++
        ((sendStartupNotification cfg edition publicIP w.startupTime).2 ++
        ((waitPhase cfg edition w.probes).2 ++
        (((sendShutdownNotification cfg w.shutdownTime).2 ++
          [Effect.updateService cfg.Cluster cfg.Service 0]) ++ []))))))) := by
    unfold run mainCalls
    simp only [hcfg, hdns, hup, Bool.false_eq_true, if_false,
      andThen_of_ret _ _ taskID hid, andThen_of_ret _ _ publicIP hip,
      andThen_of_ret _ _ () (updateDNSRecord_ok cfg publicIP),
      andThen_of_ret _ _ edition hed,
      andThen_of_ret _ _ () (sendStartupNotification_ret cfg edition publicIP w.startupTime),
      andThen_of_ret _ _ false hwait, shutdownService_ok]
    rfl
  refine ⟨by rw [hrun], by rw [hrun]; rfl, ?_⟩
  rw [hrun]
  refine ⟨(fetchTaskID w.metadataURI w.metadata).2 ++
        ((resolvePublicIP cfg taskID w.tasks w.interfaces).2 ++
        ((updateDNSRecord cfg publicIP false).2 ++
        ((determineEdition w.detect w.rcon).2 ++
        ((sendStartupNotification cfg edition publicIP w.startupTime).2 ++
        ((waitPhase cfg edition w.probes).2 ++
        (sendShutdownNotification cfg w.shutdownTime).2))))), ?_⟩
  simp

theorem startup_timeout_scales_down_then_exits_one_witness :
    scenarioAConfig.StartupMin = 2 ∧
    (run scenarioAConfig scenarioAWorld).1.exitCode = some 1 :=
  ⟨rfl,
    (startup_timeout_scales_down_then_exits_one scenarioAConfig scenarioAWorld
      "arn:aws:ecs:task/1" "198.51.100.7" "bedrock" []
      (by decide) (by decide) (by decide) (by decide) (by decide) (by decide) (by decide)
      (by decide)).2.1⟩

theorem fetchTaskID_calls (metaURI : String) (resp : MetadataResponse) :
    (fetchTaskID metaURI resp).2 = [Effect.httpGet (metaURI ++ "/task")] := by
  unfold fetchTaskID
  cases resp with
  | getError => rfl
  | decodeError => rfl
  | object fields =>
    simp only
    split <;> rfl

theorem fetchTaskID_stop (metaURI : String) (resp : MetadataResponse) (o : Outcome)
    (h : (fetchTaskID metaURI resp).1 = Call.stop o) : o.exitCode = some 1 := by
  unfold fetchTaskID at h
  cases resp with
  | getError => cases h; rfl
  | decodeError => cases h; rfl
  | object fields =>
    simp only at h
    split at h
    · cases h
    · cases h; rfl

theorem fetchTaskID_of_failure (metaURI : String) (resp : MetadataResponse)
    (hfail : resp = MetadataResponse.getError ∨ resp = MetadataResponse.decodeError ∨
      ∃ fields, resp = MetadataResponse.object fields ∧
        ∀ s, fields.lookup "TaskARN" ≠ some (JSONValue.str s)) :
    ∃ o, (fetchTaskID metaURI resp).1 = Call.stop o := by
  rcases hfail with h | h | ⟨fields, h, hno⟩
  · subst h; exact ⟨_, rfl⟩
  · subst h; exact ⟨_, rfl⟩
  · subst h
    cases hl : fields.lookup "TaskARN" with
    | none => simp only [fetchTaskID, hl]; exact ⟨_, rfl⟩
    | some v =>
      cases v with
      | str taskID => exact absurd hl (hno taskID)
      | other => simp only [fetchTaskID, hl]; exact ⟨_, rfl⟩

theorem run_of_identity_stop (cfg : Config) (w : World) (o : Outcome)
    (hcfg : w.awsConfigErr = false)
    (h : (fetchTaskID w.metadataURI w.metadata).1 = Call.stop o) :
    run cfg w = (o, [Effect.httpGet (w.metadataURI ++ "/task")]) := by
  unfold run mainCalls
  simp only [hcfg, Bool.false_eq_true, if_false, andThen_of_stop _ _ o h, fetchTaskID_calls]

theorem run_of_config_error (cfg : Config) (w : World) (hcfg : w.awsConfigErr = true) :
    run cfg w = (exitWithError "Failed to load AWS configuration", []) := by
  unfold run
  simp only [hcfg, if_true]

/-- C6: whenever identity resolution fails (the metadata GET errors, the body does
not decode into a JSON object, or `TaskARN` is missing or not a string) the process
exits with code 1 and the only call it has made is the metadata GET: no
`ChangeResourceRecordSets`, no `UpdateService`, no `Publish`. -/
theorem identity_failure_exits_one_without_calls (cfg : Config) (w : World)
    (hfail : w.metadata = MetadataResponse.getError ∨
      w.metadata = MetadataResponse.decodeError ∨
      ∃ fields, w.metadata = MetadataResponse.object fields ∧
        ∀ s, fields.lookup "TaskARN" ≠ some (JSONValue.str s)) :
    (run cfg w).1.exitCode = some 1 ∧
    (∀ e ∈ (run cfg w).2, e = Effect.httpGet (w.metadataURI ++ "/task")) ∧
    (∀ zone name ttl value,
      Effect.changeResourceRecordSets zone name ttl value ∉ (run cfg w).2) ∧
    (∀ cluster service count, Effect.updateService cluster service count ∉ (run cfg w).2) ∧
    (∀ topic message, Effect.publish topic message ∉ (run cfg w).2) := by
  obtain ⟨o, ho⟩ := fetchTaskID_of_failure w.metadataURI w.metadata hfail
  have hcode := fetchTaskID_stop _ _ o ho
  have hrun : (run cfg w).1.exitCode = some 1 ∧
      ∀ e ∈ (run cfg w).2, e = Effect.httpGet (w.metadataURI ++ "/task") := by
    cases hc : w.awsConfigErr with
    | true =>
      rw [run_of_config_error cfg w hc]
      exact ⟨rfl, by simp⟩
    | false =>
      rw [run_of_identity_stop cfg w o hc ho]
      exact ⟨hcode, by simp⟩
  refine ⟨hrun.1, hrun.2, ?_, ?_, ?_⟩
  · intro zone name ttl value hmem
    cases hrun.2 _ hmem
  · intro cluster service count hmem
    cases hrun.2 _ hmem
  · intro topic message hmem
    cases hrun.2 _ hmem

theorem identity_failure_exits_one_without_calls_witness :
    (run scenarioAConfig
      { scenarioAWorld with
        metadata := MetadataResponse.object [("TaskARN", JSONValue.other)] }).1.exitCode
      = some 1 ∧
    (run scenarioAConfig
      { scenarioAWorld with
        metadata := MetadataResponse.object [("TaskARN", JSONValue.other)] }).2
      = [Effect.httpGet "http://169.254.170.2/v4/0123/task"] :=
  ⟨(identity_failure_exits_one_without_calls scenarioAConfig
      { scenarioAWorld with
        metadata := MetadataResponse.object [("TaskARN", JSONValue.other)] }
      (Or.inr (Or.inr ⟨[("TaskARN", JSONValue.other)], rfl, by intro s; simp [List.lookup]⟩))).1,
    by decide⟩

theorem resolvePublicIP_stop (cfg : Config) (taskID : String) (tasks : Option (List Task))
    (interfaces : Option (List NetworkInterface)) (o : Outcome)
    (h : (resolvePublicIP cfg taskID tasks interfaces).1 = Call.stop o) :
    o.exitCode ≠ some 0 := by
  unfold resolvePublicIP at h
  simp only at h
  repeat' split at h
  all_goals first
    | (cases h; decide)
    | (cases h)

theorem updateDNSRecord_stop (cfg : Config) (publicIP : String) (dnsErr : Bool) (o : Outcome)
    (h : (updateDNSRecord cfg publicIP dnsErr).1 = Call.stop o) :
    dnsErr = true ∧ o = exitWithError "Failed to update DNS record" := by
  unfold updateDNSRecord at h
  cases dnsErr with
  | true => simp at h; exact ⟨rfl, h.symm⟩
  | false => simp at h

theorem waitForRCON_stop (tables : List (List ConnectionStat)) (o : Outcome)
    (h : (waitForRCON tables).1 = Call.stop o) : o = Outcome.running := by
  induction tables with
  | nil => cases h; rfl
  | cons table tables ih =>
    unfold waitForRCON at h
    split at h
    · cases h
    · exact ih h

theorem determineEditionLoop_stop (rcon : List (List ConnectionStat)) (polls : List DetectPoll) :
    ∀ (c : Int) (o : Outcome), (determineEditionLoop rcon c polls).1 = Call.stop o →
      o.exitCode ≠ some 0 := by
  induction polls with
  | nil => intro c o h; cases h; decide
  | cons poll polls ih =>
    intro c o h
    unfold determineEditionLoop at h
    split at h
    · rcases andThen_eq_stop _ _ _ h with h1 | ⟨_, _, h1⟩
      · cases h1
      · rcases andThen_eq_stop _ _ _ h1 with h2 | ⟨_, _, h2⟩
        · rw [waitForRCON_stop rcon o h2]; decide
        · cases h2
    · split at h
      · cases h
      · split at h
        · cases h; decide
        · exact ih (c + 1) o h

theorem determineEditionLoop_timeout (rcon : List (List ConnectionStat))
    (polls : List DetectPoll) :
    ∀ c : Int, c ≤ 600 → (601 - c).toNat ≤ polls.length →
      (∀ p ∈ polls.take (601 - c).toNat,
        isPortOpen javaPort p.javaQuery = false ∧
        isPortOpen bedrockPort p.bedrockQuery = false) →
      (determineEditionLoop rcon c polls).1 = Call.stop (exitWithError
        "10 minutes elapsed without Minecraft server starting. Terminating.") := by
  induction polls with
  | nil =>
    intro c hc hlen _
    simp at hlen
    omega
  | cons poll polls ih =>
    intro c hc hlen hall
    have hn : (601 - c).toNat = (601 - (c + 1)).toNat + 1 := by omega
    rw [hn] at hall hlen
    have hp := hall poll (by simp)
    unfold determineEditionLoop
    simp only [hp.1, hp.2, Bool.false_eq_true, if_false]
    by_cases hlast : c + 1 > maxStartupWaitSeconds
    · simp only [hlast, if_true]
    · simp only [hlast, if_false]
      have hc2 : c + 1 ≤ 600 := by
        unfold maxStartupWaitSeconds at hlast; omega
      apply ih (c + 1) hc2
      · simp only [List.length_cons] at hlen; omega
      · intro p hpm
        exact hall p (by rw [List.take_succ_cons]; exact List.mem_cons_of_mem _ hpm)

theorem waitPhase_stop (cfg : Config) (edition : String) (probes : List ProbeIO) (o : Outcome)
    (h : (waitPhase cfg edition probes).1 = Call.stop o) : o = Outcome.running := by
  unfold waitPhase at h
  simp only at h
  split at h
  · cases h
  · cases h; rfl

theorem waitPhase_ret (cfg : Config) (edition : String) (probes : List ProbeIO) (b : Bool)
    (h : (waitPhase cfg edition probes).1 = Call.ret b) :
    (waitForInitialClientConnection cfg.StartupMin (observations edition probes)).result
      = some b := by
  unfold waitPhase at h
  simp only at h
  split at h
  · rename_i b2 hb
    cases h
    exact hb
  · cases h

theorem waitPhase_of_result (cfg : Config) (edition : String) (probes : List ProbeIO) (b : Bool)
    (h : (waitForInitialClientConnection cfg.StartupMin (observations edition probes)).result
      = some b) :
    (waitPhase cfg edition probes).1 = Call.ret b := by
  unfold waitPhase
  simp only [h]

theorem monitorPhase_ret (cfg : Config) (edition : String) (probes : List ProbeIO)
    (now : String) (updateErr : Bool)
    (h : (monitorPhase cfg edition probes now updateErr).1 = Call.ret ()) :
    (monitorClientConnections cfg.ShutdownMin (observations edition probes)).shutdown = true ∧
    updateErr = false := by
  unfold monitorPhase at h
  simp only at h
  split at h
  · rename_i hs
    refine ⟨hs, ?_⟩
    cases updateErr with
    | false => rfl
    | true =>
      rw [shutdownService_err, andThen_of_ret _ _ () rfl] at h
      cases h
  · cases h

theorem monitorPhase_stop (cfg : Config) (edition : String) (probes : List ProbeIO)
    (now : String) (updateErr : Bool) (o : Outcome)
    (h : (monitorPhase cfg edition probes now updateErr).1 = Call.stop o) :
    o.exitCode ≠ some 0 := by
  unfold monitorPhase at h
  simp only at h
  split at h
  · cases updateErr with
    | false =>
      rw [shutdownService_ok, andThen_of_ret _ _ () rfl] at h
      cases h
    | true =>
      rw [shutdownService_err, andThen_of_ret _ _ () rfl] at h
      cases h; decide
  · cases h; decide

theorem monitorPhase_of_update_error (cfg : Config) (edition : String)
    (probes : List ProbeIO) (now : String)
    (h : (monitorClientConnections cfg.ShutdownMin (observations edition probes)).shutdown
      = true) :
    (monitorPhase cfg edition probes now true).1
      = Call.stop (exitWithError "Failed to set service desired count to zero") := by
  unfold monitorPhase
  simp only [h, if_true]
  rw [shutdownService_err, andThen_of_ret _ _ () rfl]

theorem shutdownService_stop (cfg : Config) (now : String) (updateErr : Bool) (o : Outcome)
    (h : (shutdownService cfg now updateErr).1 = Call.stop o) :
    updateErr = true ∧ o = exitWithError "Failed to set service desired count to zero" := by
  cases updateErr with
  | false => rw [shutdownService_ok] at h; cases h
  | true => rw [shutdownService_err] at h; cases h; exact ⟨rfl, rfl⟩

theorem mainCalls_stop (cfg : Config) (w : World) (o : Outcome)
    (h : (mainCalls cfg w).1 = Call.stop o) : o.exitCode ≠ some 0 := by
  unfold mainCalls at h
  rcases andThen_eq_stop _ _ _ h with h1 | ⟨taskID, _, h1⟩
  · rw [fetchTaskID_stop _ _ o h1]; decide
  rcases andThen_eq_stop _ _ _ h1 with h2 | ⟨publicIP, _, h2⟩
  · exact resolvePublicIP_stop _ _ _ _ o h2
  rcases andThen_eq_stop _ _ _ h2 with h3 | ⟨_, _, h3⟩
  · rw [(updateDNSRecord_stop _ _ _ o h3).2]; decide
  rcases andThen_eq_stop _ _ _ h3 with h4 | ⟨edition, _, h4⟩
  · exact determineEditionLoop_stop _ _ 0 o h4
  rcases andThen_eq_stop _ _ _ h4 with h5 | ⟨_, _, h5⟩
  · rw [sendStartupNotification_ret] at h5; cases h5
  rcases andThen_eq_stop _ _ _ h5 with h6 | ⟨connected, _, h6⟩
  · rw [waitPhase_stop _ _ _ o h6]; decide
  cases connected with
  | true =>
    simp only [if_true] at h6
    exact monitorPhase_stop _ _ _ _ _ o h6
  | false =>
    simp only [Bool.false_eq_true, if_false] at h6
    rcases andThen_eq_stop _ _ _ h6 with h7 | ⟨_, _, h7⟩
    · rw [(shutdownService_stop _ _ _ o h7).2]; decide
    · cases h7; decide

/-- Exit codes on the paths of `main` that go through `exitWithError` or return:
exit code 0 forces the idle-timeout path, and a failing `fetchTaskID`, DNS publish,
edition detection or scale-to-zero call gives exit code 1. -/
theorem run_exit_code_paths (cfg : Config) (w : World) :
    ((run cfg w).1.exitCode = some 0 →
      ∃ taskID publicIP edition,
        (fetchTaskID w.metadataURI w.metadata).1 = Call.ret taskID ∧
        (resolvePublicIP cfg taskID w.tasks w.interfaces).1 = Call.ret publicIP ∧
        w.dnsErr = false ∧
        (determineEdition w.detect w.rcon).1 = Call.ret edition ∧
        (waitForInitialClientConnection cfg.StartupMin
          (observations edition w.probes)).result = some true ∧
        (monitorClientConnections cfg.ShutdownMin (observations edition
          (w.probes.drop (waitPolls cfg edition w.probes)))).shutdown = true ∧
        cfg.ShutdownMin < (monitorClientConnections cfg.ShutdownMin (observations edition
          (w.probes.drop (waitPolls cfg edition w.probes)))).finalCounter ∧
        w.updateErr = false) ∧
    ((∀ taskID, (fetchTaskID w.metadataURI w.metadata).1 ≠ Call.ret taskID) →
      (run cfg w).1.exitCode = some 1) ∧
    (∀ taskID publicIP, w.awsConfigErr = false →
      (fetchTaskID w.metadataURI w.metadata).1 = Call.ret taskID →
      (resolvePublicIP cfg taskID w.tasks w.interfaces).1 = Call.ret publicIP →
      w.dnsErr = true →
      (run cfg w).1 = exitWithError "Failed to update DNS record" ∧
      (run cfg w).1.exitCode = some 1) ∧
    (∀ taskID publicIP, w.awsConfigErr = false →
      (fetchTaskID w.metadataURI w.metadata).1 = Call.ret taskID →
      (resolvePublicIP cfg taskID w.tasks w.interfaces).1 = Call.ret publicIP →
      w.dnsErr = false →
      601 ≤ w.detect.length →
      (∀ p ∈ w.detect.take 601,
        isPortOpen javaPort p.javaQuery = false ∧
        isPortOpen bedrockPort p.bedrockQuery = false) →
      (run cfg w).1 = exitWithError
        "10 minutes elapsed without Minecraft server starting. Terminating." ∧
      (run cfg w).1.exitCode = some 1) ∧
    (∀ taskID publicIP edition, w.awsConfigErr = false →
      (fetchTaskID w.metadataURI w.metadata).1 = Call.ret taskID →
      (resolvePublicIP cfg taskID w.tasks w.interfaces).1 = Call.ret publicIP →
      w.dnsErr = false →
      (determineEdition w.detect w.rcon).1 = Call.ret edition →
      ((waitForInitialClientConnection cfg.StartupMin
          (observations edition w.probes)).result = some false ∨
        ((waitForInitialClientConnection cfg.StartupMin
          (observations edition w.probes)).result = some true ∧
         (monitorClientConnections cfg.ShutdownMin (observations edition
          (w.probes.drop (waitPolls cfg edition w.probes)))).shutdown = true)) →
      w.updateErr = true →
      (run cfg w).1 = exitWithError "Failed to set service desired count to zero" ∧
      (run cfg w).1.exitCode = some 1) := by
  refine ⟨?_, ?_, ?_, ?_, ?_⟩
  · intro h
    cases hc : w.awsConfigErr with
    | true => rw [run_of_config_error cfg w hc] at h; cases h
    | false =>
      unfold run at h
      simp only [hc, Bool.false_eq_true, if_false] at h
      cases hm : (mainCalls cfg w).1 with
      | stop o =>
        rw [hm] at h
        exact absurd h (mainCalls_stop cfg w o hm)
      | ret u =>
        unfold mainCalls at hm
        obtain ⟨taskID, h1, hm1⟩ := andThen_eq_ret _ _ _ hm
        obtain ⟨publicIP, h2, hm2⟩ := andThen_eq_ret _ _ _ hm1
        obtain ⟨_, h3, hm3⟩ := andThen_eq_ret _ _ _ hm2
        obtain ⟨edition, h4, hm4⟩ := andThen_eq_ret _ _ _ hm3
        obtain ⟨_, _, hm5⟩ := andThen_eq_ret _ _ _ hm4
        obtain ⟨connected, h6, hm6⟩ := andThen_eq_ret _ _ _ hm5
        have hdns : w.dnsErr = false := by
          cases hd : w.dnsErr with
          | false => rfl
          | true => rw [hd] at h3; simp [updateDNSRecord] at h3
        cases connected with
        | false =>
          simp only [Bool.false_eq_true, if_false] at hm6
          obtain ⟨_, _, hm7⟩ := andThen_eq_ret _ _ _ hm6
          cases hm7
        | true =>
          simp only [if_true] at hm6
          have hmon := monitorPhase_ret _ _ _ _ _ hm6
          exact ⟨taskID, publicIP, edition, h1, h2, hdns, h4, waitPhase_ret _ _ _ _ h6,
            hmon.1, (monitorLoop_shutdown_iff _ _ 0).mp hmon.1, hmon.2⟩
  · intro hfail
    cases hc : w.awsConfigErr with
    | true => rw [run_of_config_error cfg w hc]; rfl
    | false =>
      cases hf : (fetchTaskID w.metadataURI w.metadata).1 with
      | ret taskID => exact absurd hf (hfail taskID)
      | stop o =>
        rw [run_of_identity_stop cfg w o hc hf]
        exact fetchTaskID_stop _ _ o hf
  · intro taskID publicIP hc h1 h2 hd
    have hdns : (updateDNSRecord cfg publicIP w.dnsErr).1
        = Call.stop (exitWithError "Failed to update DNS record") := by
      simp [updateDNSRecord, hd]
    have hrun : (run cfg w).1 = exitWithError "Failed to update DNS record" := by
      unfold run mainCalls
      simp only [hc, Bool.false_eq_true, if_false, andThen_of_ret _ _ taskID h1,
        andThen_of_ret _ _ publicIP h2, andThen_of_stop _ _ _ hdns]
    exact ⟨hrun, by rw [hrun]; rfl⟩
  · intro taskID publicIP hc h1 h2 hd hlen hall
    have hdns := updateDNSRecord_ok cfg publicIP
    have hdet : (determineEdition w.detect w.rcon).1 = Call.stop (exitWithError
        "10 minutes elapsed without Minecraft server starting. Terminating.") :=
      determineEditionLoop_timeout w.rcon w.detect 0 (by decide) (by simpa using hlen)
        (by simpa using hall)
    have hrun : (run cfg w).1 = exitWithError
        "10 minutes elapsed without Minecraft server starting. Terminating." := by
      unfold run mainCalls
      simp only [hc, hd, Bool.false_eq_true, if_false, andThen_of_ret _ _ taskID h1,
        andThen_of_ret _ _ publicIP h2, andThen_of_ret _ _ () hdns,
        andThen_of_stop _ _ _ hdet]
    exact ⟨hrun, by rw [hrun]; rfl⟩
  · intro taskID publicIP edition hc h1 h2 hd h4 hpath hup
    have hdns := updateDNSRecord_ok cfg publicIP
    have hrun : (run cfg w).1
        = exitWithError "Failed to set service desired count to zero" := by
      rcases hpath with hw | ⟨hw, hmon⟩
      · have hwp := waitPhase_of_result cfg edition w.probes false hw
        unfold run mainCalls
        simp only [hc, hd, hup, Bool.false_eq_true, if_false, andThen_of_ret _ _ taskID h1,
          andThen_of_ret _ _ publicIP h2, andThen_of_ret _ _ () hdns,
          andThen_of_ret _ _ edition h4,
          andThen_of_ret _ _ ()
            (sendStartupNotification_ret cfg edition publicIP w.startupTime),
          andThen_of_ret _ _ false hwp, shutdownService_err]
        rfl
      · have hwp := waitPhase_of_result cfg edition w.probes true hw
        have hmp := monitorPhase_of_update_error cfg edition
          (w.probes.drop (waitPolls cfg edition w.probes)) w.shutdownTime hmon
        unfold run mainCalls
        simp only [hc, hd, hup, Bool.false_eq_true, if_false, if_true,
          andThen_of_ret _ _ taskID h1,
          andThen_of_ret _ _ publicIP h2, andThen_of_ret _ _ () hdns,
          andThen_of_ret _ _ edition h4,
          andThen_of_ret _ _ ()
            (sendStartupNotification_ret cfg edition publicIP w.startupTime),
          andThen_of_ret _ _ true hwp, hmp]
    exact ⟨hrun, by rw [hrun]; rfl⟩

theorem run_of_resolve_stop (cfg : Config) (w : World) (taskID : String) (o : Outcome)
    (hcfg : w.awsConfigErr = false)
    (hid : (fetchTaskID w.metadataURI w.metadata).1 = Call.ret taskID)
    (h : (resolvePublicIP cfg taskID w.tasks w.interfaces).1 = Call.stop o) :
    (run cfg w).1 = o := by
  unfold run mainCalls
  simp only [hcfg, Bool.false_eq_true, if_false, andThen_of_ret _ _ taskID hid,
    andThen_of_stop _ _ o h]

theorem resolvePublicIP_stop_cases (cfg : Config) (taskID : String)
    (tasks : Option (List Task)) (interfaces : Option (List NetworkInterface)) (o : Outcome)
    (h : (resolvePublicIP cfg taskID tasks interfaces).1 = Call.stop o) :
    o = exitWithError "Failed to describe ECS task" ∨
    o = exitWithError "Failed to describe network interfaces" ∨
    o = Outcome.panicked := by
  unfold resolvePublicIP at h
  simp only at h
  repeat' split at h
  all_goals first
    | (cases h; exact Or.inl rfl)
    | (cases h; exact Or.inr (Or.inl rfl))
    | (cases h; exact Or.inr (Or.inr rfl))
    | (cases h)

/-- C5 fails as stated: when the first network interface has no association (the
task has no public address) identity resolution fails inside `resolvePublicIP` on a
nil dereference, and when the interface list is empty on an index out of range;
the process then ends on a runtime panic with exit code 2, not 1. -/
theorem missing_public_ip_exits_two :
    (resolvePublicIP scenarioAConfig "arn:aws:ecs:task/1" scenarioAWorld.tasks
      (some [{ association := none }])).1 = Call.stop Outcome.panicked ∧
    (run scenarioAConfig
      { scenarioAWorld with interfaces := some [{ association := none }] }).1.exitCode
      = some 2 ∧
    (run scenarioAConfig
      { scenarioAWorld with interfaces := some [{ association := none }] }).1.exitCode
      ≠ some 1 ∧
    (run scenarioAConfig { scenarioAWorld with interfaces := some [] }).1.exitCode = some 2 := by
  decide

/-- C5 (amended): the exit code of a run is 0 only when the run reached Monitoring,
the idle counter exceeded the idle window and the scale-to-zero call succeeded.
Every failure reported through `exitWithError` ends the run with exit code 1:
identity resolution failing in `fetchTaskID`, in DescribeTasks (error or empty task
list) or in DescribeNetworkInterfaces (error), DNS publish failure, the
edition-detection timeout and scale-to-zero failure.  Identity resolution that
fails on a response `resolvePublicIP` does not check (first task without
attachments, nil value of the `networkInterfaceId` detail, empty interface list,
interface without association or public IP) ends on a runtime panic, exit code 2;
`resolvePublicIP` fails in no other way. -/
theorem exit_codes_of_run (cfg : Config) (w : World) :
    (((run cfg w).1.exitCode = some 0 →
      ∃ taskID publicIP edition,
        (fetchTaskID w.metadataURI w.metadata).1 = Call.ret taskID ∧
        (resolvePublicIP cfg taskID w.tasks w.interfaces).1 = Call.ret publicIP ∧
        w.dnsErr = false ∧
        (determineEdition w.detect w.rcon).1 = Call.ret edition ∧
        (waitForInitialClientConnection cfg.StartupMin
          (observations edition w.probes)).result = some true ∧
        (monitorClientConnections cfg.ShutdownMin (observations edition
          (w.probes.drop (waitPolls cfg edition w.probes)))).shutdown = true ∧
        cfg.ShutdownMin < (monitorClientConnections cfg.ShutdownMin (observations edition
          (w.probes.drop (waitPolls cfg edition w.probes)))).finalCounter ∧
        w.updateErr = false) ∧
    ((∀ taskID, (fetchTaskID w.metadataURI w.metadata).1 ≠ Call.ret taskID) →
      (run cfg w).1.exitCode = some 1) ∧
    (∀ taskID publicIP, w.awsConfigErr = false →
      (fetchTaskID w.metadataURI w.metadata).1 = Call.ret taskID →
      (resolvePublicIP cfg taskID w.tasks w.interfaces).1 = Call.ret publicIP →
      w.dnsErr = true →
      (run cfg w).1 = exitWithError "Failed to update DNS record" ∧
      (run cfg w).1.exitCode = some 1) ∧
    (∀ taskID publicIP, w.awsConfigErr = false →
      (fetchTaskID w.metadataURI w.metadata).1 = Call.ret taskID →
      (resolvePublicIP cfg taskID w.tasks w.interfaces).1 = Call.ret publicIP →
      w.dnsErr = false →
      601 ≤ w.detect.length →
      (∀ p ∈ w.detect.take 601,
        isPortOpen javaPort p.javaQuery = false ∧
        isPortOpen bedrockPort p.bedrockQuery = false) →
      (run cfg w).1 = exitWithError
        "10 minutes elapsed without Minecraft server starting. Terminating." ∧
      (run cfg w).1.exitCode = some 1) ∧
    (∀ taskID publicIP edition, w.awsConfigErr = false →
      (fetchTaskID w.metadataURI w.metadata).1 = Call.ret taskID →
      (resolvePublicIP cfg taskID w.tasks w.interfaces).1 = Call.ret publicIP →
      w.dnsErr = false →
      (determineEdition w.detect w.rcon).1 = Call.ret edition →
      ((waitForInitialClientConnection cfg.StartupMin
          (observations edition w.probes)).result = some false ∨
        ((waitForInitialClientConnection cfg.StartupMin
          (observations edition w.probes)).result = some true ∧
         (monitorClientConnections cfg.ShutdownMin (observations edition
          (w.probes.drop (waitPolls cfg edition w.probes)))).shutdown = true)) →
      w.updateErr = true →
      (run cfg w).1 = exitWithError "Failed to set service desired count to zero" ∧
      (run cfg w).1.exitCode = some 1)) ∧
    (∀ taskID, w.awsConfigErr = false →
      (fetchTaskID w.metadataURI w.metadata).1 = Call.ret taskID →
      (w.tasks = none ∨ w.tasks = some []) →
      (run cfg w).1 = exitWithError "Failed to describe ECS task" ∧
      (run cfg w).1.exitCode = some 1) ∧
    (∀ taskID task tasks attachment attachments eni, w.awsConfigErr = false →
      (fetchTaskID w.metadataURI w.metadata).1 = Call.ret taskID →
      w.tasks = some (task :: tasks) → task.attachments = attachment :: attachments →
      findNetworkInterfaceId attachment.details = some eni →
      w.interfaces = none →
      (run cfg w).1 = exitWithError "Failed to describe network interfaces" ∧
      (run cfg w).1.exitCode = some 1) ∧
    (∀ taskID task tasks, w.awsConfigErr = false →
      (fetchTaskID w.metadataURI w.metadata).1 = Call.ret taskID →
      w.tasks = some (task :: tasks) →
      (task.attachments = [] ∨
        ∃ attachment attachments, task.attachments = attachment :: attachments ∧
          (findNetworkInterfaceId attachment.details = none ∨
            (∃ eni, findNetworkInterfaceId attachment.details = some eni) ∧
              (w.interfaces = some [] ∨
                ∃ ni nis, w.interfaces = some (ni :: nis) ∧
                  (ni.association = none ∨ ni.association = some none)))) →
      (run cfg w).1 = Outcome.panicked ∧ (run cfg w).1.exitCode = some 2) ∧
    (∀ taskID o, w.awsConfigErr = false →
      (fetchTaskID w.metadataURI w.metadata).1 = Call.ret taskID →
      (resolvePublicIP cfg taskID w.tasks w.interfaces).1 = Call.stop o →
      (run cfg w).1 = o ∧
      (o = exitWithError "Failed to describe ECS task" ∨
        o = exitWithError "Failed to describe network interfaces" ∨
        o = Outcome.panicked)) := by
  refine ⟨run_exit_code_paths cfg w, ?_, ?_, ?_, ?_⟩
  · intro taskID hc hid htasks
    have hstop : (resolvePublicIP cfg taskID w.tasks w.interfaces).1
        = Call.stop (exitWithError "Failed to describe ECS task") := by
      rcases htasks with h | h <;> rw [h] <;> rfl
    have hrun := run_of_resolve_stop cfg w taskID _ hc hid hstop
    exact ⟨hrun, by rw [hrun]; rfl⟩
  · intro taskID task tasks attachment attachments eni hc hid htasks hatt heni hifs
    have hstop : (resolvePublicIP cfg taskID w.tasks w.interfaces).1
        = Call.stop (exitWithError "Failed to describe network interfaces") := by
      rw [htasks, hifs]
      simp only [resolvePublicIP, hatt, heni]
    have hrun := run_of_resolve_stop cfg w taskID _ hc hid hstop
    exact ⟨hrun, by rw [hrun]; rfl⟩
  · intro taskID task tasks hc hid htasks hbad
    have hstop : (resolvePublicIP cfg taskID w.tasks w.interfaces).1
        = Call.stop Outcome.panicked := by
      rw [htasks]
      rcases hbad with hatt | ⟨attachment, attachments, hatt, hrest⟩
      · simp only [resolvePublicIP, hatt]
      · rcases hrest with hnone | ⟨⟨eni, heni⟩, hifs⟩
        · simp only [resolvePublicIP, hatt, hnone]
        · rcases hifs with hifs | ⟨ni, nis, hifs, hassoc⟩
          · rw [hifs]
            simp only [resolvePublicIP, hatt, heni]
          · rw [hifs]
            rcases hassoc with ha | ha <;> simp only [resolvePublicIP, hatt, heni, ha]
    have hrun := run_of_resolve_stop cfg w taskID _ hc hid hstop
    exact ⟨hrun, by rw [hrun]; rfl⟩
  · intro taskID o hc hid hstop
    exact ⟨run_of_resolve_stop cfg w taskID o hc hid hstop,
      resolvePublicIP_stop_cases cfg taskID w.tasks w.interfaces o hstop⟩

theorem exit_codes_of_run_witness :
    (run { scenarioAConfig with ShutdownMin := 1 } idleTimeoutWorld).1.exitCode = some 0 ∧
    ({ scenarioAWorld with tasks := some [] } : World).tasks = some [] ∧
    (run scenarioAConfig { scenarioAWorld with tasks := some [] }).1.exitCode = some 1 ∧
    (run scenarioAConfig { scenarioAWorld with dnsErr := true }).1.exitCode = some 1 :=
  ⟨by decide, rfl,
    ((exit_codes_of_run scenarioAConfig { scenarioAWorld with tasks := some [] }).2.1
      "arn:aws:ecs:task/1" (by decide) (by decide) (Or.inr rfl)).2,
    by decide⟩

/-! ## Properties of the edition detection -/

theorem quiet_iff (p : DetectPoll) :
    p.quiet = true ↔
      isPortOpen javaPort p.javaQuery = false ∧ isPortOpen bedrockPort p.bedrockQuery = false := by
  unfold DetectPoll.quiet
  cases isPortOpen javaPort p.javaQuery <;> cases isPortOpen bedrockPort p.bedrockQuery <;> simp

theorem determineEditionLoop_quiet (rcon : List (List ConnectionStat)) (c : Int)
    (p : DetectPoll) (post : List DetectPoll) (hq : p.quiet = true)
    (hc : ¬ (c + 1 > maxStartupWaitSeconds)) :
    determineEditionLoop rcon c (p :: post)
      = ((determineEditionLoop rcon (c + 1) post).1,
          Effect.connections :: Effect.connections :: Effect.sleep 1 ::
            (determineEditionLoop rcon (c + 1) post).2) := by
  have hq0 := (quiet_iff p).mp hq
  simp only [determineEditionLoop, hq0.1, hq0.2, Bool.false_eq_true, if_false, hc]

theorem determineEditionLoop_skip (rcon : List (List ConnectionStat))
    (pre rest : List DetectPoll) :
    ∀ c : Int, (∀ q ∈ pre, q.quiet = true) → c + pre.length ≤ 600 →
      (determineEditionLoop rcon c (pre ++ rest)).1
        = (determineEditionLoop rcon (c + pre.length) rest).1 := by
  induction pre with
  | nil => intro c _ _; simp
  | cons q pre ih =>
    intro c hq hc
    have hlen : (((q :: pre).length : Nat) : Int) = (pre.length : Int) + 1 := by
      simp
    rw [hlen] at hc
    have hlast : ¬ (c + 1 > maxStartupWaitSeconds) := by
      unfold maxStartupWaitSeconds; omega
    have harith : c + 1 + (pre.length : Int) = c + ((pre.length : Int) + 1) := by ring
    rw [List.cons_append,
      determineEditionLoop_quiet rcon c q (pre ++ rest) (hq q (List.mem_cons_self _ _)) hlast,
      hlen]
    show (determineEditionLoop rcon (c + 1) (pre ++ rest)).1 = _
    rw [ih (c + 1) (fun r hr => hq r (List.mem_cons_of_mem _ hr)) (by omega), harith]

theorem determineEditionLoop_java (rcon : List (List ConnectionStat)) (c : Int)
    (p : DetectPoll) (post : List DetectPoll) (hj : isPortOpen javaPort p.javaQuery = true) :
    determineEditionLoop rcon c (p :: post)
      = (match (waitForRCON rcon).1 with
          | Call.ret _ => Call.ret "java"
          | Call.stop o => Call.stop o,
         Effect.connections :: (waitForRCON rcon).2) := by
  unfold determineEditionLoop
  simp only [hj, if_true]
  rw [andThen_of_ret _ _ () rfl]
  cases hw : (waitForRCON rcon).1 with
  | ret u => rw [andThen_of_ret _ _ u hw]; simp
  | stop o => rw [andThen_of_stop _ _ o hw]; simp

theorem determineEditionLoop_bedrock (rcon : List (List ConnectionStat)) (c : Int)
    (p : DetectPoll) (post : List DetectPoll) (hj : isPortOpen javaPort p.javaQuery = false)
    (hb : isPortOpen bedrockPort p.bedrockQuery = true) :
    determineEditionLoop rcon c (p :: post)
      = (Call.ret "bedrock", [Effect.connections, Effect.connections]) := by
  unfold determineEditionLoop
  simp only [hj, hb, Bool.false_eq_true, if_false, if_true]

theorem waitForRCON_of_listener (pre : List (List ConnectionStat)) (t : List ConnectionStat)
    (post : List (List ConnectionStat)) (hpre : ∀ q ∈ pre, isPortOpen rconPort q = false)
    (ht : isPortOpen rconPort t = true) :
    waitForRCON (pre ++ t :: post)
      = (Call.ret (), rconWaitCalls pre.length ++ [Effect.connections]) := by
  induction pre with
  | nil => simp [waitForRCON, ht, rconWaitCalls]
  | cons q pre ih =>
    have hq := hpre q (List.mem_cons_self _ _)
    have ih2 := ih (fun r hr => hpre r (List.mem_cons_of_mem _ hr))
    rw [List.cons_append]
    unfold waitForRCON
    simp only [hq, Bool.false_eq_true, if_false, ih2, List.length_cons, rconWaitCalls,
      List.cons_append]

theorem waitForRCON_of_no_listener (tables : List (List ConnectionStat))
    (h : ∀ q ∈ tables, isPortOpen rconPort q = false) :
    waitForRCON tables = (Call.stop Outcome.running, rconWaitCalls tables.length) := by
  induction tables with
  | nil => rfl
  | cons q tables ih =>
    have hq := h q (List.mem_cons_self _ _)
    have ih2 := ih (fun r hr => h r (List.mem_cons_of_mem _ hr))
    unfold waitForRCON
    simp only [hq, Bool.false_eq_true, if_false, ih2, List.length_cons, rconWaitCalls]

theorem waitForRCON_ret (tables : List (List ConnectionStat))
    (h : (waitForRCON tables).1 = Call.ret ()) :
    ∃ pre t post, tables = pre ++ t :: post ∧
      (∀ q ∈ pre, isPortOpen rconPort q = false) ∧ isPortOpen rconPort t = true := by
  induction tables with
  | nil => cases h
  | cons q tables ih =>
    cases hq : isPortOpen rconPort q with
    | true => exact ⟨[], q, tables, rfl, by simp, hq⟩
    | false =>
      unfold waitForRCON at h
      simp only [hq, Bool.false_eq_true, if_false] at h
      obtain ⟨pre, t, post, heq, hpre, ht⟩ := ih h
      refine ⟨q :: pre, t, post, by rw [heq]; rfl, ?_, ht⟩
      intro r hr
      rcases List.mem_cons.mp hr with hr | hr
      · rw [hr]; exact hq
      · exact hpre r hr

theorem determineEditionLoop_ret (rcon : List (List ConnectionStat)) (polls : List DetectPoll) :
    ∀ (c : Int) (e : String), (determineEditionLoop rcon c polls).1 = Call.ret e →
      (e = "java" ∧ (waitForRCON rcon).1 = Call.ret ()) ∨ e = "bedrock" := by
  induction polls with
  | nil => intro c e h; cases h
  | cons p polls ih =>
    intro c e h
    cases hj : isPortOpen javaPort p.javaQuery with
    | true =>
      rw [determineEditionLoop_java rcon c p polls hj] at h
      cases hw : (waitForRCON rcon).1 with
      | ret u =>
        rw [hw] at h
        left
        exact ⟨(Call.ret.inj h).symm, rfl⟩
      | stop o => rw [hw] at h; cases h
    | false =>
      cases hb : isPortOpen bedrockPort p.bedrockQuery with
      | true =>
        rw [determineEditionLoop_bedrock rcon c p polls hj hb] at h
        right
        exact (Call.ret.inj h).symm
      | false =>
        unfold determineEditionLoop at h
        simp only [hj, hb, Bool.false_eq_true, if_false] at h
        split at h
        · cases h
        · exact ih (c + 1) e h

theorem waitForRCON_ret_of_mem (tables : List (List ConnectionStat))
    (h : ∃ t ∈ tables, isPortOpen rconPort t = true) : (waitForRCON tables).1 = Call.ret () := by
  induction tables with
  | nil => obtain ⟨t, ht, _⟩ := h; cases ht
  | cons q tables ih =>
    cases hq : isPortOpen rconPort q with
    | true => simp [waitForRCON, hq]
    | false =>
      obtain ⟨t, ht, hopen⟩ := h
      rcases List.mem_cons.mp ht with ht | ht
      · rw [ht, hq] at hopen; cases hopen
      · simp only [waitForRCON, hq, Bool.false_eq_true, if_false]
        exact ih ⟨t, ht, hopen⟩

/-- C11 fails as stated: with port 25565 listening at the first poll and no
listener on 25575 in the following polls, `determineEdition` is still inside
`waitForRCON` and has not returned "java". -/
theorem determineEdition_java_not_returned_without_rcon :
    (determineEdition (snapshotPolls [javaOnlySnapshot, javaOnlySnapshot, javaOnlySnapshot])
      [javaOnlySnapshot, javaOnlySnapshot, javaOnlySnapshot]).1 = Call.stop Outcome.running ∧
    (determineEdition (snapshotPolls [javaOnlySnapshot, javaOnlySnapshot, javaOnlySnapshot])
      [javaOnlySnapshot, javaOnlySnapshot, javaOnlySnapshot]).1 ≠ Call.ret "java" := by
  decide

/-- C11 (amended): when the first detection poll at which a check sees its
listener is one of the first 601 polls, `determineEdition` returns "java" if the
check of port 25565 succeeds at that poll and some poll of `waitForRCON` shows
port 25575 listening (with no such poll it has not returned), and returns
"bedrock" if at that poll only the check of port 19132 succeeds; it returns no
other value. -/
theorem determineEdition_first_listener (pre : List DetectPoll) (p : DetectPoll)
    (post : List DetectPoll) (rcon : List (List ConnectionStat))
    (hpre : ∀ q ∈ pre, q.quiet = true) (hceil : pre.length ≤ 600) (hp : p.quiet = false) :
    (isPortOpen javaPort p.javaQuery = true →
      ((∃ t ∈ rcon, isPortOpen rconPort t = true) →
        (determineEdition (pre ++ p :: post) rcon).1 = Call.ret "java") ∧
      ((∀ t ∈ rcon, isPortOpen rconPort t = false) →
        (determineEdition (pre ++ p :: post) rcon).1 = Call.stop Outcome.running)) ∧
    (isPortOpen javaPort p.javaQuery = false →
      isPortOpen bedrockPort p.bedrockQuery = true ∧
      (determineEdition (pre ++ p :: post) rcon).1 = Call.ret "bedrock") ∧
    (∀ e, (determineEdition (pre ++ p :: post) rcon).1 = Call.ret e →
      e = "java" ∨ e = "bedrock") := by
  have hskip : (determineEdition (pre ++ p :: post) rcon).1
      = (determineEditionLoop rcon (0 + pre.length) (p :: post)).1 :=
    determineEditionLoop_skip rcon pre (p :: post) 0 hpre (by omega)
  refine ⟨?_, ?_, ?_⟩
  · intro hj
    rw [hskip, determineEditionLoop_java rcon _ p post hj]
    constructor
    · intro hr
      simp only [waitForRCON_ret_of_mem rcon hr]
    · intro hr
      simp only [waitForRCON_of_no_listener rcon hr]
  · intro hj
    have hb : isPortOpen bedrockPort p.bedrockQuery = true := by
      unfold DetectPoll.quiet at hp
      rw [hj] at hp
      cases hb : isPortOpen bedrockPort p.bedrockQuery with
      | true => rfl
      | false => rw [hb] at hp; simp at hp
    exact ⟨hb, by rw [hskip, determineEditionLoop_bedrock rcon _ p post hj hb]⟩
  · intro e he
    rcases determineEditionLoop_ret rcon _ 0 e he with h | h
    · exact Or.inl h.1
    · exact Or.inr h

theorem determineEdition_first_listener_witness :
    (determineEdition
      (snapshotPolls [[], []] ++
        { javaQuery := javaRconSnapshot, bedrockQuery := javaRconSnapshot } :: [])
      [javaOnlySnapshot, javaRconSnapshot]).1 = Call.ret "java" :=
  ((determineEdition_first_listener (snapshotPolls [[], []])
      { javaQuery := javaRconSnapshot, bedrockQuery := javaRconSnapshot } []
      [javaOnlySnapshot, javaRconSnapshot] (by decide) (by decide) (by decide)).1
    (by decide)).1 ⟨javaRconSnapshot, by decide, by decide⟩

theorem determineEditionLoop_fatal (rcon : List (List ConnectionStat))
    (polls : List DetectPoll) :
    ∀ c : Int, c ≤ 600 →
      (determineEditionLoop rcon c polls).1 = Call.stop (exitWithError
        "10 minutes elapsed without Minecraft server starting. Terminating.") →
      (601 - c).toNat ≤ polls.length ∧ ∀ p ∈ polls.take (601 - c).toNat, p.quiet = true := by
  induction polls with
  | nil => intro c _ h; cases h
  | cons p polls ih =>
    intro c hc h
    cases hj : isPortOpen javaPort p.javaQuery with
    | true =>
      rw [determineEditionLoop_java rcon c p polls hj] at h
      cases hw : (waitForRCON rcon).1 with
      | ret u => rw [hw] at h; cases h
      | stop o =>
        rw [hw] at h
        rw [waitForRCON_stop rcon o hw] at h
        cases h
    | false =>
      cases hb : isPortOpen bedrockPort p.bedrockQuery with
      | true => rw [determineEditionLoop_bedrock rcon c p polls hj hb] at h; cases h
      | false =>
        have hq : p.quiet = true := (quiet_iff p).mpr ⟨hj, hb⟩
        by_cases hlast : c + 1 > maxStartupWaitSeconds
        · have hc600 : (601 - c).toNat = 1 := by
            unfold maxStartupWaitSeconds at hlast; omega
          rw [hc600]
          refine ⟨by simp, ?_⟩
          intro r hr
          simp only [List.take_succ_cons, List.take_zero, List.mem_singleton] at hr
          rw [hr]; exact hq
        · rw [determineEditionLoop_quiet rcon c p polls hq hlast] at h
          have hc2 : c + 1 ≤ 600 := by
            unfold maxStartupWaitSeconds at hlast; omega
          obtain ⟨h1, h2⟩ := ih (c + 1) hc2 h
          have hn : (601 - c).toNat = (601 - (c + 1)).toNat + 1 := by omega
          rw [hn]
          refine ⟨by simp only [List.length_cons]; omega, ?_⟩
          intro r hr
          rw [List.take_succ_cons] at hr
          rcases List.mem_cons.mp hr with hr | hr
          · rw [hr]; exact hq
          · exact h2 r hr

theorem determineEditionLoop_stop_eq (rcon : List (List ConnectionStat))
    (polls : List DetectPoll) :
    ∀ (c : Int) (o : Outcome), (determineEditionLoop rcon c polls).1 = Call.stop o →
      o = Outcome.running ∨ o = exitWithError
        "10 minutes elapsed without Minecraft server starting. Terminating." := by
  induction polls with
  | nil => intro c o h; cases h; exact Or.inl rfl
  | cons p polls ih =>
    intro c o h
    cases hj : isPortOpen javaPort p.javaQuery with
    | true =>
      rw [determineEditionLoop_java rcon c p polls hj] at h
      cases hw : (waitForRCON rcon).1 with
      | ret u => rw [hw] at h; cases h
      | stop o2 =>
        rw [hw] at h
        cases h
        exact Or.inl (waitForRCON_stop rcon o hw)
    | false =>
      cases hb : isPortOpen bedrockPort p.bedrockQuery with
      | true => rw [determineEditionLoop_bedrock rcon c p polls hj hb] at h; cases h
      | false =>
        have hq : p.quiet = true := (quiet_iff p).mpr ⟨hj, hb⟩
        by_cases hlast : c + 1 > maxStartupWaitSeconds
        · simp only [determineEditionLoop, hj, hb, Bool.false_eq_true, if_false, hlast,
            if_true] at h
          cases h
          exact Or.inr rfl
        · rw [determineEditionLoop_quiet rcon c p polls hq hlast] at h
          exact ih (c + 1) o h

/-- C12 fails as stated: when none of the first 600 polls shows a listener but the
601st poll shows one on port 19132, `determineEdition` returns "bedrock" and the
fatal error is not raised. -/
theorem determineEdition_listener_at_poll_601_not_fatal :
    (∀ p ∈ listenerAtPoll601.take 600, p.quiet = true) ∧
    (determineEdition listenerAtPoll601 []).1 = Call.ret "bedrock" ∧
    (determineEdition listenerAtPoll601 []).1 ≠ Call.stop (exitWithError
      "10 minutes elapsed without Minecraft server starting. Terminating.") := by
  have hret : (determineEdition listenerAtPoll601 []).1 = Call.ret "bedrock" := by
    have hskip := determineEditionLoop_skip [] (List.replicate 600 quietPoll)
      [{ javaQuery := bedrockOnlySnapshot, bedrockQuery := bedrockOnlySnapshot }] 0
      (by intro q hq; rw [List.eq_of_mem_replicate hq]; decide)
      (by rw [List.length_replicate]; norm_num)
    unfold determineEdition listenerAtPoll601
    rw [hskip, determineEditionLoop_bedrock [] _ _ [] (by decide) (by decide)]
  refine ⟨?_, hret, by rw [hret]; intro h; cases h⟩
  · intro p hp
    unfold listenerAtPoll601 at hp
    rw [List.take_left' (List.length_replicate 600 quietPoll)] at hp
    rw [List.eq_of_mem_replicate hp]
    decide

/-- C12 (amended): `determineEdition` ends the controller with the fatal error
(exit code 1) if and only if none of the first 601 polls, made at seconds 0 to
600, shows a listener on port 25565 or on port 19132. -/
theorem determineEdition_fatal_iff (detect : List DetectPoll)
    (rcon : List (List ConnectionStat)) :
    ((determineEdition detect rcon).1 = Call.stop (exitWithError
        "10 minutes elapsed without Minecraft server starting. Terminating.") ↔
      601 ≤ detect.length ∧ ∀ p ∈ detect.take 601, p.quiet = true) ∧
    (exitWithError
      "10 minutes elapsed without Minecraft server starting. Terminating.").exitCode = some 1 ∧
    (∀ o, (determineEdition detect rcon).1 = Call.stop o → o.exitCode = some 1 →
      o = exitWithError "10 minutes elapsed without Minecraft server starting. Terminating.") := by
  refine ⟨⟨?_, ?_⟩, rfl, ?_⟩
  · intro h
    have := determineEditionLoop_fatal rcon detect 0 (by decide) h
    simpa using this
  · rintro ⟨hlen, hall⟩
    exact determineEditionLoop_timeout rcon detect 0 (by decide) (by simpa using hlen)
      (by
        intro p hp
        exact (quiet_iff p).mp (hall p (by simpa using hp)))
  · intro o ho hcode
    rcases determineEditionLoop_stop_eq rcon detect 0 o ho with h | h
    · rw [h] at hcode; cases hcode
    · exact h

/-- C13: `determineEdition` returns "java" only when some poll of `waitForRCON`
shows port 25575 listening; after the game port was seen it makes one socket-table
query per second, and it returns at the first poll that shows the listener, making
no further poll; while no poll shows it, "java" is not returned. -/
theorem determineEdition_java_waits_for_rcon (detect : List DetectPoll)
    (rcon : List (List ConnectionStat)) :
    ((determineEdition detect rcon).1 = Call.ret "java" →
      ∃ pre t post, rcon = pre ++ t :: post ∧
        (∀ q ∈ pre, isPortOpen rconPort q = false) ∧ isPortOpen rconPort t = true ∧
        waitForRCON rcon = (Call.ret (), rconWaitCalls pre.length ++ [Effect.connections])) ∧
    (∀ (pre : List (List ConnectionStat)) (t : List ConnectionStat)
        (post : List (List ConnectionStat)) (c : Int) (p : DetectPoll) (polls : List DetectPoll),
      rcon = pre ++ t :: post → (∀ q ∈ pre, isPortOpen rconPort q = false) →
      isPortOpen rconPort t = true → isPortOpen javaPort p.javaQuery = true →
      determineEditionLoop rcon c (p :: polls)
        = (Call.ret "java",
            Effect.connections :: (rconWaitCalls pre.length ++ [Effect.connections]))) ∧
    ((∀ q ∈ rcon, isPortOpen rconPort q = false) →
      (determineEdition detect rcon).1 ≠ Call.ret "java") := by
  refine ⟨?_, ?_, ?_⟩
  · intro h
    rcases determineEditionLoop_ret rcon detect 0 "java" h with ⟨_, hw⟩ | hne
    · obtain ⟨pre, t, post, heq, hpre, ht⟩ := waitForRCON_ret rcon hw
      exact ⟨pre, t, post, heq, hpre, ht, by rw [heq]; exact waitForRCON_of_listener pre t post hpre ht⟩
    · exact absurd hne (by decide)
  · intro pre t post c p polls heq hpre ht hj
    rw [determineEditionLoop_java rcon c p polls hj, heq,
      waitForRCON_of_listener pre t post hpre ht]
  · intro hclosed h
    rcases determineEditionLoop_ret rcon detect 0 "java" h with ⟨_, hw⟩ | hne
    · rw [waitForRCON_of_no_listener rcon hclosed] at hw
      cases hw
    · exact absurd hne (by decide)

theorem determineEdition_java_waits_for_rcon_witness :
    (∀ q ∈ [javaOnlySnapshot, javaOnlySnapshot], isPortOpen rconPort q = false) ∧
    (determineEdition (snapshotPolls [javaOnlySnapshot])
      [javaOnlySnapshot, javaOnlySnapshot]).1 ≠ Call.ret "java" :=
  ⟨by decide,
    (determineEdition_java_waits_for_rcon (snapshotPolls [javaOnlySnapshot])
      [javaOnlySnapshot, javaOnlySnapshot]).2.2 (by decide)⟩

example : determineEdition (snapshotPolls [[], javaOnlySnapshot])
    [javaOnlySnapshot, javaOnlySnapshot, javaRconSnapshot]
    = (Call.ret "java",
        [Effect.connections, Effect.connections, Effect.sleep 1, Effect.connections,
         Effect.connections, Effect.sleep 1, Effect.connections, Effect.sleep 1,
         Effect.connections]) := by decide

/-! ## Properties of the probe dispatch (`isConnected`) -/

theorem mem_andThen {α β : Type} (r : Call α × List Effect)
    (k : α → Call β × List Effect) (x : Effect) (h : x ∈ (Call.andThen r k).2) :
    x ∈ r.2 ∨ ∃ a, r.1 = Call.ret a ∧ x ∈ (k a).2 := by
  cases hr : r.1 with
  | ret a =>
    rw [andThen_of_ret r k a hr] at h
    rcases List.mem_append.mp h with h | h
    · exact Or.inl h
    · exact Or.inr ⟨a, rfl, h⟩
  | stop o =>
    rw [andThen_of_stop r k o hr] at h
    exact Or.inl h

theorem resolvePublicIP_no_udp (cfg : Config) (taskID : String) (tasks : Option (List Task))
    (interfaces : Option (List NetworkInterface)) (addr : String) :
    Effect.udpDial addr ∉ (resolvePublicIP cfg taskID tasks interfaces).2 := by
  unfold resolvePublicIP
  simp only
  repeat' split
  all_goals simp

theorem waitForRCON_no_udp (tables : List (List ConnectionStat)) (addr : String) :
    Effect.udpDial addr ∉ (waitForRCON tables).2 := by
  induction tables with
  | nil => simp [waitForRCON]
  | cons t tables ih =>
    unfold waitForRCON
    split
    · simp
    · simp [ih]

theorem determineEditionLoop_no_udp (rcon : List (List ConnectionStat))
    (polls : List DetectPoll) (addr : String) :
    ∀ c : Int, Effect.udpDial addr ∉ (determineEditionLoop rcon c polls).2 := by
  induction polls with
  | nil => intro c; simp [determineEditionLoop]
  | cons p polls ih =>
    intro c
    cases hj : isPortOpen javaPort p.javaQuery with
    | true =>
      rw [determineEditionLoop_java rcon c p polls hj]
      simp [waitForRCON_no_udp]
    | false =>
      unfold determineEditionLoop
      simp only [hj, Bool.false_eq_true, if_false]
      split
      · simp
      · split
        · simp
        · simp [ih (c + 1)]

theorem waitEffects_java_no_udp (probes : List ProbeIO) (addr : String) :
    Effect.udpDial addr ∉ waitEffects "java" probes := by
  induction probes with
  | nil => simp [waitEffects]
  | cons io probes ih =>
    unfold waitEffects
    simp only [isConnected, if_true, List.mem_append, not_or]
    refine ⟨⟨by simp, ?_⟩, ih⟩
    split <;> simp

theorem monitorEffects_java_no_udp (probes : List ProbeIO) (addr : String) :
    Effect.udpDial addr ∉ monitorEffects "java" probes := by
  induction probes with
  | nil => simp [monitorEffects]
  | cons io probes ih =>
    unfold monitorEffects
    simp only [isConnected, if_true, List.mem_append, not_or]
    exact ⟨⟨by simp, by simp⟩, ih⟩

theorem shutdownService_no_udp (cfg : Config) (now : String) (updateErr : Bool)
    (addr : String) : Effect.udpDial addr ∉ (shutdownService cfg now updateErr).2 := by
  cases updateErr with
  | false => rw [shutdownService_ok]; unfold sendShutdownNotification; split <;> simp
  | true => rw [shutdownService_err]; unfold sendShutdownNotification; split <;> simp

theorem run_calls (cfg : Config) (w : World) (h : w.awsConfigErr = false) :
    (run cfg w).2 = (mainCalls cfg w).2 := by
  unfold run
  simp only [h, Bool.false_eq_true, if_false]
  split <;> rfl

theorem udp_ping_only_after_bedrock (cfg : Config) (w : World) (addr : String)
    (h : Effect.udpDial addr ∈ (run cfg w).2) :
    (determineEdition w.detect w.rcon).1 = Call.ret "bedrock" := by
  cases hc : w.awsConfigErr with
  | true => rw [run_of_config_error cfg w hc] at h; cases h
  | false =>
    rw [run_calls cfg w hc] at h
    unfold mainCalls at h
    rcases mem_andThen _ _ _ h with h1 | ⟨taskID, _, h1⟩
    · rw [fetchTaskID_calls] at h1; simp at h1
    rcases mem_andThen _ _ _ h1 with h2 | ⟨publicIP, _, h2⟩
    · exact absurd h2 (resolvePublicIP_no_udp _ _ _ _ _)
    rcases mem_andThen _ _ _ h2 with h3 | ⟨_, _, h3⟩
    · unfold updateDNSRecord at h3; simp only at h3; split at h3 <;> simp at h3
    rcases mem_andThen _ _ _ h3 with h4 | ⟨edition, hed, h4⟩
    · exact absurd h4 (determineEditionLoop_no_udp _ _ _ 0)
    rcases determineEditionLoop_ret w.rcon w.detect 0 edition hed with ⟨hjava, _⟩ | hbed
    · exfalso
      subst hjava
      rcases mem_andThen _ _ _ h4 with h5 | ⟨_, _, h5⟩
      · unfold sendStartupNotification at h5; split at h5 <;> simp at h5
      rcases mem_andThen _ _ _ h5 with h6 | ⟨connected, _, h6⟩
      · unfold waitPhase at h6
        simp only at h6
        split at h6 <;> exact absurd h6 (waitEffects_java_no_udp _ _)
      cases connected with
      | true =>
        simp only [if_true] at h6
        unfold monitorPhase at h6
        simp only at h6
        split at h6
        · rcases mem_andThen _ _ _ h6 with h7 | ⟨_, _, h7⟩
          · exact absurd h7 (monitorEffects_java_no_udp _ _)
          · exact absurd h7 (shutdownService_no_udp _ _ _ _)
        · exact absurd h6 (monitorEffects_java_no_udp _ _)
      | false =>
        simp only [Bool.false_eq_true, if_false] at h6
        rcases mem_andThen _ _ _ h6 with h7 | ⟨_, _, h7⟩
        · exact absurd h7 (shutdownService_no_udp _ _ _ _)
        · simp at h7
    · rw [← hbed]; exact hed

/-- C14 fails as stated: for the empty edition string `isConnected` sends the
UDP ping and, when the ping is answered, returns true. -/
theorem isConnected_empty_edition_pings :
    (isConnected "" { conns := [], ping := answeredPing }).1 = true ∧
    (isConnected "" { conns := [], ping := answeredPing }).2
      = [Effect.udpDial "127.0.0.1:19132",
         Effect.udpWrite (buildBedrockPing answeredPing.rnd), Effect.udpRead] := by
  decide

/-- C14 (amended): the probe has no disabled state.  For every edition value other
than "java" (also the empty string) `isConnected` behaves as for "bedrock": it
dials the UDP address, makes no socket-table query, and is true exactly when
`sendBedrockPing` returns 1.  An unresolved edition never reaches the probe:
`determineEdition` returns only "java" or "bedrock", and a run dials the UDP
address only after `determineEdition` returned "bedrock". -/
theorem isConnected_non_java_uses_bedrock_ping (edition : String) (io : ProbeIO)
    (hne : edition ≠ "java") :
    isConnected edition io = isConnected "bedrock" io ∧
    ((isConnected edition io).1 = true ↔ (sendBedrockPing io.ping).1 = 1) ∧
    Effect.udpDial bedrockIP ∈ (isConnected edition io).2 ∧
    Effect.connections ∉ (isConnected edition io).2 ∧
    (∀ detect rcon e, (determineEdition detect rcon).1 = Call.ret e →
      e = "java" ∨ e = "bedrock") ∧
    (∀ (cfg : Config) (w : World) (addr : String), Effect.udpDial addr ∈ (run cfg w).2 →
      (determineEdition w.detect w.rcon).1 = Call.ret "bedrock") := by
  have hval : (sendBedrockPing io.ping).1 = 0 ∨ (sendBedrockPing io.ping).1 = 1 := by
    unfold sendBedrockPing
    simp only []
    split_ifs <;> simp
  have hdial : Effect.udpDial bedrockIP ∈ (sendBedrockPing io.ping).2 ∧
      Effect.connections ∉ (sendBedrockPing io.ping).2 := by
    unfold sendBedrockPing
    simp only []
    split_ifs <;> simp
  refine ⟨by simp [isConnected, hne], ?_, ?_, ?_, ?_, ?_⟩
  · simp only [isConnected, hne, if_false, decide_eq_true_eq]
    rcases hval with h | h <;> simp [h]
  · simp only [isConnected, hne, if_false]
    exact hdial.1
  · simp only [isConnected, hne, if_false]
    exact hdial.2
  · intro detect rcon e he
    rcases determineEditionLoop_ret rcon detect 0 e he with h | h
    · exact Or.inl h.1
    · exact Or.inr h
  · intro cfg w addr h
    exact udp_ping_only_after_bedrock cfg w addr h

theorem isConnected_non_java_uses_bedrock_ping_witness :
    ("" : String) ≠ "java" ∧
    isConnected "" { conns := [], ping := silentPing }
      = isConnected "bedrock" { conns := [], ping := silentPing } :=
  ⟨by decide,
    (isConnected_non_java_uses_bedrock_ping "" { conns := [], ping := silentPing }
      (by decide)).1⟩

/-! ## Properties of the TCP probe (`checkConnections`) -/

theorem checkConnections_eq_filter (port : Nat) (conns : List ConnectionStat) :
    checkConnections port conns
      = (conns.filter fun c => decide (c.lport = port ∧ c.status = "ESTABLISHED")).length := by
  induction conns with
  | nil => rfl
  | cons c conns ih =>
    by_cases h : c.lport = port ∧ c.status = "ESTABLISHED"
    · simp [checkConnections, h, ih]
    · simp only [checkConnections, h, if_false, ih]
      rw [List.filter_cons_of_neg (by simpa using h)]

/-- C15: for every connection table `checkConnections(25565)` is the number of
entries whose local port is 25565 and whose status is "ESTABLISHED"; an entry on
another port or in another state never changes the count; and `isConnected("java")`
makes one socket-table query and is true exactly when that count is positive. -/
theorem checkConnections_counts_established (conns : List ConnectionStat) (io : ProbeIO) :
    javaPort = 25565 ∧
    checkConnections javaPort conns
      = (conns.filter fun c => decide (c.lport = 25565 ∧ c.status = "ESTABLISHED")).length ∧
    (∀ c : ConnectionStat, c.lport ≠ 25565 ∨ c.status ≠ "ESTABLISHED" →
      checkConnections javaPort (c :: conns) = checkConnections javaPort conns) ∧
    (∀ c : ConnectionStat, c.lport = 25565 → c.status = "ESTABLISHED" →
      checkConnections javaPort (c :: conns) = checkConnections javaPort conns + 1) ∧
    ((isConnected "java" io).1 = true ↔
      0 < (io.conns.filter fun c =>
        decide (c.lport = 25565 ∧ c.status = "ESTABLISHED")).length) ∧
    (isConnected "java" io).2 = [Effect.connections] := by
  refine ⟨rfl, checkConnections_eq_filter javaPort conns, ?_, ?_, ?_, ?_⟩
  · intro c hc
    have hn : ¬ (c.lport = javaPort ∧ c.status = "ESTABLISHED") := by
      rintro ⟨h1, h2⟩
      rcases hc with hc | hc
      · exact hc h1
      · exact hc h2
    simp only [checkConnections, hn, if_false]
  · intro c h1 h2
    have hy : c.lport = javaPort ∧ c.status = "ESTABLISHED" := ⟨h1, h2⟩
    simp only [checkConnections, hy, and_self, if_true]
  · have hcount := checkConnections_eq_filter 25565 io.conns
    simp only [isConnected, if_true, javaPort, hcount, decide_eq_true_eq, gt_iff_lt]
  · simp [isConnected]

theorem checkConnections_counts_established_witness :
    checkConnections javaPort
      [{ lport := 25565, status := "ESTABLISHED" }, { lport := 25565, status := "LISTEN" },
       { lport := 25575, status := "ESTABLISHED" }, { lport := 25565, status := "ESTABLISHED" }]
      = 2 ∧
    checkConnections javaPort
      ({ lport := 25565, status := "TIME_WAIT" } ::
        [{ lport := 25565, status := "ESTABLISHED" }])
      = checkConnections javaPort [{ lport := 25565, status := "ESTABLISHED" }] :=
  ⟨by decide,
    (checkConnections_counts_established [{ lport := 25565, status := "ESTABLISHED" }]
      { conns := [], ping := silentPing }).2.2.1 { lport := 25565, status := "TIME_WAIT" }
      (Or.inr (by decide))⟩

/-! ## Properties of the notifications -/

/-- C16: for every configuration with an empty `SNSTopic`, `sendStartupNotification`
and `sendShutdownNotification` make no call at all (no `Publish`) and return
normally, whatever the other arguments are; `shutdownService` then makes the
`UpdateService` call only. -/
theorem notifications_are_noops_without_topic (cfg : Config) (htopic : cfg.SNSTopic = "")
    (edition publicIP now : String) (updateErr : Bool) :
    sendStartupNotification cfg edition publicIP now = (Call.ret (), []) ∧
    sendShutdownNotification cfg now = (Call.ret (), []) ∧
    (shutdownService cfg now updateErr).2 = [Effect.updateService cfg.Cluster cfg.Service 0] := by
  have h1 : sendStartupNotification cfg edition publicIP now = (Call.ret (), []) := by
    simp [sendStartupNotification, htopic]
  have h2 : sendShutdownNotification cfg now = (Call.ret (), []) := by
    simp [sendShutdownNotification, htopic]
  refine ⟨h1, h2, ?_⟩
  cases updateErr with
  | false => rw [shutdownService_ok, h2]; rfl
  | true => rw [shutdownService_err, h2]; rfl

theorem notifications_are_noops_without_topic_witness :
    ({ scenarioAConfig with SNSTopic := "" } : Config).SNSTopic = "" ∧
    sendStartupNotification { scenarioAConfig with SNSTopic := "" } "bedrock" "198.51.100.7"
      "Wed, 04 Nov 2026 10:00:00 UTC" = (Call.ret (), []) :=
  ⟨rfl,
    (notifications_are_noops_without_topic { scenarioAConfig with SNSTopic := "" } rfl
      "bedrock" "198.51.100.7" "Wed, 04 Nov 2026 10:00:00 UTC" false).1⟩

/-- C17: the outcome of the `Publish` calls is discarded at both call sites, so two
runs that differ only in those outcomes are the same run: same calls in the same
order (hence the same probes and the same `UpdateService` request) and the same
exit code. -/
theorem publish_outcome_does_not_alter_run (cfg : Config) (w : World) (errs : List Bool) :
    run cfg { w with publishErrs := errs } = run cfg w ∧
    (run cfg { w with publishErrs := errs }).1.exitCode = (run cfg w).1.exitCode ∧
    (run cfg { w with publishErrs := errs }).2.filter Effect.isProbe
      = (run cfg w).2.filter Effect.isProbe ∧
    (run cfg { w with publishErrs := errs }).2.filter Effect.isUpdateService
      = (run cfg w).2.filter Effect.isUpdateService ∧
    (∀ (edition publicIP now : String),
      (sendStartupNotification cfg edition publicIP now).1 = Call.ret ()) ∧
    (∀ now : String, (sendShutdownNotification cfg now).1 = Call.ret ()) := by
  have h : run cfg { w with publishErrs := errs } = run cfg w := rfl
  exact ⟨h, by rw [h], by rw [h], by rw [h],
    fun edition publicIP now => sendStartupNotification_ret cfg edition publicIP now,
    fun now => sendShutdownNotification_ret cfg now⟩

/-- C18: `shutdownService` makes at most one `Publish` (the shutdown notification,
none when `SNSTopic` is empty) and then exactly one `UpdateService` call with
`cfg.Cluster`, `cfg.Service` and desired count 0, with no other call before it;
when that call fails the process ends through `exitWithError` with exit code 1,
otherwise the function returns. -/
theorem shutdownService_notifies_then_scales_to_zero (cfg : Config) (now : String)
    (updateErr : Bool) :
    (shutdownService cfg now updateErr).2
      = (if cfg.SNSTopic = "" then []
          else [Effect.publish cfg.SNSTopic (shutdownMessage cfg now)]) ++
        [Effect.updateService cfg.Cluster cfg.Service 0] ∧
    ((shutdownService cfg now updateErr).2.filter Effect.isPublish).length ≤ 1 ∧
    (shutdownService cfg now updateErr).2.filter Effect.isUpdateService
      = [Effect.updateService cfg.Cluster cfg.Service 0] ∧
    (∀ x ∈ (shutdownService cfg now updateErr).2,
      x.isPublish = true ∨ x = Effect.updateService cfg.Cluster cfg.Service 0) ∧
    (updateErr = true →
      (shutdownService cfg now updateErr).1
        = Call.stop (exitWithError "Failed to set service desired count to zero") ∧
      (exitWithError "Failed to set service desired count to zero").exitCode = some 1) ∧
    (updateErr = false → (shutdownService cfg now updateErr).1 = Call.ret ()) := by
  have hcalls : (shutdownService cfg now updateErr).2
      = (if cfg.SNSTopic = "" then []
          else [Effect.publish cfg.SNSTopic (shutdownMessage cfg now)]) ++
        [Effect.updateService cfg.Cluster cfg.Service 0] := by
    cases updateErr with
    | false => rw [shutdownService_ok]; unfold sendShutdownNotification; split <;> rfl
    | true => rw [shutdownService_err]; unfold sendShutdownNotification; split <;> rfl
  refine ⟨hcalls, ?_, ?_, ?_, ?_, ?_⟩
  · rw [hcalls]; split <;> simp [Effect.isPublish]
  · rw [hcalls]; split <;> simp [Effect.isUpdateService]
  · rw [hcalls]
    intro x hx
    split at hx
    · simp at hx; exact Or.inr hx
    · simp at hx
      rcases hx with hx | hx
      · rw [hx]; exact Or.inl rfl
      · exact Or.inr hx
  · intro h
    subst h
    rw [shutdownService_err]
    exact ⟨rfl, rfl⟩
  · intro h
    subst h
    rw [shutdownService_ok]

theorem shutdownService_notifies_then_scales_to_zero_witness :
    (shutdownService scenarioAConfig "Wed, 04 Nov 2026 10:02:00 UTC" true).1
      = Call.stop (exitWithError "Failed to set service desired count to zero") ∧
    (exitWithError "Failed to set service desired count to zero").exitCode = some 1 :=
  (shutdownService_notifies_then_scales_to_zero scenarioAConfig
    "Wed, 04 Nov 2026 10:02:00 UTC" true).2.2.2.2.1 rfl

/-! ## Properties of the DNS publish -/

theorem applyChange_upsert_idem (zone : Zone) (rrset : ResourceRecordSet) :
    applyChange (applyChange zone { action := ChangeAction.UPSERT, resourceRecordSet := rrset })
        { action := ChangeAction.UPSERT, resourceRecordSet := rrset }
      = applyChange zone { action := ChangeAction.UPSERT, resourceRecordSet := rrset } := by
  funext key
  unfold applyChange
  by_cases h : key = (rrset.name, rrset.type)
  · simp [h]
  · simp [h]

/-- C19: `updateDNSRecord` issues one `ChangeResourceRecordSets` request for zone
`cfg.DNSZone` whose batch is a single UPSERT of the A record `cfg.ServerName` with
TTL 30 and the one value `publicIP`; with the zone as a map from (name, type) to
record set and UPSERT as insert-or-replace, applying that batch twice gives the
same zone as applying it once: the A record of the name holds the new value and
every other entry is untouched. -/
theorem updateDNSRecord_upsert_idempotent (cfg : Config) (publicIP : String) (dnsErr : Bool)
    (zone : Zone) :
    dnsChangeRequest cfg publicIP
      = { hostedZoneId := cfg.DNSZone,
          changes :=
            [{ action := ChangeAction.UPSERT,
               resourceRecordSet :=
                 { name := cfg.ServerName, type := "A", ttl := 30,
                   records := [publicIP] } }] } ∧
    (dnsChangeRequest cfg publicIP).changes.length = 1 ∧
    (updateDNSRecord cfg publicIP dnsErr).2
      = [Effect.changeResourceRecordSets (dnsChangeRequest cfg publicIP).hostedZoneId
          cfg.ServerName 30 publicIP] ∧
    applyBatch (applyBatch zone (dnsChangeRequest cfg publicIP).changes)
        (dnsChangeRequest cfg publicIP).changes
      = applyBatch zone (dnsChangeRequest cfg publicIP).changes ∧
    applyBatch zone (dnsChangeRequest cfg publicIP).changes (cfg.ServerName, "A")
      = some { name := cfg.ServerName, type := "A", ttl := 30, records := [publicIP] } ∧
    (∀ key : String × String, key ≠ (cfg.ServerName, "A") →
      applyBatch zone (dnsChangeRequest cfg publicIP).changes key = zone key) := by
  refine ⟨rfl, rfl, ?_, ?_, ?_, ?_⟩
  · unfold updateDNSRecord
    simp only
    split <;> rfl
  · simp only [dnsChangeRequest, applyBatch, List.foldl_cons, List.foldl_nil]
    exact applyChange_upsert_idem zone _
  · simp [dnsChangeRequest, applyBatch, applyChange]
  · intro key hkey
    simp [dnsChangeRequest, applyBatch, applyChange, hkey]

example : applyBatch (fun _ => none) (dnsChangeRequest scenarioAConfig "198.51.100.7").changes
    ("mc.example.com", "A")
    = some { name := "mc.example.com", type := "A", ttl := 30, records := ["198.51.100.7"] } := by
  decide

/-! ## Properties of the notification texts -/

theorem containsText_mid (before part after : String) :
    containsText (before ++ part ++ after) part :=
  ⟨before, after, rfl⟩

theorem containsText_end (before part : String) : containsText (before ++ part) part :=
  ⟨before, "", by simp⟩

/-- C20: for every configuration with a non-empty `SNSTopic`, the startup
notification is one `Publish` to `cfg.SNSTopic` whose message contains the
edition, the public address, the cluster, the service and the timestamp, and the
shutdown notification is one `Publish` to `cfg.SNSTopic` whose message contains
the service, the cluster and the timestamp. -/
theorem notification_messages_contain_fields (cfg : Config) (htopic : cfg.SNSTopic ≠ "")
    (edition publicIP now : String) :
    sendStartupNotification cfg edition publicIP now
      = (Call.ret (),
          [Effect.publish cfg.SNSTopic (startupMessage cfg edition publicIP now)]) ∧
    containsText (startupMessage cfg edition publicIP now) edition ∧
    containsText (startupMessage cfg edition publicIP now) publicIP ∧
    containsText (startupMessage cfg edition publicIP now) cfg.Cluster ∧
    containsText (startupMessage cfg edition publicIP now) cfg.Service ∧
    containsText (startupMessage cfg edition publicIP now) now ∧
    sendShutdownNotification cfg now
      = (Call.ret (), [Effect.publish cfg.SNSTopic (shutdownMessage cfg now)]) ∧
    containsText (shutdownMessage cfg now) cfg.Service ∧
    containsText (shutdownMessage cfg now) cfg.Cluster ∧
    containsText (shutdownMessage cfg now) now := by
  refine ⟨by simp [sendStartupNotification, htopic], ?_, ?_, ?_, ?_, ?_,
    by simp [sendShutdownNotification, htopic], ?_, ?_, ?_⟩
  · exact ⟨"Server is online.\nService: " ++ cfg.Service ++ "\nEdition: ",
      "\nAddress: " ++ cfg.ServerName ++ " (" ++ publicIP ++ ")\nCluster: " ++ cfg.Cluster ++
        "\nTime: " ++ now,
      by simp only [startupMessage, String.append_assoc]⟩
  · exact ⟨"Server is online.\nService: " ++ cfg.Service ++ "\nEdition: " ++ edition ++
        "\nAddress: " ++ cfg.ServerName ++ " (",
      ")\nCluster: " ++ cfg.Cluster ++ "\nTime: " ++ now,
      by simp only [startupMessage, String.append_assoc]⟩
  · exact ⟨"Server is online.\nService: " ++ cfg.Service ++ "\nEdition: " ++ edition ++
        "\nAddress: " ++ cfg.ServerName ++ " (" ++ publicIP ++ ")\nCluster: ",
      "\nTime: " ++ now,
      by simp only [startupMessage, String.append_assoc]⟩
  · exact ⟨"Server is online.\nService: ",
      "\nEdition: " ++ edition ++ "\nAddress: " ++ cfg.ServerName ++ " (" ++ publicIP ++
        ")\nCluster: " ++ cfg.Cluster ++ "\nTime: " ++ now,
      by simp only [startupMessage, String.append_assoc]⟩
  · exact containsText_end _ now
  · exact ⟨"Shutting down server.\nService: ",
      "\nAddress: " ++ cfg.ServerName ++ "\nCluster: " ++ cfg.Cluster ++ "\nTime: " ++ now,
      by simp only [shutdownMessage, String.append_assoc]⟩
  · exact ⟨"Shutting down server.\nService: " ++ cfg.Service ++ "\nAddress: " ++
        cfg.ServerName ++ "\nCluster: ",
      "\nTime: " ++ now,
      by simp only [shutdownMessage, String.append_assoc]⟩
  · exact containsText_end _ now

theorem notification_messages_contain_fields_witness :
    scenarioAConfig.SNSTopic ≠ "" ∧
    sendStartupNotification scenarioAConfig "bedrock" "198.51.100.7"
        "Wed, 04 Nov 2026 10:00:00 UTC"
      = (Call.ret (),
          [Effect.publish scenarioAConfig.SNSTopic
            (startupMessage scenarioAConfig "bedrock" "198.51.100.7"
              "Wed, 04 Nov 2026 10:00:00 UTC")]) :=
  ⟨by decide,
    (notification_messages_contain_fields scenarioAConfig (by decide) "bedrock"
      "198.51.100.7" "Wed, 04 Nov 2026 10:00:00 UTC").1⟩

example : startupMessage scenarioAConfig "bedrock" "198.51.100.7" "Wed, 04 Nov 2026 10:00:00 UTC"
    = "Server is online.\nService: minecraft-server\nEdition: bedrock\nAddress: mc.example.com (198.51.100.7)\nCluster: minecraft\nTime: Wed, 04 Nov 2026 10:00:00 UTC" := by
  decide

example : shutdownMessage scenarioAConfig "Wed, 04 Nov 2026 10:02:00 UTC"
    = "Shutting down server.\nService: minecraft-server\nAddress: mc.example.com\nCluster: minecraft\nTime: Wed, 04 Nov 2026 10:02:00 UTC" := by
  decide

/-! ## The idle window counted in polls -/

theorem monitor_counter_eq_trailingIdle (W : Int) (obs : List Bool) (i : Nat) (x : Int)
    (hx : (monitorClientConnections W obs).counters[i]? = some x) :
    x = (trailingIdle (obs.take (i + 1)) : Int) := by
  have hi : i < obs.length := by
    have h1 := (List.getElem?_eq_some_iff.mp hx).1
    have h2 := monitorLoop_counters_length_le W obs 0
    unfold monitorClientConnections at h1
    omega
  have hlen : (obs.take (i + 1)).length = i + 1 := by
    rw [List.length_take]; omega
  have := monitorLoop_counter_at W obs 0 i x hx
  by_cases hall : (obs.take (i + 1)).all (fun o => !o) = true
  · rw [if_pos hall] at this
    rw [this, trailingIdle_of_all _ hall, hlen]
    push_cast; ring
  · rw [if_neg hall] at this
    exact this

theorem monitorLoop_polls_of_running (W : Int) (obs : List Bool) :
    ∀ c : Int, (monitorLoop W c obs).shutdown = false →
      (monitorLoop W c obs).counters.length = obs.length := by
  induction obs with
  | nil => intro c _; by_cases h : c ≤ W <;> simp [monitorLoop, h]
  | cons o rest ih =>
    intro c hs
    by_cases h : c ≤ W
    · simp only [monitorLoop, h, if_true] at hs ⊢
      simp only [List.length_cons]
      rw [ih (monitorStep c o) hs]
    · simp [monitorLoop, h] at hs

theorem monitorLoop_of_negative_window (W : Int) (hW : W < 0) (obs : List Bool) :
    monitorClientConnections W obs = { counters := [], shutdown := true, rest := obs } := by
  have h : ¬ (0 : Int) ≤ W := by omega
  cases obs <;> simp [monitorClientConnections, monitorLoop, h]

theorem trailingIdle_le_length (l : List Bool) : trailingIdle l ≤ l.length := by
  unfold trailingIdle
  have h := (List.takeWhile_prefix (fun o => !o) (l := l.reverse)).length_le
  simpa using h

theorem trailingIdle_take_succ_le (l : List Bool) (m : Nat) :
    trailingIdle (l.take (m + 1)) ≤ trailingIdle (l.take m) + 1 := by
  by_cases hm : m < l.length
  · rw [List.take_succ, List.getElem?_eq_getElem hm]
    simp only [Option.toList_some]
    unfold trailingIdle
    rw [List.reverse_append, List.reverse_singleton, List.singleton_append,
      List.takeWhile_cons]
    split
    · simp
    · simp
  · have h1 : l.take (m + 1) = l := List.take_of_length_le (by omega)
    have h2 : l.take m = l := List.take_of_length_le (by omega)
    rw [h1, h2]
    omega

theorem monitor_early_counters_le (W : Int) (obs : List Bool) (i : Nat)
    (hi : i + 1 < (monitorClientConnections W obs).polls) :
    (trailingIdle (obs.take (i + 1)) : Int) ≤ W := by
  unfold MonitorRun.polls at hi
  have hi0 : i < (monitorClientConnections W obs).counters.length := by omega
  have hx : (monitorClientConnections W obs).counters[i]?
      = some ((monitorClientConnections W obs).counters[i]) := List.getElem?_eq_getElem hi0
  rw [← monitor_counter_eq_trailingIdle W obs i _ hx]
  apply monitorLoop_dropLast_le W obs 0
  have hd : i < (monitorClientConnections W obs).counters.dropLast.length := by
    rw [List.length_dropLast]; omega
  have hmem := List.getElem_mem hd
  rw [List.getElem_dropLast] at hmem
  exact hmem

theorem getLastD_eq_getLast (l : List Int) (h : l ≠ []) : l.getLastD 0 = l.getLast h := by
  cases l with
  | nil => exact absurd rfl h
  | cons a l => simp [List.getLastD, List.getLast?_eq_getLast]

theorem monitor_shutdown_iff_last (W : Int) (obs : List Bool)
    (hpos : 0 < (monitorClientConnections W obs).polls) :
    (monitorClientConnections W obs).shutdown = true ↔
      W < (trailingIdle (obs.take (monitorClientConnections W obs).polls) : Int) := by
  unfold MonitorRun.polls at hpos ⊢
  have hne : (monitorClientConnections W obs).counters ≠ [] := by
    intro h; rw [h] at hpos; simp at hpos
  have hlast : (monitorClientConnections W obs).counters.getLastD 0
      = (monitorClientConnections W obs).counters.getLast hne :=
    getLastD_eq_getLast _ hne
  have hidx : (monitorClientConnections W obs).counters[
      (monitorClientConnections W obs).counters.length - 1]?
      = some ((monitorClientConnections W obs).counters.getLast hne) := by
    rw [List.getLast_eq_getElem, List.getElem?_eq_getElem]
  have hval := monitor_counter_eq_trailingIdle W obs _ _ hidx
  have hsucc : (monitorClientConnections W obs).counters.length - 1 + 1
      = (monitorClientConnections W obs).counters.length := by omega
  rw [hsucc] at hval
  have hiff := monitorLoop_shutdown_iff W obs 0
  unfold monitorClientConnections at hlast hval ⊢
  rw [hiff, hlast, hval]

theorem monitor_no_shutdown_without_poll (W : Int) (hW : 0 ≤ W) (obs : List Bool)
    (hp : (monitorClientConnections W obs).polls = 0) :
    (monitorClientConnections W obs).shutdown = false := by
  unfold MonitorRun.polls at hp
  have hnil : (monitorClientConnections W obs).counters = [] := List.length_eq_zero.mp hp
  cases hs : (monitorClientConnections W obs).shutdown with
  | false => rfl
  | true =>
    have h := (monitorLoop_shutdown_iff W obs 0).mp hs
    unfold monitorClientConnections at hnil
    rw [hnil] at h
    simp at h
    omega

theorem monitorLoop_rest (W : Int) (obs : List Bool) :
    ∀ c : Int, (monitorLoop W c obs).rest = obs.drop (monitorLoop W c obs).counters.length := by
  induction obs with
  | nil => intro c; by_cases h : c ≤ W <;> simp [monitorLoop, h]
  | cons o rest ih =>
    intro c
    by_cases h : c ≤ W
    · simp only [monitorLoop, h, if_true, List.length_cons, List.drop_succ_cons]
      exact ih (monitorStep c o)
    · simp [monitorLoop, h]

/-- C23: for every idle window `W >= 0`, `monitorClientConnections` shuts down
after poll `n` exactly when the `n`-th observation ends the first run of `W+1`
consecutive negative observations (counted from entry or from the last positive
observation); it has then made at least `W+1` polls and polls nothing further.  For
every `W < 0` it goes to `shutdownService` without making any poll. -/
theorem monitor_shutdown_at_first_idle_run (W : Int) (obs : List Bool) :
    (0 ≤ W → ∀ n : Nat, n ≤ obs.length →
      (((monitorClientConnections W obs).shutdown = true ∧
          (monitorClientConnections W obs).polls = n) ↔
        (W < (trailingIdle (obs.take n) : Int) ∧
          ∀ m < n, (trailingIdle (obs.take m) : Int) ≤ W))) ∧
    (0 ≤ W → (monitorClientConnections W obs).shutdown = true →
      W + 1 ≤ ((monitorClientConnections W obs).polls : Int) ∧
      (monitorClientConnections W obs).polls ≤ obs.length ∧
      (trailingIdle (obs.take (monitorClientConnections W obs).polls) : Int) = W + 1 ∧
      (monitorClientConnections W obs).rest
        = obs.drop (monitorClientConnections W obs).polls) ∧
    (W < 0 →
      monitorClientConnections W obs = { counters := [], shutdown := true, rest := obs } ∧
      (monitorClientConnections W obs).polls = 0) := by
  have hzero : (trailingIdle (obs.take 0) : Int) = 0 := by simp [trailingIdle]
  have hfwd : 0 ≤ W → (monitorClientConnections W obs).shutdown = true →
      0 < (monitorClientConnections W obs).polls ∧
      W < (trailingIdle (obs.take (monitorClientConnections W obs).polls) : Int) ∧
      ∀ m < (monitorClientConnections W obs).polls, (trailingIdle (obs.take m) : Int) ≤ W := by
    intro hW hs
    have hpos : 0 < (monitorClientConnections W obs).polls := by
      by_contra hp
      have := monitor_no_shutdown_without_poll W hW obs (by omega)
      rw [hs] at this
      cases this
    refine ⟨hpos, (monitor_shutdown_iff_last W obs hpos).mp hs, ?_⟩
    intro m hm
    cases m with
    | zero => rw [hzero]; exact hW
    | succ i => exact monitor_early_counters_le W obs i hm
  have hle : (monitorClientConnections W obs).polls ≤ obs.length :=
    monitorLoop_counters_length_le W obs 0
  refine ⟨?_, ?_, ?_⟩
  · intro hW n hn
    constructor
    · rintro ⟨hs, hp⟩
      obtain ⟨_, h2, h3⟩ := hfwd hW hs
      rw [hp] at h2 h3
      exact ⟨h2, h3⟩
    · rintro ⟨hn1, hfirst⟩
      have hnpos : 0 < n := by
        by_contra h0
        have : n = 0 := by omega
        subst this
        rw [hzero] at hn1
        omega
      have hnotgt : ¬ n < (monitorClientConnections W obs).polls := by
        intro hgt
        have := monitor_early_counters_le W obs (n - 1) (by omega)
        have hn2 : n - 1 + 1 = n := by omega
        rw [hn2] at this
        omega
      have hnotlt : ¬ (monitorClientConnections W obs).polls < n := by
        intro hlt
        cases hs : (monitorClientConnections W obs).shutdown with
        | true =>
          obtain ⟨_, h2, _⟩ := hfwd hW hs
          have := hfirst _ hlt
          omega
        | false =>
          have := monitorLoop_polls_of_running W obs 0 hs
          unfold MonitorRun.polls monitorClientConnections at hlt
          omega
      have hp : (monitorClientConnections W obs).polls = n := by omega
      refine ⟨?_, hp⟩
      rw [monitor_shutdown_iff_last W obs (by omega), hp]
      exact hn1
  · intro hW hs
    obtain ⟨hpos, h2, h3⟩ := hfwd hW hs
    have hstep := trailingIdle_take_succ_le obs ((monitorClientConnections W obs).polls - 1)
    have hsucc : (monitorClientConnections W obs).polls - 1 + 1
        = (monitorClientConnections W obs).polls := by omega
    rw [hsucc] at hstep
    have hprev := h3 ((monitorClientConnections W obs).polls - 1) (by omega)
    have hlen := trailingIdle_le_length (obs.take (monitorClientConnections W obs).polls)
    rw [List.length_take] at hlen
    refine ⟨by omega, hle, by omega, ?_⟩
    exact monitorLoop_rest W obs 0
  · intro hW
    have h := monitorLoop_of_negative_window W hW obs
    exact ⟨h, by rw [h]; rfl⟩

theorem monitor_shutdown_at_first_idle_run_witness :
    (0 : Int) ≤ 2 ∧
    (monitorClientConnections 2 [false, true, false, false, false, true]).shutdown = true ∧
    (2 : Int) + 1 ≤ ((monitorClientConnections 2 [false, true, false, false, false, true]).polls
      : Int) ∧
    (monitorClientConnections 2 [false, true, false, false, false, true]).polls ≤ 6 :=
  have h := (monitor_shutdown_at_first_idle_run 2
    [false, true, false, false, false, true]).2.1 (by decide) (by decide)
  ⟨by decide, by decide, h.1, h.2.1⟩

example : monitorClientConnections 2 [false, true, false, false, false, true]
    = { counters := [1, 0, 1, 2, 3], shutdown := true, rest := [true] } := by decide
example : monitorClientConnections (-1) [false, true]
    = { counters := [], shutdown := true, rest := [false, true] } := by decide

/-! ## The RCON wait is outside the detection ceiling -/

/-- C24: for every `n`, when port 25565 listens at the first detection poll and
none of the next `n` polls of `waitForRCON` shows port 25575 listening, then after
those `n` polls `determineEdition` has neither returned an edition nor raised the
fatal timeout: it is still polling, having made one query and one one-second
sleep per poll, however large `n` is. -/
theorem rcon_wait_has_no_ceiling (n : Nat) (p : DetectPoll) (polls : List DetectPoll)
    (rcon : List (List ConnectionStat))
    (hj : isPortOpen javaPort p.javaQuery = true) (hlen : rcon.length = n)
    (hclosed : ∀ t ∈ rcon, isPortOpen rconPort t = false) :
    determineEdition (p :: polls) rcon
      = (Call.stop Outcome.running, Effect.connections :: rconWaitCalls n) ∧
    (∀ e, (determineEdition (p :: polls) rcon).1 ≠ Call.ret e) ∧
    (determineEdition (p :: polls) rcon).1 ≠ Call.stop (exitWithError
      "10 minutes elapsed without Minecraft server starting. Terminating.") ∧
    (rconWaitCalls n).length = 2 * n := by
  have hrun : determineEdition (p :: polls) rcon
      = (Call.stop Outcome.running, Effect.connections :: rconWaitCalls n) := by
    unfold determineEdition
    rw [determineEditionLoop_java rcon 0 p polls hj, waitForRCON_of_no_listener rcon hclosed,
      hlen]
  refine ⟨hrun, ?_, ?_, ?_⟩
  · intro e h
    rw [hrun] at h
    cases h
  · intro h
    rw [hrun] at h
    cases h
  · clear hlen hrun
    induction n with
    | zero => rfl
    | succ k ih => simp only [rconWaitCalls, List.length_cons, ih]; omega

theorem rcon_wait_has_no_ceiling_witness :
    (List.replicate 700 javaOnlySnapshot).length = 700 ∧
    (determineEdition ({ javaQuery := javaOnlySnapshot, bedrockQuery := javaOnlySnapshot } :: [])
      (List.replicate 700 javaOnlySnapshot)).1 = Call.stop Outcome.running :=
  ⟨List.length_replicate 700 javaOnlySnapshot,
    by
      rw [(rcon_wait_has_no_ceiling 700
        { javaQuery := javaOnlySnapshot, bedrockQuery := javaOnlySnapshot } []
        (List.replicate 700 javaOnlySnapshot) (by decide)
        (List.length_replicate 700 javaOnlySnapshot)
        (by intro t ht; rw [List.eq_of_mem_replicate ht]; decide)).1]⟩

/-! ## Safety of `resolvePublicIP` -/

theorem findNetworkInterfaceId_first (pre : List KeyValuePair) (d : KeyValuePair)
    (post : List KeyValuePair) (hpre : ∀ q ∈ pre, q.name ≠ some "networkInterfaceId")
    (hd : d.name = some "networkInterfaceId") :
    findNetworkInterfaceId (pre ++ d :: post) = d.value := by
  induction pre with
  | nil => simp [findNetworkInterfaceId, hd]
  | cons q pre ih =>
    have hq := hpre q (List.mem_cons_self _ _)
    simp only [List.cons_append, findNetworkInterfaceId, hq, if_false]
    exact ih (fun r hr => hpre r (List.mem_cons_of_mem _ hr))

theorem findNetworkInterfaceId_none_named (details : List KeyValuePair)
    (h : ∀ q ∈ details, q.name ≠ some "networkInterfaceId") :
    findNetworkInterfaceId details = some "" := by
  induction details with
  | nil => rfl
  | cons q details ih =>
    have hq := h q (List.mem_cons_self _ _)
    simp only [findNetworkInterfaceId, hq, if_false]
    exact ih (fun r hr => h r (List.mem_cons_of_mem _ hr))

/-- C28 fails as stated: the first task has an attachment and the first interface
has an association with a public IP, yet `resolvePublicIP` ends on a nil
dereference, because the detail named `networkInterfaceId` carries no value. -/
theorem resolvePublicIP_nil_value_panics :
    (resolvePublicIP scenarioAConfig "arn:aws:ecs:task/1"
      (some [{ attachments :=
        [{ details := [{ name := some "networkInterfaceId", value := none }] }] }])
      (some [{ association := some (some "198.51.100.7") }])).1
      = Call.stop Outcome.panicked := by
  decide

/-- C28 (amended): `resolvePublicIP` returns the public IP when DescribeTasks
succeeds with a first task that has an attachment, the first detail of that
attachment named `networkInterfaceId` (if any) has a non-nil value, and
DescribeNetworkInterfaces succeeds with a first interface that has an association
with a public IP; EC2 is queried with that value, or with the empty string when no
detail has the name.  An error or an empty task list, and an error of
DescribeNetworkInterfaces, are fatal exits through `exitWithError` (code 1); a
first task without attachments, a nil value of the named detail, an empty
interface list and a nil association or public IP end the process on a runtime
panic instead of reaching `exitWithError`. -/
theorem resolvePublicIP_safe_under_precondition (cfg : Config) (taskID : String)
    (attachment : Attachment) (attachments : List Attachment) (tasks : List Task)
    (interfaces : Option (List NetworkInterface)) :
    (∀ (eni publicIP : String) (nis : List NetworkInterface),
      findNetworkInterfaceId attachment.details = some eni →
      resolvePublicIP cfg taskID (some ({ attachments := attachment :: attachments } :: tasks))
          (some ({ association := some (some publicIP) } :: nis))
        = (Call.ret publicIP,
            [Effect.describeTasks cfg.Cluster taskID, Effect.describeNetworkInterfaces eni])) ∧
    (∀ (pre : List KeyValuePair) (d : KeyValuePair) (post : List KeyValuePair),
      (∀ q ∈ pre, q.name ≠ some "networkInterfaceId") → d.name = some "networkInterfaceId" →
      findNetworkInterfaceId (pre ++ d :: post) = d.value) ∧
    (∀ details : List KeyValuePair, (∀ q ∈ details, q.name ≠ some "networkInterfaceId") →
      findNetworkInterfaceId details = some "") ∧
    (resolvePublicIP cfg taskID none interfaces
        = (Call.stop (exitWithError "Failed to describe ECS task"),
            [Effect.describeTasks cfg.Cluster taskID]) ∧
      resolvePublicIP cfg taskID (some []) interfaces
        = (Call.stop (exitWithError "Failed to describe ECS task"),
            [Effect.describeTasks cfg.Cluster taskID]) ∧
      (exitWithError "Failed to describe ECS task").exitCode = some 1) ∧
    (resolvePublicIP cfg taskID (some ({ attachments := [] } :: tasks)) interfaces
        = (Call.stop Outcome.panicked, [Effect.describeTasks cfg.Cluster taskID])) ∧
    (findNetworkInterfaceId attachment.details = none →
      resolvePublicIP cfg taskID (some ({ attachments := attachment :: attachments } :: tasks))
          interfaces
        = (Call.stop Outcome.panicked, [Effect.describeTasks cfg.Cluster taskID])) ∧
    (∀ eni : String, findNetworkInterfaceId attachment.details = some eni →
      resolvePublicIP cfg taskID (some ({ attachments := attachment :: attachments } :: tasks))
          none
        = (Call.stop (exitWithError "Failed to describe network interfaces"),
            [Effect.describeTasks cfg.Cluster taskID, Effect.describeNetworkInterfaces eni]) ∧
      resolvePublicIP cfg taskID (some ({ attachments := attachment :: attachments } :: tasks))
          (some [])
        = (Call.stop Outcome.panicked,
            [Effect.describeTasks cfg.Cluster taskID, Effect.describeNetworkInterfaces eni]) ∧
      (∀ nis : List NetworkInterface,
        (resolvePublicIP cfg taskID
            (some ({ attachments := attachment :: attachments } :: tasks))
            (some ({ association := none } :: nis))).1 = Call.stop Outcome.panicked ∧
        (resolvePublicIP cfg taskID
            (some ({ attachments := attachment :: attachments } :: tasks))
            (some ({ association := some none } :: nis))).1 = Call.stop Outcome.panicked)) ∧
    Outcome.panicked.exitCode ≠ some 1 := by
  refine ⟨?_, findNetworkInterfaceId_first, findNetworkInterfaceId_none_named,
    ⟨rfl, rfl, rfl⟩, rfl, ?_, ?_, by decide⟩
  · intro eni publicIP nis heni
    simp only [resolvePublicIP, heni]
  · intro hnone
    simp only [resolvePublicIP, hnone]
  · intro eni heni
    refine ⟨?_, ?_, ?_⟩
    · simp only [resolvePublicIP, heni]
    · simp only [resolvePublicIP, heni]
    · intro nis
      constructor <;> simp only [resolvePublicIP, heni]

theorem resolvePublicIP_safe_under_precondition_witness :
    findNetworkInterfaceId
      [{ name := some "subnetId", value := some "subnet-1" },
       { name := some "networkInterfaceId", value := some "eni-1" }] = some "eni-1" ∧
    resolvePublicIP scenarioAConfig "arn:aws:ecs:task/1"
      (some ({ attachments :=
        { details := [{ name := some "subnetId", value := some "subnet-1" },
                      { name := some "networkInterfaceId", value := some "eni-1" }] } :: [] }
        :: []))
      (some ({ association := some (some "198.51.100.7") } :: []))
      = (Call.ret "198.51.100.7",
          [Effect.describeTasks scenarioAConfig.Cluster "arn:aws:ecs:task/1",
           Effect.describeNetworkInterfaces "eni-1"]) :=
  ⟨by decide,
    (resolvePublicIP_safe_under_precondition scenarioAConfig "arn:aws:ecs:task/1"
      { details := [{ name := some "subnetId", value := some "subnet-1" },
                    { name := some "networkInterfaceId", value := some "eni-1" }] } [] []
      none).1 "eni-1" "198.51.100.7" [] (by decide)⟩

end Watchdog

namespace Launcher

/-! ## Properties of the launcher -/

/-- C22: `HandleRequest` issues `UpdateService` with desired count 1 exactly when
the describe call succeeded, returned at least one service and the first service
has desired count 0; with a non-zero desired count it issues no update and
returns nil; when the describe call or the update call fails it returns that
error. -/
theorem launcher_updates_iff_first_service_idle (cfg : Config) (describe : DescribeResult)
    (updateErr : Option String) :
    (Request.updateService cfg.Cluster cfg.Service 1 ∈ (HandleRequest cfg describe updateErr).2 ↔
      ∃ service rest, describe = DescribeResult.ok (service :: rest) ∧
        service.desiredCount = 0) ∧
    (∀ x ∈ (HandleRequest cfg describe updateErr).2,
      x = Request.describeServices cfg.Cluster [cfg.Service] ∨
      x = Request.updateService cfg.Cluster cfg.Service 1) ∧
    (∀ service rest, describe = DescribeResult.ok (service :: rest) →
      service.desiredCount ≠ 0 →
      HandleRequest cfg describe updateErr
        = (none, [Request.describeServices cfg.Cluster [cfg.Service]])) ∧
    (∀ err, describe = DescribeResult.failed err →
      HandleRequest cfg describe updateErr
        = (some err, [Request.describeServices cfg.Cluster [cfg.Service]])) ∧
    (∀ service rest, describe = DescribeResult.ok (service :: rest) →
      service.desiredCount = 0 →
      HandleRequest cfg describe updateErr
        = (updateErr, [Request.describeServices cfg.Cluster [cfg.Service],
            Request.updateService cfg.Cluster cfg.Service 1])) := by
  refine ⟨?_, ?_, ?_, ?_, ?_⟩
  · cases describe with
    | failed err => simp [HandleRequest]
    | ok services =>
      cases services with
      | nil => simp [HandleRequest]
      | cons service rest =>
        by_cases h : service.desiredCount = 0
        · cases updateErr <;> simp [HandleRequest, UpdateDesiredCount, h]
        · simp [HandleRequest, h]
  · intro x hx
    cases describe with
    | failed err => simp [HandleRequest] at hx; exact Or.inl hx
    | ok services =>
      cases services with
      | nil => simp [HandleRequest] at hx; exact Or.inl hx
      | cons service rest =>
        by_cases h : service.desiredCount = 0
        · cases updateErr <;> simp [HandleRequest, UpdateDesiredCount, h] at hx <;> exact hx
        · simp [HandleRequest, h] at hx; exact Or.inl hx
  · intro service rest hd hne
    subst hd
    simp [HandleRequest, hne]
  · intro err hd
    subst hd
    rfl
  · intro service rest hd h0
    subst hd
    cases updateErr <;> simp [HandleRequest, UpdateDesiredCount, h0]

theorem launcher_updates_iff_first_service_idle_witness :
    HandleRequest { Region := "eu-central-1", Cluster := "minecraft", Service := "server" }
      (DescribeResult.ok [{ desiredCount := 0 }]) (some "AccessDeniedException")
      = (some "AccessDeniedException",
          [Request.describeServices "minecraft" ["server"],
           Request.updateService "minecraft" "server" 1]) :=
  (launcher_updates_iff_first_service_idle
    { Region := "eu-central-1", Cluster := "minecraft", Service := "server" }
    (DescribeResult.ok [{ desiredCount := 0 }]) (some "AccessDeniedException")).2.2.2.2
    { desiredCount := 0 } [] rfl rfl

/-- C26: when `DescribeServices` succeeds with an empty service list,
`HandleRequest` issues no `UpdateService` and returns nil: the value it returns is
the nil error left by the successful describe call. -/
theorem launcher_empty_service_list_returns_nil (cfg : Config)
    (updateErr : Option String) :
    HandleRequest cfg (DescribeResult.ok []) updateErr
      = (none, [Request.describeServices cfg.Cluster [cfg.Service]]) ∧
    (∀ cluster service count,
      Request.updateService cluster service count
        ∉ (HandleRequest cfg (DescribeResult.ok []) updateErr).2) := by
  refine ⟨rfl, ?_⟩
  intro cluster service count h
  simp [HandleRequest] at h

end Launcher

namespace LogForwarder

/-! ## Properties of `extractLogGroupName` -/

theorem stringsSplit_append_sep (sep : Char) (a rest : List Char) (h : sep ∉ a) :
    stringsSplit sep (a ++ sep :: rest) = a :: stringsSplit sep rest := by
  induction a with
  | nil => simp [stringsSplit]
  | cons c a ih =>
    have hc : c ≠ sep := fun hcs => h (by rw [hcs]; exact List.mem_cons_self _ _)
    have ha : sep ∉ a := fun hm => h (List.mem_cons_of_mem _ hm)
    show stringsSplit sep (c :: (a ++ sep :: rest)) = (c :: a) :: stringsSplit sep rest
    simp only [stringsSplit, hc, if_false]
    rw [ih ha]

theorem stringsSplit_no_sep (sep : Char) (a : List Char) (h : sep ∉ a) :
    stringsSplit sep a = [a] := by
  induction a with
  | nil => rfl
  | cons c a ih =>
    have hc : c ≠ sep := fun hcs => h (by rw [hcs]; exact List.mem_cons_self _ _)
    have ha : sep ∉ a := fun hm => h (List.mem_cons_of_mem _ hm)
    simp only [stringsSplit, hc, if_false, ih ha]

theorem stringsSplit_length (sep : Char) (s : List Char) :
    (stringsSplit sep s).length = s.count sep + 1 := by
  induction s with
  | nil => rfl
  | cons c s ih =>
    by_cases h : c = sep
    · subst h
      simp [stringsSplit, ih]
    · have hne : (c == sep) = false := by simpa using h
      cases hs : stringsSplit sep s with
      | nil => rw [hs] at ih; simp at ih
      | cons f fs =>
        rw [hs] at ih
        simp only [stringsSplit, h, if_false, hs, List.length_cons] at ih ⊢
        rw [List.count_cons, hne]
        simpa using ih

theorem targetLogGroupArn_data (R A N : String) :
    (targetLogGroupArn R A N).data
      = "arn".data ++ ':' :: ("aws".data ++ ':' :: ("logs".data ++ ':' :: (R.data ++ ':' ::
          (A.data ++ ':' :: ("log-group".data ++ ':' :: (N.data ++ ':' :: "*".data)))))) := by
  have h1 : "arn:aws:logs:".data = "arn".data ++ ':' :: ("aws".data ++ ':' ::
      ("logs".data ++ [':'])) := by decide
  have h2 : ":".data = [':'] := by decide
  have h3 : ":log-group:".data = ':' :: ("log-group".data ++ [':']) := by decide
  have h4 : ":*".data = ':' :: "*".data := by decide
  simp only [targetLogGroupArn, String.data_append, h1, h2, h3, h4, List.append_assoc,
    List.cons_append, List.nil_append, List.singleton_append]

theorem extractLogGroupName_of_arn (R A N : String) (hR : ':' ∉ R.data) (hA : ':' ∉ A.data)
    (hN : ':' ∉ N.data) :
    extractLogGroupName (targetLogGroupArn R A N) = "log-group" := by
  have hparts : stringsSplit ':' (targetLogGroupArn R A N).data
      = ["arn".data, "aws".data, "logs".data, R.data, A.data, "log-group".data, N.data,
         "*".data] := by
    rw [targetLogGroupArn_data,
      stringsSplit_append_sep ':' _ _ (by decide),
      stringsSplit_append_sep ':' _ _ (by decide),
      stringsSplit_append_sep ':' _ _ (by decide),
      stringsSplit_append_sep ':' _ _ hR,
      stringsSplit_append_sep ':' _ _ hA,
      stringsSplit_append_sep ':' _ _ (by decide),
      stringsSplit_append_sep ':' _ _ hN,
      stringsSplit_no_sep ':' _ (by decide)]
  unfold extractLogGroupName
  simp only [hparts]
  rfl

/-- C21: on the ARN format the stack passes (`arn:aws:logs:R:A:log-group:N:*` with
no `:` inside `R`, `A`, `N`) `extractLogGroupName` does not return the log group
name `N`: part 5 of the split is the literal `log-group`, from which the prefix
`log-group:` cannot be trimmed, so the result is "log-group" for every `N`.  For
an input with fewer than 6 colon-separated parts the result is the empty string,
and `NewLogForwarder` uses the function only when `TARGET_LOG_GROUP_NAME` is
empty. -/
theorem extractLogGroupName_returns_literal_part (R A N : String) (hR : ':' ∉ R.data)
    (hA : ':' ∉ A.data) (hN : ':' ∉ N.data) :
    extractLogGroupName (targetLogGroupArn R A N) = "log-group" ∧
    (N ≠ "log-group" → extractLogGroupName (targetLogGroupArn R A N) ≠ N) ∧
    (∀ arn : String, arn.data.count ':' < 5 → extractLogGroupName arn = "") ∧
    (∀ name arn : String, name ≠ "" → resolveLogGroupName name arn = some name) ∧
    resolveLogGroupName "" (targetLogGroupArn R A N) = some "log-group" := by
  have hval := extractLogGroupName_of_arn R A N hR hA hN
  refine ⟨hval, ?_, ?_, ?_, ?_⟩
  · intro hne h
    rw [hval] at h
    exact hne h.symm
  · intro arn hcount
    have hlen : (stringsSplit ':' arn.data).length < 6 := by
      rw [stringsSplit_length]; omega
    simp only [extractLogGroupName, hlen, if_true]
  · intro name arn hname
    simp [resolveLogGroupName, hname]
  · have harn : targetLogGroupArn R A N ≠ "" := by
      intro h
      have hd := congrArg String.data h
      rw [targetLogGroupArn_data] at hd
      simp at hd
    simp [resolveLogGroupName, harn, hval]

theorem extractLogGroupName_returns_literal_part_witness :
    extractLogGroupName
      (targetLogGroupArn "us-east-1" "111122223333" "/aws/route53/mc.example.com")
      = "log-group" ∧
    targetLogGroupArn "us-east-1" "111122223333" "/aws/route53/mc.example.com"
      = "arn:aws:logs:us-east-1:111122223333:log-group:/aws/route53/mc.example.com:*" :=
  ⟨(extractLogGroupName_returns_literal_part "us-east-1" "111122223333"
      "/aws/route53/mc.example.com" (by decide) (by decide) (by decide)).1,
    by decide⟩

example : extractLogGroupName "arn:aws:logs:us-east-1:111122223333" = "" := by decide

example : extractLogGroupName
    "arn:aws:logs:us-east-1:111122223333:log-group:/aws/route53/mc.example.com:*"
    = "log-group" := by decide

/-! ## Properties of the forwarder's `HandleRequest` -/

theorem forwardEvents_length (logGroupName : String) (io : Nat → ForwardIO)
    (events : List CloudWatchLogEvent) :
    ∀ i : Nat, (forwardEvents logGroupName io i events).length = events.length := by
  induction events with
  | nil => intro i; rfl
  | cons e events ih => intro i; simp [forwardEvents, ih (i + 1)]

theorem forwardEvents_getElem? (logGroupName : String) (io : Nat → ForwardIO)
    (events : List CloudWatchLogEvent) :
    ∀ i k : Nat, (forwardEvents logGroupName io i events)[k]?
      = (events[k]?).map (fun e => forwardLogEvent logGroupName (io (i + k)) e) := by
  induction events with
  | nil => intro i k; simp [forwardEvents]
  | cons e events ih =>
    intro i k
    cases k with
    | zero => simp [forwardEvents]
    | succ k =>
      simp only [forwardEvents, List.getElem?_cons_succ, ih (i + 1) k]
      have : i + 1 + k = i + (k + 1) := by omega
      rw [this]

/-- C25: `HandleRequest` returns a non-nil error exactly when base64 decoding,
gzip decompression or JSON unmarshalling of the payload fails, and it then
forwards nothing; once the payload is parsed it calls `forwardLogEvent` once for
every log event, in payload order, and returns nil whatever those calls
return. -/
theorem forwarder_fails_only_on_payload_errors (codecs : Codecs) (logGroupName : String)
    (io : Nat → ForwardIO) (data : String) :
    ((HandleRequest codecs logGroupName io data).1 ≠ none ↔
      (∃ err, codecs.base64Decode data = Except.error err) ∨
      (∃ decoded err, codecs.base64Decode data = Except.ok decoded ∧
        decompressGzip codecs decoded = Except.error err) ∨
      (∃ decoded decompressed err, codecs.base64Decode data = Except.ok decoded ∧
        decompressGzip codecs decoded = Except.ok decompressed ∧
        codecs.jsonUnmarshal decompressed = Except.error err)) ∧
    ((HandleRequest codecs logGroupName io data).1 ≠ none →
      (HandleRequest codecs logGroupName io data).2 = []) ∧
    (∀ decoded decompressed logData, codecs.base64Decode data = Except.ok decoded →
      decompressGzip codecs decoded = Except.ok decompressed →
      codecs.jsonUnmarshal decompressed = Except.ok logData →
      (HandleRequest codecs logGroupName io data).1 = none ∧
      (HandleRequest codecs logGroupName io data).2.length = logData.LogEvents.length ∧
      ∀ k : Nat, (HandleRequest codecs logGroupName io data).2[k]?
        = (logData.LogEvents[k]?).map (fun e => forwardLogEvent logGroupName (io k) e)) := by
  refine ⟨?_, ?_, ?_⟩
  · unfold HandleRequest
    cases h1 : codecs.base64Decode data with
    | error err => simp
    | ok decoded =>
      cases h2 : decompressGzip codecs decoded with
      | error err => simp [h2]
      | ok decompressed =>
        cases h3 : codecs.jsonUnmarshal decompressed with
        | error err => simp [h2, h3]
        | ok logData => simp [h2, h3]
  · unfold HandleRequest
    cases h1 : codecs.base64Decode data with
    | error err => simp
    | ok decoded =>
      cases h2 : decompressGzip codecs decoded with
      | error err => simp [h2]
      | ok decompressed =>
        cases h3 : codecs.jsonUnmarshal decompressed with
        | error err => simp [h2, h3]
        | ok logData => simp [h2, h3]
  · intro decoded decompressed logData h1 h2 h3
    have hrun : HandleRequest codecs logGroupName io data
        = (none, forwardEvents logGroupName io 0 logData.LogEvents) := by
      simp only [HandleRequest, h1, h2, h3]
    rw [hrun]
    refine ⟨rfl, forwardEvents_length logGroupName io logData.LogEvents 0, ?_⟩
    intro k
    have := forwardEvents_getElem? logGroupName io logData.LogEvents 0 k
    simpa using this

theorem forwarder_fails_only_on_payload_errors_witness :
    (HandleRequest sampleCodecs "/aws/route53/mc.example.com" refusingEnv "H4sI").1 = none ∧
    (HandleRequest sampleCodecs "/aws/route53/mc.example.com" refusingEnv "H4sI").2.length = 2 :=
  have h := (forwarder_fails_only_on_payload_errors sampleCodecs "/aws/route53/mc.example.com"
    refusingEnv "H4sI").2.2 [31, 139] [123, 125]
    { MessageType := "DATA_MESSAGE",
      LogEvents := [{ ID := "1", Timestamp := 1, Message := "first" },
                    { ID := "2", Timestamp := 2, Message := "second" }],
      LogGroup := "/aws/route53/mc.example.com", LogStream := "stream" } rfl rfl rfl
  ⟨h.1, h.2.1⟩

example : (forwardLogEvent "group" (refusingEnv 0)
    { ID := "1", Timestamp := 1, Message := "first" }).1 = some "AccessDeniedException" := by
  decide

end LogForwarder

namespace Cdk

/-! ## Properties of `ConfigureServer` -/

/-- C27: for every edition and debug string `ConfigureServer` gives port 25565,
protocol TCP and image `itzg/minecraft-server` when the edition is "java", and
port 19132, protocol UDP and image `itzg/minecraft-bedrock-server` for every other
edition, the ports the watchdog probes; the ingress rule is always the TCP rule on
that port, so for every edition other than "java" the ingress protocol (TCP)
differs from the container protocol (UDP). -/
theorem configureServer_ports_and_ingress (getenv : String → String) (edition debug : String) :
    (edition = "java" →
      (ConfigureServer getenv edition debug).Port = 25565 ∧
      (ConfigureServer getenv edition debug).Protocol = Protocol.TCP ∧
      (ConfigureServer getenv edition debug).Image = "itzg/minecraft-server" ∧
      (ConfigureServer getenv edition debug).Port = Watchdog.javaPort) ∧
    (edition ≠ "java" →
      (ConfigureServer getenv edition debug).Port = 19132 ∧
      (ConfigureServer getenv edition debug).Protocol = Protocol.UDP ∧
      (ConfigureServer getenv edition debug).Image = "itzg/minecraft-bedrock-server" ∧
      (ConfigureServer getenv edition debug).Port = Watchdog.bedrockPort ∧
      (ConfigureServer getenv edition debug).IngressPort.protocol
        ≠ (ConfigureServer getenv edition debug).Protocol) ∧
    (ConfigureServer getenv edition debug).IngressPort
      = Port_Tcp (ConfigureServer getenv edition debug).Port ∧
    (ConfigureServer getenv edition debug).IngressPort.protocol = Protocol.TCP ∧
    (ConfigureServer getenv edition debug).IngressPort.fromPort
      = (ConfigureServer getenv edition debug).Port ∧
    (ConfigureServer getenv edition debug).IngressPort.toPort
      = (ConfigureServer getenv edition debug).Port ∧
    ((ConfigureServer getenv edition debug).Debug = true ↔ debug = "true") := by
  refine ⟨?_, ?_, rfl, rfl, rfl, rfl, by simp [ConfigureServer]⟩
  · intro h
    subst h
    exact ⟨rfl, rfl, rfl, rfl⟩
  · intro h
    simp [ConfigureServer, h, Port_Tcp, Watchdog.bedrockPort]

theorem configureServer_ports_and_ingress_witness :
    ("bedrock" : String) ≠ "java" ∧
    (ConfigureServer (fun _ => "") "bedrock" "false").Port = 19132 ∧
    (ConfigureServer (fun _ => "") "bedrock" "false").IngressPort
      = { protocol := Protocol.TCP, fromPort := 19132, toPort := 19132 } :=
  ⟨by decide,
    ((configureServer_ports_and_ingress (fun _ => "") "bedrock" "false").2.1 (by decide)).1,
    by decide⟩

end Cdk
